import Mathlib

/-!
Verification development for the agentic-honeypot service
(`app/extractor.py`, `app/detector.py`, `app/agent.py`, `app/main.py`).

The Python code is shallowly embedded: scores are exact rationals (every
constant in the source is a two-decimal literal), the pattern scanners
reproduce Python `re.findall` on the specific regexes of the source, and
the deterministic reply selection reproduces `hashlib.sha256` seeding of
`random.Random` (Mersenne Twister) followed by `Random.choice`, which is
what `app/agent.py` uses.  Network I/O (the GUVI callback) and wall-clock
fields are transport concerns excluded from the embedded core.
-/

namespace Honeypot

/- The Batteries rational arithmetic is `@[irreducible]`; evaluation-based
proofs below need it unfolded (the kernel unfolds it regardless; this only
lets elaboration see the same reductions). -/
attribute [local semireducible] Rat.add Rat.mul Rat.sub Rat.inv Rat.ofScientific

/-! ## Character classes and low-level string helpers -/

/-- ASCII lower-casing, as `str.lower()` acts on the ASCII texts considered
here (non-ASCII characters in the sources are unaffected by lowering). -/
def lowerStr (s : String) : String :=
  String.mk (s.data.map Char.toLower)

/-- Python regex word character (`\w`) restricted to ASCII: letters, digits
and underscore. -/
def isWordChar (c : Char) : Bool :=
  c.isAlphanum || c == '_'

/-- Python `\s` (ASCII): space, tab, newline, carriage return, vertical tab,
form feed. -/
def pyIsSpace (c : Char) : Bool :=
  c == ' ' || c == '\t' || c == '\n' || c == '\r' || c == '\x0b' || c == '\x0c'

def isAsciiDigitC (c : Char) : Bool := c.isDigit

def isUpperAZ (c : Char) : Bool := 'A' ≤ c && c ≤ 'Z'

def isLetterC (c : Char) : Bool := c.isAlpha

/-- Character class of the broad UPI regex body: `[a-zA-Z0-9.\-_]`. -/
def isUpiLocalChar (c : Char) : Bool :=
  c.isAlphanum || c == '.' || c == '-' || c == '_'

/-- Character class of the email local part: `[A-Za-z0-9._%+-]`. -/
def isEmailLocalChar (c : Char) : Bool :=
  c.isAlphanum || c == '.' || c == '_' || c == '%' || c == '+' || c == '-'

/-- Character class of the email domain: `[A-Za-z0-9.-]`. -/
def isEmailDomainChar (c : Char) : Bool :=
  c.isAlphanum || c == '.' || c == '-'

/-- Character class of the email TLD `[A-Z|a-z]` (the literal `|` is part of
the class in the source pattern). -/
def isTldChar (c : Char) : Bool :=
  c.isAlpha || c == '|'

/-- Is `pat` a prefix of `cs`? -/
def startsWithChars : List Char → List Char → Bool
  | [], _ => true
  | _ :: _, [] => false
  | p :: ps, c :: cs => p == c && startsWithChars ps cs

/-- Python substring containment (`needle in hay`). -/
def hasSubChars : List Char → List Char → Bool
  | hay, needle =>
    if startsWithChars needle hay then true
    else
      match hay with
      | [] => false
      | _ :: t => hasSubChars t needle

/-- `needle in hay` on strings, as Python `in`. -/
def strHas (hay needle : String) : Bool :=
  hasSubChars hay.data needle.data

/-- `any(w in text for w in words)` (`_contains_any` in `detector.py`). -/
def containsAny (text : String) (words : List String) : Bool :=
  words.any (fun w => strHas text w)

/-- Word boundary `\b` between an optional previous character and a current
character: holds when exactly one side is a word character. -/
def wordBoundary (prev : Option Char) (cur : Option Char) : Bool :=
  (match prev with | none => false | some p => isWordChar p) !=
  (match cur with | none => false | some c => isWordChar c)

/-! ## Regex scanners (Python `re.findall` on the source patterns)

Each scanner walks the text left to right; at every position it attempts the
pattern (with the exact greedy/backtracking behaviour the specific pattern
admits) and, on success, continues after the matched span, which is
`re.findall`'s non-overlapping semantics.  The generic driver carries fuel
(an upper bound on the number of positions) and the previous character, the
latter for `\b` tests. -/

/-- Attempt result: matched characters and the remaining characters. -/
abbrev MatchRes := Option (List Char × List Char)

def findallGo (tryAt : Option Char → List Char → MatchRes) :
    Nat → Option Char → List Char → List String
  | 0, _, _ => []
  | _ + 1, _, [] => []
  | fuel + 1, prev, c :: rest =>
    match tryAt prev (c :: rest) with
    | some (m, after) =>
      String.mk m :: findallGo tryAt fuel (m.getLast? <|> some c) after
    | none => findallGo tryAt fuel (some c) rest

def findall (tryAt : Option Char → List Char → MatchRes) (s : String) : List String :=
  findallGo tryAt (s.data.length + 1) none s.data

/-- Split off the maximal run satisfying `p`. -/
def spanP (p : Char → Bool) : List Char → List Char × List Char
  | [] => ([], [])
  | c :: cs =>
    if p c then
      let (r, rest) := spanP p cs
      (c :: r, rest)
    else ([], c :: cs)

/-- `https?://[^\s]+`: literal scheme, then one or more non-space characters,
greedy (nothing follows, so no backtracking). -/
def tryUrl (_prev : Option Char) (cs : List Char) : MatchRes :=
  let go (scheme : List Char) : MatchRes :=
    if startsWithChars scheme cs then
      let rest := cs.drop scheme.length
      let (body, after) := spanP (fun c => !pyIsSpace c) rest
      if body.isEmpty then none else some (scheme ++ body, after)
    else none
  match go "https://".data with
  | some r => some r
  | none => go "http://".data

/-- `upi://pay[^\s]+`. -/
def tryUpiUri (_prev : Option Char) (cs : List Char) : MatchRes :=
  let scheme := "upi://pay".data
  if startsWithChars scheme cs then
    let rest := cs.drop scheme.length
    let (body, after) := spanP (fun c => !pyIsSpace c) rest
    if body.isEmpty then none else some (scheme ++ body, after)
  else none

/-- `\b[a-zA-Z0-9.\-_]{2,}@[a-zA-Z]{2,}\b` (the broad UPI candidate regex).
The local class excludes `@`, so the greedy run must end exactly at `@`;
the suffix is a maximal letter run and the final `\b` fails exactly when the
character after it is a digit or underscore (shorter suffixes sit between
two letters and can never produce a boundary). -/
def tryUpi (prev : Option Char) (cs : List Char) : MatchRes :=
  match cs with
  | [] => none
  | c0 :: _ =>
    if !isUpiLocalChar c0 then none
    else if !wordBoundary prev (some c0) then none
    else
      let (localPart, rest1) := spanP isUpiLocalChar cs
      if localPart.length < 2 then none
      else
        match rest1 with
        | '@' :: rest2 =>
          let (suffix, after) := spanP isLetterC rest2
          if suffix.length < 2 then none
          else if wordBoundary suffix.getLast? after.head? then
            some (localPart ++ '@' :: suffix, after)
          else none
        | _ => none

/-- `\b\d{9,18}\b`: a maximal digit run of length 9–18; a longer run can
never match (all backtracks end between two digits), and a following letter
or underscore defeats the final boundary. -/
def tryBank (prev : Option Char) (cs : List Char) : MatchRes :=
  match cs with
  | [] => none
  | c0 :: _ =>
    if !isAsciiDigitC c0 then none
    else if !wordBoundary prev (some c0) then none
    else
      let (run, after) := spanP isAsciiDigitC cs
      if run.length < 9 || run.length > 18 then none
      else if wordBoundary run.getLast? after.head? then some (run, after)
      else none

/-- `\b[A-Z]{4}0[A-Z0-9]{6}\b`: fixed-width, no backtracking. -/
def tryIfsc (prev : Option Char) (cs : List Char) : MatchRes :=
  match cs with
  | a :: b :: c :: d :: z :: r1 :: r2 :: r3 :: r4 :: r5 :: r6 :: after =>
    if isUpperAZ a && isUpperAZ b && isUpperAZ c && isUpperAZ d &&
        z == '0' &&
        (isUpperAZ r1 || isAsciiDigitC r1) && (isUpperAZ r2 || isAsciiDigitC r2) &&
        (isUpperAZ r3 || isAsciiDigitC r3) && (isUpperAZ r4 || isAsciiDigitC r4) &&
        (isUpperAZ r5 || isAsciiDigitC r5) && (isUpperAZ r6 || isAsciiDigitC r6) &&
        wordBoundary prev (some a) &&
        wordBoundary (some r6) after.head? then
      some ([a, b, c, d, z, r1, r2, r3, r4, r5, r6], after)
    else none
  | _ => none

/-- `\b[6-9]\d{9}\b`: a 10-digit token starting 6–9; an 11th digit (a word
character) defeats the final boundary and the fixed count cannot backtrack. -/
def tryPhone (prev : Option Char) (cs : List Char) : MatchRes :=
  match cs with
  | c0 :: c1 :: c2 :: c3 :: c4 :: c5 :: c6 :: c7 :: c8 :: c9 :: after =>
    if ('6' ≤ c0 && c0 ≤ '9') &&
        [c1, c2, c3, c4, c5, c6, c7, c8, c9].all isAsciiDigitC &&
        wordBoundary prev (some c0) &&
        wordBoundary (some c9) after.head? then
      some ([c0, c1, c2, c3, c4, c5, c6, c7, c8, c9], after)
    else none
  | _ => none

/-- Greedy TLD (`[A-Z|a-z]{2,}\b`) after a chosen dot: take the maximal
letter-or-bar run and backtrack it (longest first) until the trailing word
boundary holds. -/
def tldBacktrack (run : List Char) (after : List Char) : Nat → Option (List Char × List Char)
  | 0 => none
  | l + 1 =>
    if l = 0 then none
    else
      let taken := run.take (l + 1)
      let rest := run.drop (l + 1) ++ after
      if wordBoundary taken.getLast? rest.head? then some (taken, rest)
      else tldBacktrack run after l

/-- Try the email pattern continuation after the `@`: the greedy domain run
backtracks to the rightmost literal `.` that is preceded by at least one
domain character and followed by a matching TLD. `dotIdx` enumerates the
candidate dot positions (indices into `domRun`), largest first. -/
def emailDomBacktrack (domRun after : List Char) : Nat → Option (List Char × List Char)
  | 0 => none
  | j + 1 =>
    match domRun.get? (j + 1) with
    | some '.' =>
      let tldStart := domRun.drop (j + 2) ++ after
      let (tldRun, tldAfter) := spanP isTldChar tldStart
      match tldBacktrack tldRun tldAfter tldRun.length with
      | some (tld, rest) => some (domRun.take (j + 1) ++ '.' :: tld, rest)
      | none => emailDomBacktrack domRun after j
    | _ => emailDomBacktrack domRun after j

/-- `\b[A-Za-z0-9._%+-]+@[A-Za-z0-9.-]+\.[A-Z|a-z]{2,}\b`. -/
def tryEmail (prev : Option Char) (cs : List Char) : MatchRes :=
  match cs with
  | [] => none
  | c0 :: _ =>
    if !isEmailLocalChar c0 then none
    else if !wordBoundary prev (some c0) then none
    else
      let (localPart, rest1) := spanP isEmailLocalChar cs
      if localPart.isEmpty then none
      else
        match rest1 with
        | '@' :: rest2 =>
          let (domRun, after) := spanP isEmailDomainChar rest2
          if domRun.isEmpty then none
          else
            match emailDomBacktrack domRun after (domRun.length - 1) with
            | some (dom, rest) => some (localPart ++ '@' :: dom, rest)
            | none => none
        | _ => none

def urlFindall (s : String) : List String := findall tryUrl s
def upiUriFindall (s : String) : List String := findall tryUpiUri s
def upiFindall (s : String) : List String := findall tryUpi s
def bankFindall (s : String) : List String := findall tryBank s
def ifscFindall (s : String) : List String := findall tryIfsc s
def phoneFindall (s : String) : List String := findall tryPhone s
def emailFindall (s : String) : List String := findall tryEmail s

/-- Whole-word occurrence of `w` in `text` (the `\b(...)\b` search used for
payment verbs and currency words). -/
def wordOccursGo (w : List Char) : Option Char → List Char → Bool
  | prev, cs =>
    (startsWithChars w cs && wordBoundary prev cs.head? &&
      wordBoundary w.getLast? (cs.drop w.length).head?) ||
    match cs with
    | [] => false
    | c :: rest => wordOccursGo w (some c) rest

def wordOccurs (text w : String) : Bool :=
  wordOccursGo w.data none text.data

def wordAny (text : String) (ws : List String) : Bool :=
  ws.any (fun w => wordOccurs text w)

/-! ## `app/extractor.py` -/

/-- Python `str.strip()` for the ASCII whitespace of our inputs. -/
def pyStrip (s : String) : String :=
  String.mk ((s.data.dropWhile pyIsSpace).reverse.dropWhile pyIsSpace).reverse

def VALID_UPI_SUFFIXES : List String :=
  ["upi",
   "okhdfcbank", "okicici", "oksbi", "okaxis", "okpnb", "okbob", "okboi",
   "ybl", "ibl", "axl", "paytm", "apl", "ptys", "jio",
   "icici", "hdfcbank", "sbi", "axisbank", "pnb", "bob", "boi", "kotak",
   "indus", "idfcbank", "yesbank", "unionbank", "canarabank",
   "fbl", "hsbc", "citi", "rbl",
   "airtel", "freecharge"]

def QR_HINTS : List String := ["scan", "qr", "barcode", "upi qr", "scan code", "qr code"]

/-- `list(dict.fromkeys(items))`: dedupe preserving first-seen order. -/
def dedupe (items : List String) : List String :=
  items.foldl (fun acc v => if acc.contains v then acc else acc ++ [v]) []

/-- Split at the first `@` (`cand.split("@", 1)`), if any. -/
def splitFirstAt : List Char → Option (List Char × List Char)
  | [] => none
  | c :: cs =>
    if c == '@' then some ([], cs)
    else
      match splitFirstAt cs with
      | some (l, r) => some (c :: l, r)
      | none => none

/-- `_is_valid_upi_handle`: the suffix after the first `@` must be in the
fixed PSP allow-list (case-insensitively) and the local part must have at
least 2 characters. -/
def isValidUpiHandle (candidate : String) : Bool :=
  if !strHas candidate "@" then false
  else
    let cand := pyStrip candidate
    match splitFirstAt cand.data with
    | none => false
    | some (l, r) =>
      let localPart := pyStrip (String.mk l)
      let suffix := lowerStr (pyStrip (String.mk r))
      localPart.length ≥ 2 && VALID_UPI_SUFFIXES.contains suffix

/-- Python `re.fullmatch(PHONE_REGEX, b)` on a string: the whole string is a
10-digit token starting 6–9 (the outer `\b`s are vacuous on a full match of
word characters). -/
def phoneFullmatch (s : String) : Bool :=
  match s.data with
  | [] => false
  | c0 :: rest =>
    ('6' ≤ c0 && c0 ≤ '9') && rest.length == 9 && rest.all isAsciiDigitC

structure Features where
  length : Nat
  hasNumbers : Bool
  hasUpperCase : Bool
  specialChars : Nat
  upiIds : List String
  bankAccounts : List String
  ifscCodes : List String
  phishingLinks : List String
  phoneNumbers : List String
  emailIds : List String
  hasQRIntent : Bool
  hasPaymentIntent : Bool
  deriving Repr, DecidableEq

/-- `extract_features` (the verb/currency regexes carry `re.IGNORECASE` but
are applied to the already-lowercased `text`, so plain matching suffices). -/
def extractFeatures (messageText : String) : Features :=
  let raw := messageText
  let text := lowerStr raw
  let upiCandidates := upiFindall raw
  let urls := urlFindall raw
  let upiUris := upiUriFindall raw
  let bankAccounts0 := bankFindall raw
  let ifscCodes := ifscFindall raw
  let phones := phoneFindall raw
  let emails := emailFindall raw
  let bankAccounts := bankAccounts0.filter (fun b => !phoneFullmatch b)
  let upiIds := (dedupe upiCandidates).filter isValidUpiHandle
  let hasQrIntent := QR_HINTS.any (fun w => strHas text w) || !upiUris.isEmpty
  let hasCurrencySymbol := raw.data.contains '₹'
  let hasCurrencyWord := wordAny text ["rs", "inr"]
  let hasPaymentVerb := wordAny text ["pay", "transfer", "deposit", "charge", "refund", "send"]
  let hasPaymentIntent := !upiUris.isEmpty || hasPaymentVerb || hasCurrencySymbol || hasCurrencyWord
  let phishingLinks := dedupe (urls ++ upiUris)
  { length := raw.length
    hasNumbers := raw.data.any Char.isDigit
    hasUpperCase := raw.data.any Char.isUpper
    specialChars := (raw.data.filter (fun c => !c.isAlphanum)).length
    upiIds := dedupe upiIds
    bankAccounts := dedupe bankAccounts
    ifscCodes := dedupe ifscCodes
    phishingLinks := phishingLinks
    phoneNumbers := dedupe phones
    emailIds := dedupe emails
    hasQRIntent := hasQrIntent
    hasPaymentIntent := hasPaymentIntent }

/-! ## `app/detector.py` -/

def RECON_KW : List String := ["hello", "hi", "are you there", "hii", "hey"]

def SOCIAL_KW : List String :=
  ["kyc", "verify", "verification", "update", "account", "suspended",
   "blocked", "limit", "limited", "security", "aapka account", "blocked hai",
   "customer care", "support team", "bank team", "document", "re-kyc",
   "link open", "login", "credentials", "netbanking", "debit card"]

def URGENCY_KW : List String :=
  ["urgent", "immediately", "turant", "asap", "today", "within 1 hour",
   "right now", "last chance", "final warning", "action required", "24 hours"]

def PAYMENT_KW : List String :=
  ["send money", "pay", "transfer", "refund", "processing fee", "charge",
   "upi", "scan", "qr", "collect request", "request money", "pay now",
   "activation fee", "wallet", "deposit"]

def OTP_KW : List String := ["otp", "one time password", "share otp", "send otp", "otp code"]

def REWARD_KW : List String :=
  ["win", "lottery", "prize", "cashback", "reward",
   "congratulations", "gift", "free money"]

/-- `SCAM_KEYWORDS.values()` flattened in the dict's insertion order. -/
def ALL_KW : List String :=
  RECON_KW ++ SOCIAL_KW ++ URGENCY_KW ++ PAYMENT_KW ++ OTP_KW ++ REWARD_KW

def SUSPICIOUS_URL_HINTS : List String :=
  ["kyc", "login", "verify", "secure", "update", "suspend", "bank", "upi", "payment"]

def SHORTENER_HINTS : List String :=
  ["bit.ly", "tinyurl", "t.co", "cutt.ly", "rb.gy", "is.gd"]

def BENIGN_CONTEXT : List String :=
  ["balance", "statement", "branch", "atm", "debit", "credit", "passbook", "upi pin"]

/-- `_url_risk_score`: +0.20 per URL with a shortener hint, +0.15 per URL
with a phishing-suggestive keyword, capped at 0.45. -/
def urlRiskScore (urls : List String) : ℚ :=
  if urls.isEmpty then 0
  else
    min
      (urls.foldl (fun sc u =>
        let low := lowerStr u
        let sc := if SHORTENER_HINTS.any (fun s => strHas low s) then sc + 0.20 else sc
        if SUSPICIOUS_URL_HINTS.any (fun h => strHas low h) then sc + 0.15 else sc) 0)
      0.45

/-- `_benign_guard`. -/
def benignGuard (text : String) (keywordHits : List String) (hasStrongSignal : Bool) : ℚ :=
  if hasStrongSignal then 0
  else if containsAny text BENIGN_CONTEXT && keywordHits.length ≤ 2 then -0.20
  else if containsAny text RECON_KW && keywordHits.length ≤ 1 then -0.25
  else 0

/-- `detect_stage`: priority chain
PHISHING, OTP_FRAUD, PAYMENT_REQUEST, URGENCY, SOCIAL_ENGINEERING,
REWARD_LURE, RECON, UNKNOWN. -/
def detectStage (text : String) (hasUpiId hasUrl hasBank hasOtp : Bool) : String :=
  let text := lowerStr text
  if hasUrl then "PHISHING"
  else if hasOtp || containsAny text OTP_KW then "OTP_FRAUD"
  else if hasUpiId || hasBank || containsAny text PAYMENT_KW then "PAYMENT_REQUEST"
  else if containsAny text URGENCY_KW then "URGENCY"
  else if containsAny text SOCIAL_KW then "SOCIAL_ENGINEERING"
  else if containsAny text REWARD_KW then "REWARD_LURE"
  else if containsAny text RECON_KW then "RECON"
  else "UNKNOWN"

/-- A history message (`_get_text` reads the `text` field). -/
structure Msg where
  sender : String
  text : String
  timestamp : String
  deriving Repr, DecidableEq

/-- `history_boost`: 0.08 per history message containing any tracked
keyword, capped at 0.32. -/
def historyBoost (history : List Msg) : ℚ :=
  if history.isEmpty then 0
  else
    min
      (0.08 * ((history.filter
        (fun m => ALL_KW.any (fun kw => strHas (lowerStr m.text) kw))).length : ℚ))
      0.32

structure HistFlags where
  anyUrl : Bool
  anyUpi : Bool
  anyBank : Bool
  anyIfsc : Bool
  anyOtp : Bool
  deriving Repr, DecidableEq

/-- `_scan_history_strong_signals`. -/
def scanHistoryStrongSignals (history : List Msg) : HistFlags :=
  history.foldl
    (fun f m =>
      let t := m.text
      let low := lowerStr t
      { anyUrl := f.anyUrl || !(urlFindall t).isEmpty
        anyUpi := f.anyUpi || !(upiFindall t).isEmpty
        anyBank := f.anyBank || !(bankFindall t).isEmpty
        anyIfsc := f.anyIfsc || !(ifscFindall t).isEmpty
        anyOtp := f.anyOtp ||
          (strHas low "otp" || strHas low "one time password" || containsAny low OTP_KW) })
    ⟨false, false, false, false, false⟩

/-- Stage score bonus table of `detect_scam`. -/
def stageBoost (stage : String) : ℚ :=
  if stage = "SOCIAL_ENGINEERING" then 0.15
  else if stage = "URGENCY" then 0.15
  else if stage = "REWARD_LURE" then 0.18
  else if stage = "PAYMENT_REQUEST" then 0.20
  else if stage = "PHISHING" then 0.20
  else if stage = "OTP_FRAUD" then 0.22
  else 0

/-- `round(x, 2)`.  Every score the detector can produce is an integer
multiple of 1/100 (all additive constants are), so any nearest-rounding
tie-break agrees; we fix round-half-up. -/
def round2 (q : ℚ) : ℚ := (⌊q * 100 + 1/2⌋ : ℚ) / 100

structure Indicators where
  keywords : List String
  upiIds : List String
  bankAccounts : List String
  ifscCodes : List String
  links : List String
  deriving Repr, DecidableEq

structure Detection where
  scamDetected : Bool
  confidenceScore : ℚ
  scamStage : String
  scamType : Option String
  indicators : Indicators
  deriving Repr, DecidableEq

/-- The unique keyword hits of the current message.  The source computes
`list(set(...))`, whose iteration order is unspecified; only membership and
length are consumed downstream, so we dedupe preserving scan order. -/
def keywordHitsOf (text : String) : List String :=
  dedupe (ALL_KW.filter (fun kw => strHas text kw))

/-- The `+0.38` payment-handle term of `detect_scam`: granted whenever the
broad `UPI_REGEX` finds any candidate in the raw current message (no PSP
allow-list validation happens here). -/
def upiTerm (messageText : String) : ℚ :=
  if !(upiFindall messageText).isEmpty then 0.38 else 0

/-- `has_otp_current` of `detect_scam`. -/
def dsHasOtpCurrent (messageText : String) : Bool :=
  let text := lowerStr messageText
  strHas text "otp" || strHas text "one time password" || containsAny text OTP_KW

/-- `has_url_any` of `detect_scam`. -/
def dsHasUrlAny (messageText : String) (history : List Msg) : Bool :=
  !(urlFindall messageText).isEmpty || (scanHistoryStrongSignals history).anyUrl

/-- `has_upi_any` of `detect_scam`. -/
def dsHasUpiAny (messageText : String) (history : List Msg) : Bool :=
  !(upiFindall messageText).isEmpty || (scanHistoryStrongSignals history).anyUpi

/-- `has_bank_any` of `detect_scam`. -/
def dsHasBankAny (messageText : String) (history : List Msg) : Bool :=
  !(bankFindall messageText).isEmpty || !(ifscFindall messageText).isEmpty ||
    (scanHistoryStrongSignals history).anyBank || (scanHistoryStrongSignals history).anyIfsc

/-- `has_otp_any` of `detect_scam`. -/
def dsHasOtpAny (messageText : String) (history : List Msg) : Bool :=
  dsHasOtpCurrent messageText || (scanHistoryStrongSignals history).anyOtp

/-- The `scam_stage` local of `detect_scam`: the stage of the current
message computed from the cumulative (current-or-history) strong-signal
flags. -/
def dsStage (messageText : String) (history : List Msg) : String :=
  detectStage (lowerStr messageText) (dsHasUpiAny messageText history)
    (dsHasUrlAny messageText history) (dsHasBankAny messageText history)
    (dsHasOtpAny messageText history)

/-- The additive confidence score of `detect_scam`, clamped to [0, 1]. -/
def detectScamScore (messageText : String) (history : List Msg) : ℚ :=
  let text := lowerStr messageText
  let upiIds := upiFindall messageText
  let urls := urlFindall messageText
  let bankAccounts := bankFindall messageText
  let ifscCodes := ifscFindall messageText
  let hasOtpCurrent := dsHasOtpCurrent messageText
  let keywordHits := keywordHitsOf text
  let score : ℚ := (keywordHits.length : ℚ) * 0.08
  let score := if !urls.isEmpty then score + 0.40 + urlRiskScore urls else score
  let score := score + upiTerm messageText
  let score := if !bankAccounts.isEmpty || !ifscCodes.isEmpty then score + 0.40 else score
  let score := if hasOtpCurrent then score + 0.60 else score
  let score := if urls.isEmpty && dsHasUrlAny messageText history then score + 0.10 else score
  let score := if upiIds.isEmpty && dsHasUpiAny messageText history then score + 0.10 else score
  let score := if bankAccounts.isEmpty && ifscCodes.isEmpty && dsHasBankAny messageText history
    then score + 0.10 else score
  let score := if !hasOtpCurrent && dsHasOtpAny messageText history then score + 0.12 else score
  let score := score + stageBoost (dsStage messageText history)
  let score := score + historyBoost history
  let hasStrongSignal :=
    !urls.isEmpty || !upiIds.isEmpty || !bankAccounts.isEmpty || !ifscCodes.isEmpty || hasOtpCurrent
  let score := score + benignGuard text keywordHits hasStrongSignal
  max 0 (min score 1)

/-- The `indicators` dict of `detect_scam`'s result. -/
def dsIndicators (messageText : String) : Indicators :=
  ⟨keywordHitsOf (lowerStr messageText), upiFindall messageText, bankFindall messageText,
   ifscFindall messageText, urlFindall messageText⟩

/-- The scam-type priority chain of `detect_scam` (cumulative flags). -/
def dsScamType (messageText : String) (history : List Msg) : String :=
  if dsHasUrlAny messageText history then "PHISHING"
  else if dsHasOtpAny messageText history then "OTP_FRAUD"
  else if dsHasUpiAny messageText history then "UPI_FRAUD"
  else if dsHasBankAny messageText history then "BANK_FRAUD"
  else if ["SOCIAL_ENGINEERING", "REWARD_LURE", "URGENCY"].contains (dsStage messageText history)
    then dsStage messageText history
  else "GENERIC_SCAM"

/-- `detect_scam`. -/
def detectScam (messageText : String) (history : List Msg) : Detection :=
  let score := detectScamScore messageText history
  let scamDetected : Bool := decide ((0.5 : ℚ) ≤ score)
  if !scamDetected then
    { scamDetected := false, confidenceScore := round2 score, scamStage := "BENIGN",
      scamType := none, indicators := dsIndicators messageText }
  else
    { scamDetected := true, confidenceScore := round2 score,
      scamStage := dsStage messageText history,
      scamType := some (dsScamType messageText history),
      indicators := dsIndicators messageText }

/-! ## `hashlib.sha256`, `hashlib.sha1` and `random.Random`

`app/agent.py` seeds `random.Random` with the first 16 hex digits of a
SHA-256 digest and draws template choices from it; `app/main.py` derives the
threat-cluster id from a SHA-1 digest.  Both hash functions and CPython's
Mersenne Twister (`init_by_array` seeding, `getrandbits`-based
`_randbelow`, `choice`) are embedded exactly, over `Nat` with explicit
32-bit masking. -/

def M32 : Nat := 4294967296

def mask32 (n : Nat) : Nat := n % M32

def rotr32 (x n : Nat) : Nat := ((x >>> n) ||| (x <<< (32 - n))) &&& 0xffffffff

def rotl32 (x n : Nat) : Nat := ((x <<< n) ||| (x >>> (32 - n))) &&& 0xffffffff

/-- UTF-8 encoding of a string (`str.encode("utf-8")`). -/
def utf8Bytes (s : String) : List Nat :=
  s.data.foldr (fun c acc =>
    let n := c.toNat
    (if n < 0x80 then [n]
     else if n < 0x800 then [0xC0 ||| (n >>> 6), 0x80 ||| (n &&& 0x3F)]
     else if n < 0x10000 then
       [0xE0 ||| (n >>> 12), 0x80 ||| ((n >>> 6) &&& 0x3F), 0x80 ||| (n &&& 0x3F)]
     else
       [0xF0 ||| (n >>> 18), 0x80 ||| ((n >>> 12) &&& 0x3F),
        0x80 ||| ((n >>> 6) &&& 0x3F), 0x80 ||| (n &&& 0x3F)]) ++ acc) []

/-- Merkle–Damgård padding shared by SHA-1 and SHA-256: `0x80`, zeros to 56
mod 64 bytes, then the bit length as 8 big-endian bytes. -/
def shaPad (msg : List Nat) : List Nat :=
  let L := msg.length
  let zeros := (119 - L % 64) % 64
  msg ++ 0x80 :: List.replicate zeros 0 ++
    (List.range 8).map (fun i => ((8 * L) >>> (8 * (7 - i))) &&& 0xFF)

def bytesToWordsBE : List Nat → List Nat
  | a :: b :: c :: d :: rest => ((a <<< 24) ||| (b <<< 16) ||| (c <<< 8) ||| d) :: bytesToWordsBE rest
  | _ => []

def chunks64Go : Nat → List Nat → List (List Nat)
  | 0, _ => []
  | _ + 1, [] => []
  | fuel + 1, l => l.take 64 :: chunks64Go fuel (l.drop 64)

def chunks64 (l : List Nat) : List (List Nat) := chunks64Go (l.length + 1) l

def sha256K : List Nat :=
  [1116352408, 1899447441, 3049323471, 3921009573, 961987163, 1508970993, 2453635748, 2870763221,
   3624381080, 310598401, 607225278, 1426881987, 1925078388, 2162078206, 2614888103, 3248222580,
   3835390401, 4022224774, 264347078, 604807628, 770255983, 1249150122, 1555081692, 1996064986,
   2554220882, 2821834349, 2952996808, 3210313671, 3336571891, 3584528711, 113926993, 338241895,
   666307205, 773529912, 1294757372, 1396182291, 1695183700, 1986661051, 2177026350, 2456956037,
   2730485921, 2820302411, 3259730800, 3345764771, 3516065817, 3600352804, 4094571909, 275423344,
   430227734, 506948616, 659060556, 883997877, 958139571, 1322822218, 1537002063, 1747873779,
   1955562222, 2024104815, 2227730452, 2361852424, 2428436474, 2756734187, 3204031479, 3329325298]

def sha256Schedule (w16 : List Nat) : List Nat :=
  (List.range 48).foldl
    (fun w _ =>
      let n := w.length
      w ++ [mask32 (w.getD (n - 16) 0 +
        (rotr32 (w.getD (n - 15) 0) 7 ^^^ rotr32 (w.getD (n - 15) 0) 18 ^^^ (w.getD (n - 15) 0 >>> 3)) +
        w.getD (n - 7) 0 +
        (rotr32 (w.getD (n - 2) 0) 17 ^^^ rotr32 (w.getD (n - 2) 0) 19 ^^^ (w.getD (n - 2) 0 >>> 10)))])
    w16

def sha256Compress (h : List Nat) (block : List Nat) : List Nat :=
  let w := sha256Schedule (bytesToWordsBE block)
  let out := (List.range 64).foldl
    (fun st t =>
      match st with
      | [a, b, c, d, e, f, g, hh] =>
        let t1 := mask32 (hh + (rotr32 e 6 ^^^ rotr32 e 11 ^^^ rotr32 e 25) +
          ((e &&& f) ^^^ ((0xffffffff ^^^ e) &&& g)) + sha256K.getD t 0 + w.getD t 0)
        let t2 := mask32 ((rotr32 a 2 ^^^ rotr32 a 13 ^^^ rotr32 a 22) +
          ((a &&& b) ^^^ (a &&& c) ^^^ (b &&& c)))
        [mask32 (t1 + t2), a, b, c, mask32 (d + t1), e, f, g]
      | other => other)
    h
  (h.zip out).map (fun p => mask32 (p.1 + p.2))

def sha256Words (msg : List Nat) : List Nat :=
  (chunks64 (shaPad msg)).foldl sha256Compress
    [1779033703, 3144134277, 1013904242, 2773480762, 1359893119, 2600822924, 528734635, 1541459225]

/-- `int(hashlib.sha256(key).hexdigest()[:16], 16)`: the first 16 hex digits
are the first two digest words, big-endian. -/
def sha256Seed (key : String) : Nat :=
  let d := sha256Words (utf8Bytes key)
  ((d.getD 0 0) <<< 32) ||| d.getD 1 0

def sha1Schedule (w16 : List Nat) : List Nat :=
  (List.range 64).foldl
    (fun w _ =>
      let n := w.length
      w ++ [rotl32 (w.getD (n - 3) 0 ^^^ w.getD (n - 8) 0 ^^^ w.getD (n - 14) 0 ^^^ w.getD (n - 16) 0) 1])
    w16

def sha1Compress (h : List Nat) (block : List Nat) : List Nat :=
  let w := sha1Schedule (bytesToWordsBE block)
  let out := (List.range 80).foldl
    (fun st t =>
      match st with
      | [a, b, c, d, e] =>
        let fk : Nat × Nat :=
          if t < 20 then (((b &&& c) ||| ((0xffffffff ^^^ b) &&& d)), 0x5a827999)
          else if t < 40 then ((b ^^^ c ^^^ d), 0x6ed9eba1)
          else if t < 60 then (((b &&& c) ||| (b &&& d) ||| (c &&& d)), 0x8f1bbcdc)
          else ((b ^^^ c ^^^ d), 0xca62c1d6)
        let tmp := mask32 (rotl32 a 5 + fk.1 + e + fk.2 + w.getD t 0)
        [tmp, a, rotl32 b 30, c, d]
      | other => other)
    h
  (h.zip out).map (fun p => mask32 (p.1 + p.2))

def sha1Words (msg : List Nat) : List Nat :=
  (chunks64 (shaPad msg)).foldl sha1Compress
    [1732584193, 4023233417, 2562383102, 271733878, 3285377520]

def hexChar (n : Nat) : Char :=
  if n < 10 then Char.ofNat (48 + n) else Char.ofNat (87 + n)

def hexWord8 (w : Nat) : List Char :=
  (List.range 8).map (fun i => hexChar ((w >>> (4 * (7 - i))) &&& 0xF))

/-- `hashlib.sha1(raw).hexdigest()[:10]`. -/
def sha1Hex10 (msg : List Nat) : String :=
  let d := sha1Words msg
  String.mk ((hexWord8 (d.getD 0 0) ++ hexWord8 (d.getD 1 0)).take 10)

/-- Mersenne Twister state: 624 32-bit words packed into one `Nat` (word `i`
occupies bits `[32*i, 32*i+32)`), plus the output index. -/
structure MTState where
  mt : Nat
  idx : Nat

def mtGet (s i : Nat) : Nat := (s >>> (32 * i)) &&& 0xffffffff

def mtSet (s i v : Nat) : Nat := s - ((mtGet s i) <<< (32 * i)) + (v <<< (32 * i))

/-- One step of `init_genrand`: write word `i` from word `i-1`. -/
def igStep (mt i : Nat) : Nat :=
  let prev := mtGet mt (i - 1)
  mtSet mt i (mask32 (1812433253 * (prev ^^^ (prev >>> 30)) + i))

/-- `count` steps of `init_genrand` starting at index `i`. -/
def igIter : Nat → Nat → Nat → Nat
  | 0, _, mt => mt
  | c + 1, i, mt => igIter c (i + 1) (igStep mt i)

/-- `init_genrand` of the reference MT19937. -/
def initGenrand (seed : Nat) : Nat := igIter 623 1 (mask32 seed)

/-- One step of the first `init_by_array` loop; the state is `(mt, i, j)`. -/
def ibaStep1 (key : List Nat) (kl : Nat) (st : Nat × Nat × Nat) : Nat × Nat × Nat :=
  let mt := st.1
  let i := st.2.1
  let j := st.2.2
  let prev := mtGet mt (i - 1)
  let v := mask32 ((mtGet mt i ^^^ mask32 ((prev ^^^ (prev >>> 30)) * 1664525)) + key.getD j 0 + j)
  let mt := mtSet mt i v
  let i := i + 1
  let j := j + 1
  let p := if 624 ≤ i then (mtSet mt 0 (mtGet mt 623), 1) else (mt, i)
  (p.1, p.2, if kl ≤ j then 0 else j)

def ibaIter1 (key : List Nat) (kl : Nat) : Nat → Nat × Nat × Nat → Nat × Nat × Nat
  | 0, st => st
  | c + 1, st => ibaIter1 key kl c (ibaStep1 key kl st)

/-- One step of the second `init_by_array` loop; the state is `(mt, i)`. -/
def ibaStep2 (st : Nat × Nat) : Nat × Nat :=
  let mt := st.1
  let i := st.2
  let prev := mtGet mt (i - 1)
  let v := ((mtGet mt i ^^^ mask32 ((prev ^^^ (prev >>> 30)) * 1566083941)) + M32 - i) % M32
  let mt := mtSet mt i v
  let i := i + 1
  if 624 ≤ i then (mtSet mt 0 (mtGet mt 623), 1) else (mt, i)

def ibaIter2 : Nat → Nat × Nat → Nat × Nat
  | 0, st => st
  | c + 1, st => ibaIter2 c (ibaStep2 st)

/-- `init_by_array` of the reference MT19937 (used by CPython's
`random_seed`): `init_genrand(19650218)`, a key-mixing pass of
`max(624, len(key))` steps, a decimation pass of 623 steps, then
`mt[0] = 0x80000000`. -/
def initByArray (key : List Nat) : Nat :=
  let mt0 := initGenrand 19650218
  let kl := max key.length 1
  let s1 := ibaIter1 key kl (max 624 kl) (mt0, 1, 0)
  let s2 := ibaIter2 623 (s1.1, s1.2.1)
  mtSet s2.1 0 0x80000000

/-- One step of the twist, updating word `kk` in place. -/
def twStep (m kk : Nat) : Nat :=
  let y := ((mtGet m kk) &&& 0x80000000) ||| ((mtGet m ((kk + 1) % 624)) &&& 0x7fffffff)
  let v := (mtGet m ((kk + 397) % 624)) ^^^ (y >>> 1) ^^^ (if y % 2 == 1 then 0x9908b0df else 0)
  mtSet m kk v

def twIter : Nat → Nat → Nat → Nat
  | 0, _, m => m
  | c + 1, kk, m => twIter c (kk + 1) (twStep m kk)

def mtTwist (mt : Nat) : Nat := twIter 624 0 mt

/-- `genrand_uint32` with the standard tempering. -/
def genrand : MTState → Nat × MTState
  | ⟨mt, idx⟩ =>
    let p := if 624 ≤ idx then (mtTwist mt, 0) else (mt, idx)
    let y := mtGet p.1 p.2
    let y := y ^^^ (y >>> 11)
    let y := y ^^^ ((y <<< 7) &&& 0x9d2c5680)
    let y := y ^^^ ((y <<< 15) &&& 0xefc60000)
    let y := y ^^^ (y >>> 18)
    (y, ⟨p.1, p.2 + 1⟩)

/-- CPython turns the integer seed into base-2^32 digits, least significant
first (our seeds are < 2^64). -/
def seedKey (n : Nat) : List Nat :=
  if n < M32 then [n] else [n % M32, n / M32]

/-- `random.Random(seed)`: seed via `init_by_array`, then force a twist on
the first extraction. -/
def randomNew (seed : Nat) : MTState := ⟨initByArray (seedKey seed), 624⟩

/-- `getrandbits(k)` for `k ≤ 32`. -/
def getrandbits (k : Nat) (st : MTState) : Nat × MTState :=
  let p := genrand st
  (p.1 >>> (32 - k), p.2)

/-- `_randbelow_with_getrandbits`: draw `bit_length n` bits until the value
is below `n`.  The fuel bounds the retry loop; every concrete evaluation in
this file terminates well inside it. -/
def randbelowGo (n k : Nat) : Nat → MTState → Nat × MTState
  | 0, st => (0, st)
  | fuel + 1, st =>
    let p := getrandbits k st
    if p.1 < n then p else randbelowGo n k fuel p.2

/-- `int.bit_length`, by structural recursion on a fuel of 64 bits (all
values drawn below are list lengths, far smaller). -/
def bitLen : Nat → Nat → Nat
  | 0, _ => 0
  | f + 1, n => if n = 0 then 0 else bitLen f (n / 2) + 1

def randbelow (n : Nat) (st : MTState) : Nat × MTState :=
  if n = 0 then (0, st) else randbelowGo n (bitLen 64 n) 64 st

/-- `random.Random.choice` (never called on `[]` by the agent: `_pick`
guards emptiness first). -/
def pyChoice (seq : List String) (st : MTState) : String × MTState :=
  let p := randbelow seq.length st
  (seq.getD p.1 "", p.2)

/-- `_make_rng` of `app/agent.py`. -/
def makeRng (sessionId : Option String) (mode stage : String) (turnIndex : Nat) : MTState :=
  let key := (sessionId.getD "no_session") ++ "|" ++ mode ++ "|" ++ stage ++ "|" ++ toString turnIndex
  randomNew (sha256Seed key)

/-! ## `app/agent.py` -/

/-- `_pick`: empty option lists yield `""`; the agent always passes an
explicit rng, so the unseeded `random.choice` branch is dead. -/
def pick (options : List String) (rng : MTState) : String × MTState :=
  match options with
  | [] => ("", rng)
  | _ => pyChoice options rng

def upperStr (s : String) : String := String.mk (s.data.map Char.toUpper)

structure EvidenceRecord where
  value : String
  confidence : ℚ
  sourceTurn : Nat
  deriving Repr, DecidableEq

/-- The finalized cumulative evidence dict produced by
`aggregate_evidence_from_history`: one record list per category plus the two
cumulative intent flags.  A category that was never added is an absent dict
key in Python and an empty list here; every consumer (`_values_only`,
`_intel_gaps`, `compute_threat_cluster_id`) treats the two identically. -/
structure EvidenceSet where
  upiIds : List EvidenceRecord
  bankAccounts : List EvidenceRecord
  ifscCodes : List EvidenceRecord
  phishingLinks : List EvidenceRecord
  phoneNumbers : List EvidenceRecord
  emailIds : List EvidenceRecord
  hasQRIntent : Bool
  hasPaymentIntent : Bool
  deriving Repr, DecidableEq

/-- `_values_only` on a record list: the values that are non-empty after
stripping. -/
def valuesOnly (items : List EvidenceRecord) : List String :=
  (items.map (fun r => r.value)).filter (fun v => pyStrip v != "")

structure Gaps where
  needUpi : Bool
  needBank : Bool
  needIfsc : Bool
  needLink : Bool
  needPhone : Bool
  needEmail : Bool
  hasLink : Bool
  hasUpi : Bool
  hasBank : Bool
  hasIfsc : Bool
  hasAnyStrong : Bool
  deriving Repr, DecidableEq

/-- `_intel_gaps` (the `extracted.get("links")` fallback is always absent in
the pipeline, so `links` is the `phishingLinks` values). -/
def intelGaps (e : EvidenceSet) : Gaps :=
  let upi := valuesOnly e.upiIds
  let banks := valuesOnly e.bankAccounts
  let ifsc := valuesOnly e.ifscCodes
  let links := valuesOnly e.phishingLinks
  let phones := valuesOnly e.phoneNumbers
  let emails := valuesOnly e.emailIds
  let hasLink := !links.isEmpty
  let hasUpi := !upi.isEmpty
  let hasBank := !banks.isEmpty
  let hasIfsc := !ifsc.isEmpty
  { needUpi := !hasUpi, needBank := !hasBank, needIfsc := !hasIfsc, needLink := !hasLink,
    needPhone := phones.isEmpty, needEmail := emails.isEmpty,
    hasLink := hasLink, hasUpi := hasUpi, hasBank := hasBank, hasIfsc := hasIfsc,
    hasAnyStrong := hasUpi || hasBank || hasIfsc || hasLink }

def personaStyle : String := "non-technical, polite, slightly anxious, cooperative"

def softOpeners : List String :=
  ["I’m a bit confused. Can you explain what I need to do?",
   "Okay… what exactly is the issue with my account?",
   "I don’t understand this. What should I do step by step?",
   "Wait—ye message kis number/email se aaya hai?",
   "Aap bol rahe ho verify… but verify kis cheez ka?"]

def askLink : List String :=
  ["Can you send the official verification link again? The page didn’t open.",
   "Please share the exact link. I want to make sure I’m on the right site.",
   "The link isn’t loading—send the correct URL once more.",
   "Link open ho gaya, but address bar me exact URL kya dikh raha hai? Share karo please.",
   "Aap jo link bhej rahe ho, wahi official hai na? Ek baar full link paste kar do.",
   "Mere phone pe link broken aa raha hai—copy-paste karke dubara bhejo."]

def phishingFollowup : List String :=
  ["I opened it. It’s asking for details—what exactly should I fill?",
   "The page looks different. Which option should I click?",
   "It’s asking for OTP/UPI PIN—are you sure this is required?",
   "It’s asking for card details too… ye zaroori hai kya?",
   "It’s asking for netbanking/login—verification me login kyu chahiye?",
   "I see multiple buttons (Continue/Verify/Proceed). Kaunsa select karu?"]

def phishingPaymentFollowup : List String :=
  ["UPI me receiver name kya dikh raha hai? I want to confirm before paying.",
   "Payment fail ho gaya to kya bank transfer karna hai? Account + IFSC bhej do.",
   "Amount kitna exactly dalna hai? And receiver name confirm kar do.",
   "App ‘collect request’ dikha raha hai—kya accept karna hai?",
   "Verification ke liye minimum kitna amount hai? Exact number bata do."]

def askUpi : List String :=
  ["Which exact UPI ID should I use? Please send it again.",
   "Can you share the UPI handle (like name@bank) so I don’t type wrong?",
   "What’s the UPI ID and receiver name? I want to confirm before paying.",
   "UPI ID me dot/underscore hai kya? Exact spelling bata do.",
   "Aapka UPI handle capital/small letters me farak padta hai kya? Exact share kar do.",
   "UPI ID ke saath receiver name bhi bata do—confirm karna hai."]

def askReceiverOrCollect : List String :=
  ["Receiver name kya aayega? (UPI pe jo name show hota hai) I want to confirm.",
   "Can you send a collect request? I’m not able to type the UPI ID correctly.",
   "If this UPI fails, do you have another UPI ID I can try?",
   "Collect request aayega to amount kitna rahega? Exact confirm kar do.",
   "Aapka UPI merchant hai ya personal? Name mismatch hua to kya karu?",
   "Mere app me ‘beneficiary pending’ dikh raha—kya accept karna hai?"]

def askBank : List String :=
  ["If UPI isn’t working, can you share bank details (A/C + IFSC + name)?",
   "Please send the account number and IFSC—my app asks for those.",
   "Can you share beneficiary bank details so I can complete verification?",
   "NEFT/IMPS me beneficiary name mandatory hai—exact name kya hai?",
   "IMPS me branch details nahi maang rahe, bas A/C + IFSC chahiye—bhej do."]

def askIfscOnly : List String :=
  ["IFSC code bhi bhej do please. App IFSC maang raha hai.",
   "Receiver bank ka IFSC kya hai? Without IFSC it’s not allowing.",
   "IFSC last 6 characters confirm kar do—galat hua to fail ho jata hai."]

def bankConfirm : List String :=
  ["Thanks. Beneficiary name exactly kya hai? (bank me jo name show hota hai)",
   "Which bank/branch is this IFSC for? I want to confirm before transfer.",
   "Account type savings/current kya hai? Wrong type se fail ho jata hai.",
   "IMPS/NEFT me ‘beneficiary name mismatch’ aaya to kya karna hai?",
   "A/C number digits confirm kar do—9/12/16 digits? I want to avoid wrong transfer."]

def askContactDetails : List String :=
  ["Aapka support number kya hai? Call karke confirm karna hai.",
   "Official email ID bhej do, I’ll forward screenshot there.",
   "Aapka helpline number/extension kya hai? Main verify karke proceed karunga.",
   "Koi ticket/reference number hai? Main note kar leta hoon."]

def otpSenderBucket : List String :=
  ["Message me sender name kya dikh raha hai? Main confirm karna chahta hoon.",
   "OTP wale SMS me sender ID kya hai? (SBI/VM-… ) bas bata do.",
   "OTP message kis number/email se aaya? Exact sender batana.",
   "SMS me bank ka naam clear likha hai kya? Sender ID kya show ho raha hai?"]

def otpSmsTextBucket : List String :=
  ["OTP aaya hai—but SMS me exact line kya likhi hai? Copy karke bhejo.",
   "SMS me ‘for login’ ya ‘for payment’ aisa kuch likha hai kya? Exact words batao.",
   "OTP message me amount/merchant mention hai kya? Kya likha hai?",
   "OTP SMS me time/validity kitni likhi hai? 5 min/10 min?"]

def otpPurposeBucket : List String :=
  ["OTP share karna safe nahi lag raha. Ye login ka OTP hai ya payment ka?",
   "Ye OTP account access ke liye hai ya transaction confirm karne ke liye?",
   "Agar OTP login ka hua to risk hai—ye kis step pe generate hua hai?",
   "App me aapne kya action kiya jisse OTP aaya? Link open kiya ya payment click?"]

def otpSafeAltBucket : List String :=
  ["Main OTP nahi share kar sakta—kya aap alternative verification (reference number) de sakte ho?",
   "OTP share nahi karunga—koi customer care number do, main call karke confirm kar leta hoon.",
   "Agar legit hai, to bank app me bhi alert aata hai—kya process ka reference ID hai?",
   "OTP ke bina koi verification step hai? Like registered email confirm ya ticket number?"]

def otpFollowupFallback : List String :=
  ["Ek baar confirm: OTP kis service/app ke liye generate hua? (SBI YONO / netbanking / UPI?)",
   "OTP ke SMS me last 4 digits ya masked info aata hai kya? (Bas confirm karna.)",
   "OTP me kisi merchant ka naam dikh raha? Agar haan to kaunsa?"]

/-- `_otp_progressive_reply`. -/
def otpProgressiveReply (rng : MTState) (ti : Nat) : String :=
  if ti ≤ 1 then (pick otpSenderBucket rng).1
  else if ti == 2 then (pick otpSmsTextBucket rng).1
  else if ti == 3 then (pick otpPurposeBucket rng).1
  else if 4 ≤ ti then (pick (otpSafeAltBucket ++ otpPurposeBucket ++ otpFollowupFallback) rng).1
  else (pick otpFollowupFallback rng).1

def stagePrompts (stage : String) : List String :=
  if stage = "RECON" then
    ["Hi, yes—what is this about?",
     "Hello. Which service are you calling from?",
     "Haan bolo—kis kaam ke liye message kiya?"]
  else if stage = "SOCIAL_ENGINEERING" then
    ["I’m worried now. What verification is needed?",
     "Why is my account suspended? I didn’t do anything.",
     "KYC pending ka matlab kya? Main kaunsa step miss kar gaya?",
     "Ye alert bank app me bhi dikh raha hai kya? Aap kya verify karwana chahte ho?"]
  else if stage = "URGENCY" then
    ["Okay okay, I don’t want it blocked. What do I do now?",
     "Please guide quickly. I’m not technical.",
     "Thoda slow—main galti nahi karna chahta. Step-by-step bolo."]
  else if stage = "PAYMENT_REQUEST" then
    ["You’re asking payment… I need exact details so I don’t make a mistake.",
     "I can do it, but tell me the exact ID/link.",
     "Payment karne se pehle receiver name confirm karna hai—kya dikhna chahiye?",
     "Amount exact kitna hai? Ek rupee bhi galat hua to fail ho jata."]
  else if stage = "PHISHING" then
    ["I clicked but it looks different.",
     "The site is asking too many things.",
     "Page pe padlock/https nahi dikh raha—ye normal hai?"]
  else if stage = "OTP_FRAUD" then
    ["OTP? But why OTP is needed for this?",
     "I got OTP, but I’m scared to share. What is it for?",
     "OTP share karna risky lag raha—pehle confirm karna hai."]
  else if stage = "REWARD_LURE" then
    ["Really? What do I need to do to claim it?",
     "Okay… what’s the process for the reward?",
     "Kis cheez ka reward hai? And eligibility kya hai?"]
  else if stage = "BENIGN" then
    ["Haan bolo—kya help chahiye?",
     "Okay, I can help. What exactly is the issue?",
     "Theek hai—problem batao, main check karta hoon."]
  else
    ["Can you clarify what you need from me?",
     "What is this regarding? Please explain.",
     "Samjha nahi—thoda clearly batao kya chahiye?"]

def followupsList : List String :=
  ["Okay, I noted that. What’s the next step?",
   "Done. If it fails again, what should I do?",
   "Can you confirm receiver name once more?",
   "Agar ye step ho gaya, next verification kya hoga?"]

/-- `generate_reply`, returning `(agentReply, agentGoal)`.  The `base`
template is drawn from the rng before the mode dispatch, exactly as in the
source (so it consumes the first draw even when unused), and the remaining
draws thread through the same rng state.  The dead local `benign_help` list
of `generate_reply` binds no rng state and is omitted. -/
def generateReply (mode : String) (stage scamType : Option String) (extracted : EvidenceSet)
    (sessionId : Option String) (turnIndex : Nat) : Option String × String :=
  let stageU := upperStr (stage.getD "UNKNOWN")
  let _scamTypeU := upperStr (scamType.getD "UNKNOWN")
  let rng := makeRng sessionId mode stageU turnIndex
  let gaps := intelGaps extracted
  let hasPaymentIntent := extracted.hasPaymentIntent
  let hasQrIntent := extracted.hasQRIntent
  let basePick := pick (stagePrompts stageU) rng
  let base := basePick.1
  let rng := basePick.2
  if mode == "SOFT_ENGAGEMENT" then
    (some (pick (base :: softOpeners) rng).1,
     "Keep scammer engaged and gather more signals without exposure.")
  else if mode == "INTELLIGENCE_EXTRACTION" then
    if stageU == "OTP_FRAUD" then
      (some (otpProgressiveReply rng turnIndex),
       "Keep OTP fraud engagement realistic without sharing OTP; gather sender/SMS text/purpose and alternative verification.")
    else if gaps.hasBank || gaps.hasIfsc then
      if gaps.needIfsc && !gaps.needBank then
        (some (pick askIfscOnly rng).1, "Extract missing IFSC to complete bank intelligence.")
      else
        (some (pick bankConfirm rng).1,
         "Confirm beneficiary/bank details to strengthen bank intelligence and keep scammer engaged.")
    else if stageU == "PHISHING" then
      if gaps.needLink then
        (some (pick askLink rng).1, "Extract phishing URL for reporting.")
      else if gaps.hasUpi || hasPaymentIntent then
        (some (pick phishingPaymentFollowup rng).1,
         "Continue extraction by moving phishing into payment flow (receiver/bank details).")
      else
        (some (pick phishingFollowup rng).1,
         "Keep phishing engagement realistic and gather next-step instructions.")
    else if gaps.needLink && (stageU == "SOCIAL_ENGINEERING" || stageU == "URGENCY") then
      (some (pick askLink rng).1, "Extract phishing URL for reporting.")
    else if gaps.hasUpi then
      (some (pick askReceiverOrCollect rng).1,
       "Confirm receiver name / collect / alternate UPI to extend extraction.")
    else if gaps.needUpi && (hasPaymentIntent || stageU == "PAYMENT_REQUEST") then
      (some (pick askUpi rng).1, "Extract UPI ID / receiver handle.")
    else if hasQrIntent && !gaps.needUpi then
      (some (pick askReceiverOrCollect rng).1, "Extend conversation using QR/collect flow.")
    else if gaps.needBank then
      (some (pick askBank rng).1, "Extract bank account details.")
    else if gaps.needPhone || gaps.needEmail then
      (some (pick askContactDetails rng).1, "Extract contact details for intelligence.")
    else
      (some (pick followupsList rng).1, "Keep conversation alive for more evidence.")
  else
    (none, "No action needed.")

structure AgentResult where
  activated : Bool
  riskLevel : String
  action : String
  agentMode : String
  message : String
  agentReply : Option String
  agentGoal : String
  persona : Option String
  deriving Repr, DecidableEq

/-- Python `f"{x}"` on an optional string. -/
def pyStr (o : Option String) : String := o.getD "None"

/-- The `benign_help` pool local to `agent_decision` (it differs from the
one in `generate_reply` in its last line). -/
def benignHelpDecision : List String :=
  ["Aap kaunsa app use karte ho (GPay/PhonePe/Paytm)? Main safe steps bata deta hoon.",
   "UPI PIN reset ke liye app me ‘Forgot UPI PIN’ / ‘Reset PIN’ option hota hai—kaunsa app hai?",
   "PIN reset ke liye debit card details + OTP lagta hai. Aap kaunsa bank/app use kar rahe ho?",
   "Aapka issue exactly kya hai—payment fail, PIN issue, ya account warning?",
   "App me error code aa raha hai kya? (Bas code bata do.)"]

/-- `agent_decision`. -/
def agentDecision (analysis : Detection) (conversationHistory : List Msg)
    (extractedIntelligence : EvidenceSet) (sessionId : Option String) : AgentResult :=
  let turnIndex := max 1 (conversationHistory.length + 1)
  if !analysis.scamDetected then
    let benignRng := makeRng sessionId "BENIGN_HELP" "BENIGN" turnIndex
    { activated := false, riskLevel := "LOW", action := "ALLOW", agentMode := "PASSIVE",
      message := "No scam indicators detected",
      agentReply := some (pick benignHelpDecision benignRng).1,
      agentGoal := "Help user safely (benign).",
      persona := some personaStyle }
  else
    let score := analysis.confidenceScore
    let scamType := analysis.scamType
    let stage := analysis.scamStage
    let gaps := intelGaps extractedIntelligence
    let evidenceLock := gaps.hasAnyStrong ||
      extractedIntelligence.hasPaymentIntent || extractedIntelligence.hasQRIntent
    if (0.8 : ℚ) ≤ score then
      let replyPack := generateReply "INTELLIGENCE_EXTRACTION" (some stage) scamType
        extractedIntelligence sessionId turnIndex
      { activated := true, riskLevel := "HIGH", action := "ENGAGE",
        agentMode := "INTELLIGENCE_EXTRACTION",
        message := "High confidence " ++ pyStr scamType ++ " detected at " ++ stage ++ " stage",
        agentReply := replyPack.1, agentGoal := replyPack.2, persona := some personaStyle }
    else if (0.5 : ℚ) ≤ score && evidenceLock then
      let replyPack := generateReply "INTELLIGENCE_EXTRACTION" (some stage) scamType
        extractedIntelligence sessionId turnIndex
      { activated := true, riskLevel := "HIGH", action := "ENGAGE",
        agentMode := "INTELLIGENCE_EXTRACTION",
        message := "Evidence present. Continuing extraction for " ++ pyStr scamType ++ ".",
        agentReply := replyPack.1, agentGoal := replyPack.2, persona := some personaStyle }
    else if (0.5 : ℚ) ≤ score then
      let replyPack := generateReply "SOFT_ENGAGEMENT" (some stage) scamType
        extractedIntelligence sessionId turnIndex
      { activated := true, riskLevel := "MEDIUM", action := "MONITOR",
        agentMode := "SOFT_ENGAGEMENT",
        message := "Possible " ++ pyStr scamType ++ ". Monitoring conversation",
        agentReply := replyPack.1, agentGoal := replyPack.2, persona := some personaStyle }
    else
      { activated := false, riskLevel := "LOW", action := "MONITOR", agentMode := "PASSIVE",
        message := "Suspicious but not confirmed",
        agentReply := none, agentGoal := "Wait for more signals.", persona := none }

/-! ## `app/main.py` -/

/-- `_base_confidence`. -/
def baseConfidence (field : String) : ℚ :=
  if field = "upiIds" then 0.92
  else if field = "phishingLinks" then 0.88
  else if field = "bankAccounts" then 0.86
  else if field = "ifscCodes" then 0.93
  else if field = "phoneNumbers" then 0.80
  else if field = "emailIds" then 0.78
  else 0.70

/-- The body of `_add_evidence`'s `for v in values` loop: skip empty keys;
an existing record's confidence is raised only by a strictly higher
observation and its `sourceTurn` lowered only by a strictly earlier turn;
a new key is appended. -/
def addOneEvidence (conf : ℚ) (turn : Nat) (recs : List EvidenceRecord) (v : String) :
    List EvidenceRecord :=
  let key := pyStrip v
  if key = "" then recs
  else if (recs.find? (fun r => r.value == key)).isSome then
    recs.map (fun r =>
      if r.value == key then
        { r with
          confidence := if r.confidence < conf then conf else r.confidence
          sourceTurn := if turn < r.sourceTurn then turn else r.sourceTurn }
      else r)
  else recs ++ [⟨key, conf, turn⟩]

/-- `_add_evidence`'s loop over `values`, at a fixed confidence. -/
def addEvidenceCore (conf : ℚ) (turn : Nat) (values : List String)
    (recs : List EvidenceRecord) : List EvidenceRecord :=
  values.foldl (addOneEvidence conf turn) recs

/-- `_add_evidence` on one category's record list (the per-category inner
dict of the Python store, in insertion order). -/
def addEvidence (field : String) (values : List String) (turn : Nat)
    (confidenceOverride : Option ℚ) (recs : List EvidenceRecord) : List EvidenceRecord :=
  addEvidenceCore (confidenceOverride.getD (baseConfidence field)) turn values recs

/-- The six category lists of the evidence store. -/
structure IntelMap where
  upiIds : List EvidenceRecord
  bankAccounts : List EvidenceRecord
  ifscCodes : List EvidenceRecord
  phishingLinks : List EvidenceRecord
  phoneNumbers : List EvidenceRecord
  emailIds : List EvidenceRecord
  deriving Repr, DecidableEq

def emptyIntelMap : IntelMap := ⟨[], [], [], [], [], []⟩

/-- One history turn of `aggregate_evidence_from_history` (base confidences,
no override). -/
def aggTurn (m : IntelMap) (turn : Nat) (text : String) : IntelMap :=
  let f := extractFeatures text
  { upiIds := addEvidence "upiIds" f.upiIds turn none m.upiIds
    bankAccounts := addEvidence "bankAccounts" f.bankAccounts turn none m.bankAccounts
    ifscCodes := addEvidence "ifscCodes" f.ifscCodes turn none m.ifscCodes
    phishingLinks := addEvidence "phishingLinks" f.phishingLinks turn none m.phishingLinks
    phoneNumbers := addEvidence "phoneNumbers" f.phoneNumbers turn none m.phoneNumbers
    emailIds := addEvidence "emailIds" f.emailIds turn none m.emailIds }

def strStarts (s pre : String) : Bool := startsWithChars pre.data s.data

/-- `aggregate_evidence_from_history`. -/
def aggregateEvidenceFromHistory (history : List Msg) (currentText : String) : EvidenceSet :=
  let m := history.enum.foldl (fun m p => aggTurn m (p.1 + 1) p.2.text) emptyIntelMap
  let currentTurn := history.length + 1
  let nowF := extractFeatures currentText
  let linksConf : Option ℚ :=
    if nowF.phishingLinks.any (fun l => strStarts (lowerStr l) "upi://pay") then some 0.92 else none
  let m : IntelMap :=
    { upiIds := addEvidence "upiIds" nowF.upiIds currentTurn none m.upiIds
      bankAccounts := addEvidence "bankAccounts" nowF.bankAccounts currentTurn none m.bankAccounts
      ifscCodes := addEvidence "ifscCodes" nowF.ifscCodes currentTurn none m.ifscCodes
      phishingLinks := addEvidence "phishingLinks" nowF.phishingLinks currentTurn linksConf m.phishingLinks
      phoneNumbers := addEvidence "phoneNumbers" nowF.phoneNumbers currentTurn none m.phoneNumbers
      emailIds := addEvidence "emailIds" nowF.emailIds currentTurn none m.emailIds }
  let hasQr := history.foldl (fun b msg => b || (extractFeatures msg.text).hasQRIntent) false
    || nowF.hasQRIntent
  let hasPay := history.foldl (fun b msg => b || (extractFeatures msg.text).hasPaymentIntent) false
    || nowF.hasPaymentIntent
  { upiIds := m.upiIds, bankAccounts := m.bankAccounts, ifscCodes := m.ifscCodes,
    phishingLinks := m.phishingLinks, phoneNumbers := m.phoneNumbers, emailIds := m.emailIds,
    hasQRIntent := hasQr, hasPaymentIntent := hasPay }

/-- `_values_from_evidence`: values, filtered non-empty, stripped and
lower-cased. -/
def valuesFromEvidence (items : List EvidenceRecord) : List String :=
  ((items.map (fun r => r.value)).filter (fun v => pyStrip v != "")).map
    (fun v => lowerStr (pyStrip v))

def insertSorted (x : String) : List String → List String
  | [] => [x]
  | y :: ys => if x ≤ y then x :: y :: ys else y :: insertSorted x ys

/-- `sorted` on strings (code-point lexicographic, as in Python). -/
def sortStrings (l : List String) : List String := l.foldr insertSorted []

/-- `compute_threat_cluster_id`: lower-cased, trimmed strong-evidence
values, deduplicated and sorted, joined with `|` and SHA-1 hashed to a
10-hex-digit suffix. -/
def computeThreatClusterId (finalIntel : EvidenceSet) : Option String :=
  let items :=
    valuesFromEvidence finalIntel.upiIds ++ valuesFromEvidence finalIntel.phishingLinks ++
    valuesFromEvidence finalIntel.phoneNumbers ++ valuesFromEvidence finalIntel.emailIds ++
    valuesFromEvidence finalIntel.bankAccounts ++ valuesFromEvidence finalIntel.ifscCodes
  let items := items.filter (fun x => x != "")
  if items.isEmpty then none
  else
    let raw := String.intercalate "|" (sortStrings (dedupe items))
    some ("cluster_" ++ sha1Hex10 (utf8Bytes raw))

/-- The per-session server-side store entry (the callback bookkeeping
fields only feed the outbound GUVI delivery, an excluded network
collaborator). -/
structure SessionRec where
  startedAt : ℚ
  lastSeenAt : ℚ
  turns : Nat
  history : List Msg
  threatClusterId : Option String
  deriving Repr, DecidableEq

structure Request where
  sessionId : String
  sender : String
  text : String
  timestamp : String
  deriving Repr, DecidableEq

/-- The value returned by the `POST /honeypot` handler: exactly the two
keys of the final `return` statement. -/
structure Response where
  status : String
  reply : String
  deriving Repr, DecidableEq

def defaultReply : String := "Why is my account being suspended?"

/-- `receive_message` for one session (`stored` is the session's entry in
`SESSION_STORE`, or `none` on first contact), after the API-key check.
The outbound GUVI callback is network I/O performed on the side; it does
not influence the store fields modelled here or the response. -/
def receiveMessage (stored : Option SessionRec) (req : Request) (now : ℚ) :
    SessionRec × Response :=
  let sess : SessionRec :=
    match stored with
    | none => ⟨now, now, 0, [], none⟩
    | some s => { s with lastSeenAt := now }
  let serverHistory := sess.history
  let currentTurn := serverHistory.length + 1
  let sess := { sess with turns := currentTurn }
  let detection := detectScam req.text serverHistory
  let finalIntel := aggregateEvidenceFromHistory serverHistory req.text
  let computed := computeThreatClusterId finalIntel
  let sess :=
    match sess.threatClusterId, computed with
    | none, some c => { sess with threatClusterId := some c }
    | _, _ => sess
  let agentResult := agentDecision detection serverHistory finalIntel none
  let sess := { sess with history := serverHistory ++ [⟨req.sender, req.text, req.timestamp⟩] }
  let replyText :=
    match agentResult.agentReply with
    | some r => if r == "" then defaultReply else r
    | none => defaultReply
  (sess, ⟨"success", replyText⟩)

/-- A whole session processed in order through the handler. -/
def runSession : Option SessionRec → List Request → List Response
  | _, [] => []
  | s, r :: rs =>
    let p := receiveMessage s r 0
    p.2 :: runSession (some p.1) rs

/-- The session state after a list of further requests (the store entry is
threaded through `receive_message`). -/
def processTurns (s : SessionRec) (reqs : List Request) : SessionRec :=
  reqs.foldl (fun s r => (receiveMessage (some s) r 0).1) s

/-! ## Concrete inputs used by the claim instances -/

def msgC8 : String := "Your account is suspended, verify by clicking http://bit.ly/kyc-verify"

def msgC5 : String := "pay now urgent immediately today"

def msgC7 : String := "contact support@helpdesk for help"

def msgC4 : String := "urgent verify your kyc immediately"

def msgC6 : String := "what is my balance"

def linkMsg : Msg := ⟨"scammer", "click http://bit.ly/kyc-verify", "0"⟩

def hiMsg : Msg := ⟨"scammer", "hi", "0"⟩

def hist4 : List Msg := List.replicate 4 hiMsg

def hist5 : List Msg := List.replicate 5 hiMsg

def reqC1 : Request := ⟨"abc123", "scammer", msgC8, "1770005528731"⟩

/-- The all-greeting session request of the repetition instance. -/
def reqHi : Request := ⟨"abc123", "scammer", "hi", "0"⟩

/-- The stored session after four greeting turns. -/
def sess4 : SessionRec := ⟨0, 0, 4, hist4, none⟩

/-- A four-message history with different texts but the same length as
`hist4`. -/
def histAlt : List Msg := List.replicate 4 ⟨"neighbour", "ok", "0"⟩

/-! ## Specification apparatus for the evidence-aggregation invariant

The claim speaks of the maximum confidence and earliest turn over all
observations of a value; the definitions below name those observation
lists.  `catBatches` lists, per category, exactly the
`(confidence, turn, values)` triples that `aggregate_evidence_from_history`
feeds to `_add_evidence` (history turns at base confidence, the current
turn with the `upi://pay` link override), and is proven to reproduce the
aggregator's output. -/

def lookupRec (k : String) (recs : List EvidenceRecord) : Option EvidenceRecord :=
  recs.find? (fun r => r.value == k)

inductive Category where
  | upi
  | bank
  | ifsc
  | link
  | phone
  | email
  deriving DecidableEq, Repr

def catRecords : Category → EvidenceSet → List EvidenceRecord
  | .upi, e => e.upiIds
  | .bank, e => e.bankAccounts
  | .ifsc, e => e.ifscCodes
  | .link, e => e.phishingLinks
  | .phone, e => e.phoneNumbers
  | .email, e => e.emailIds

def catProj : Category → Features → List String
  | .upi, f => f.upiIds
  | .bank, f => f.bankAccounts
  | .ifsc, f => f.ifscCodes
  | .link, f => f.phishingLinks
  | .phone, f => f.phoneNumbers
  | .email, f => f.emailIds

def catField : Category → String
  | .upi => "upiIds"
  | .bank => "bankAccounts"
  | .ifsc => "ifscCodes"
  | .link => "phishingLinks"
  | .phone => "phoneNumbers"
  | .email => "emailIds"

/-- The confidence the aggregator assigns to a category at the current
turn: the base confidence, except the `upi://pay` override for links. -/
def catCurrentConf (cat : Category) (currentText : String) : ℚ :=
  match cat with
  | .link =>
    if (extractFeatures currentText).phishingLinks.any
        (fun l => strStarts (lowerStr l) "upi://pay") then 0.92
    else baseConfidence "phishingLinks"
  | c => baseConfidence (catField c)

/-- The observation batches one category receives during
`aggregate_evidence_from_history`. -/
def catBatches (cat : Category) (history : List Msg) (currentText : String) :
    List (ℚ × Nat × List String) :=
  history.enum.map
    (fun p => (baseConfidence (catField cat), p.1 + 1, catProj cat (extractFeatures p.2.text)))
  ++ [(catCurrentConf cat currentText, history.length + 1,
       catProj cat (extractFeatures currentText))]

def runBatchesFrom (recs : List EvidenceRecord) (bs : List (ℚ × Nat × List String)) :
    List EvidenceRecord :=
  bs.foldl (fun recs b => addEvidenceCore b.1 b.2.1 b.2.2 recs) recs

/-- The keys one `_add_evidence` call inserts: stripped values, empties
dropped. -/
def cleanValues (values : List String) : List String :=
  (values.map pyStrip).filter (fun k => k != "")

/-- All `(confidence, turn)` observations of key `k` across the batches. -/
def sightings (bs : List (ℚ × Nat × List String)) (k : String) : List (ℚ × Nat) :=
  (bs.filter (fun b => (cleanValues b.2.2).contains k)).map (fun b => (b.1, b.2.1))

/-- How one sighting of key `k` updates the record for `k`: first sighting
creates it, later ones keep the larger confidence and the smaller turn.
The record a key holds after aggregation is the fold of its sightings. -/
def sightStep (k : String) (o : Option EvidenceRecord) (s : ℚ × Nat) : Option EvidenceRecord :=
  match o with
  | none => some ⟨k, s.1, s.2⟩
  | some r => some ⟨r.value, max r.confidence s.1, min r.sourceTurn s.2⟩

/-- The six record lists of the intermediate store. -/
def catIM : Category → IntelMap → List EvidenceRecord
  | .upi, m => m.upiIds
  | .bank, m => m.bankAccounts
  | .ifsc, m => m.ifscCodes
  | .link, m => m.phishingLinks
  | .phone, m => m.phoneNumbers
  | .email, m => m.emailIds

/-! ## Checkpointed Mersenne-Twister seeding states (constants)

Seeding `random.Random` forces about 1900 sequential state updates, too
deep a reduction chain for one definitional evaluation, so the three
seedings exercised by the concrete runs below are checkpointed through the
following evaluated state constants (each a packed 624-word state); the
checkpoint lemmas live with the other theorems further down.  `rngA` is the
rng for key `no_session|INTELLIGENCE_EXTRACTION|PHISHING|1`, `rngB` for
`no_session|BENIGN_HELP|BENIGN|5`, `rngC` for
`no_session|BENIGN_HELP|BENIGN|6`. -/

def igL1 : Nat := 43451447770933355967655871035138949693569261124825171477259371368242040963630315041640600927062429357342263245072047913504023898976222663001529237181465201772843534221011158941461788237762698589261273801769281502502593118350248735333713311198202497828243017791061617341960439265842889406544782867384102031255415178900271700980034168162099017956864365589687933957192069187376259297852575715811388574171215432492658087185762998133264937618221271755098965785706070432997411298302669325798217537933293030347163471750845422681163572671323163202114877642119962417042471289236322169711500740026105874938956762201603260389777781630279713951086029849345573805932629935728933211559110808097128740387659360937505283811305307347869883257125318992063172672017615398536223451585974537588286022205134009526045686872405388374260265035160946462461317145380067221477742827625033291004988186600847047377754436956112252765415547548408556447351514012263030872155378162443767249075800305742610089963329250678542759130875153917902877000807677462921581614667852151540757676825924685240218932446899250696312449506135479343622804623859202371994529890468382846930685411934794688331648287209458802119989744293689297836832290230577568486221523698209302874511121874762150532638410906132104470889309461291278796138128439899576644934370820510807927041579775331321262853219456273416624914629492046704521098886302371997733497169681590999013636545589526730424048338678309150088059101227216260252295312930593924952910598006343530852486415054899957422866806481309347647590361328438947697292746295807809428922793414666431031814032861628969263850718323415981880030858167528846350251046504303358726259363323070269072187751201049724611599535900338130652159317711611833200261613695454102202814578620205541009402153224278689166045349627866295907532129503895413832810001764573153936452102111555030652334240483122102594841884380674317392563630683854541905006240664521198153740937166191474997625752436218240484367957684741526689649510263592542862349097987484326349923217637403156985861455776990955562277159694815042715216724617281559276212445232985599228436390356449552586460255915535860776483174844518320695425225063695481080178103231631950275973599455300666837807626044694234147242514012101510230019527491077792176108322681805294472844587867838741311282738328647507874489747241806324255865685263010191263492795301111565976750841965370576184466410593308712339528181219905472475204122126760987352893962695606471420148579799216517439021817837338880498212480863841635080417758859006076745928135992556866011781792223422737565911596816399712199640792654318509917637608884290031624551158142734411201386157483991292013621678138939288482992546376894032653839238558962841745275990259484118213751656221934669102001560497906162914383442900645772006269349662366806111990602419656871248887642639965754962717384557626116538075248782173671677328111889848696227829607958952219328265125408926725048538271658360205449107884774215457740765053921576049468809462583970011502335658

def igL2 : Nat := 62685089405509111925910797243914719854890513935494713084094713797279779630627496305943786046941309007281293105221577504421353501605599255248785149356818580886163074212016138319710181437623915839386196989339984175865611290932895638485827512283879634622589907034847096838980553398268338905605705315464924834076955485269257682765843392777664062904318116756644819538761883164862381873685805923051342196114892111881287659915424456096361326051748180740843339721465950121631833352165428366344241754810081140762710579390137795215443629123183303201044796731629341661542390258966032612552126580439913324626563213547393121217728067632048719897064596438939163041106934301355643192260261867872030533878188557727018817797219012064641958276099544136480610826250078810896212505254064619595899307426216931651016613164877613570296351724055264357110051005104450572173606849938075379012356137114572525910752676385589168436483206759652170097284388598518122222819376116616668668677988651997615236221431416155794821321118852088948452164682783715959922435191327367306488124638818446090532334864386359317233873012285172875896330714873881780586230596002778688422250420590175698633544778262136505069053046737202152515000629854634631225453245996997340762744567896897683212149150732909707719966588817675821630380251456266588599804209831660991462715440400663143017564651072677052296295930367391822676512661642282350234567553218318066651318510488484545671729568971887621684270732981974442582657502555066960418690332945218280990034155505553171409775830458482159957769211244505225186771766058316021949327301666418107251589707938065072144733816368743637495699897181007119363672460040974223449086641663004605507793014252452324150238463715514559124307431648478948480649031081489229583165223570218974125422263886587593014744330199975749832650568652404661542746543584685860761547297457070273167102314576665676644281998277713093924236551494770138725647883566971887853912300960949802636372591951717316415323846182747445131420005722224687602711525724505110953736568981699982016588947035894059736087136235396798804019434387781559696138411966704777989194870090051835909943079457649936020314680876367897457337488804889342331824364904005266943816631681518612047693872607083945336048154993001716858914072302230374294986610531277637599664647525761147514008899238689946802093944865612982597431648203028809043429562401771290925843222821220221381984318518256971016750121270624021542153515130386081256853244444367484914891752438843250797295149886721543902585582757118492217204960123203770309672216674331373413106027454841661967870247822106376003696537006476355273043676224973894002060133928765135363584693312631060562155459381152426642778209514491263275588735458188352331628933634618912177576995916817414488324819680108333628484452298807271017999262374749573133359090629722111402666396222385680310709557844049479865847370371052888681758484468279513921172987571336140289500145715018352119752770038578015899178947425013401300127437407370742417936980607757405410607208376626705322894782663757703548808362869195819947150150865798288136994832911439410269353230208345410503242199606186650417333579047848825834242257112060317620885151293421378661990197161958015730358249113963865616811805417654957899792836277351433146683316643158745577273742588847277405020330699298979666450169324546781433015633218213248018986767013905101885085728066131985273947793365444250280947765884488609302913437528001802423347517836456663978922564542901160075954132077499502061844004777463229898312792357201472450520034421742281215395838957029567457078867297742321364249618062920323524100796395855490398720473188748064226082130624085325443879193454095100721902723688608983702297802922465778395428510531587340343771240068168890882622394112252370643121994567113348850616779414952571984309063927162547038575769391208822294299053225776973195785292510157058775147687493667385905281728614066936870793483631104130486096422866739022254251631022238998824784309871214211336594149372534724828516536519652291847191320934127662041939033266344757810255450761243406685982638804631309022215852991706323223872506356963395668107287976200691035733250165615782065576159415303394415966535152327550107294310945533761757937224536792146711105700674959937207778503501562879445241463662142281185819506210181780721218897488871995890898495582077564387715740371190275817001449471008660140255770382875594805433223352833476546594040372715841292252983175468170554585838014797017976570586587751089146553833551413146641975370517778330202052282190648141351908509904289169596729111939424597802445523234111653813513351586367960175769546506050051493655326103823629699245586418016468660736051425039803522537493270385743437525903109563398688573456345292160567787373069854610200635728800730405759403691875432721043746233636765094325962472698626875833148826372580999341547042531665331710768365982359935219565301595187067772247975847412037958098451506998773182171027695752045356894447709388159633645629545493246019135820915900506906032640701290570506299065346661219735445730896769091171352761432210047450382980030625592142825700677633624952217795344145832513082782540989616413040988227257601039794195623143595351637462190706636535912449334420058581521218743569834717812580171279915160794789675762903718339466089866492140118823551337811927493524761760551434001520245324751568861558716803095718510972066599595072196209156923318071322517301806566620458899402166430591631348363311478802800521980525250372511467674969151489645720009661369785217086930227581405674315978920044798755483144811069077253851302610194739624245401270682864202663540116818822475326676741780611737275972111438408802370422377608919256570335384654037352344114105999356653180812503717835632673409647782213628400383443178293619326757139369589058612122088577237252104060778375287897543799460272211546791798613974575310224299012205778134871255296492395729078221387894808011355820153110205338707003138385845672884757408327786763143168159295742358655797897448897721796416755370

def rngAKey : List Nat := [4108210505, 1128434511]

def rngAT1 : Nat := 62685089405509111925910797243914719854890513935494713084094713797279779630627496305943786046941309007281293105221577504421353501605599255248785149356818580886163074212016138319710181437623915839386196989339984175865611290932895638485827512283879634622589907034847096838980553398268338905605705315464924834076955485269257682765843392777664062904318116756644819538761883164862381873685805923051342196114892111881287659915424456096361326051748180740843339721465950121631833352165428366344241754810081140762710579390137795215443629123183303201044796731629341661542390258966032612552126580439913324626563213547393121217728067632048719897064596438939163041106934301355643192260261867872030533878188557727018817797219012064641958276099544136480610826250078810896212505254064619595899307426216931651016613164877613570296351724055264357110051005104450572173606849938075379012356137114572525910752676385589168436483206759652170097284388598518122222819376116616668668677988651997615236221431416155794821321118852088948452164682783715959922435191327367306488124638818446090532334864386359317233873012285172875896330714873881780586230596002778688422250420590175698633544778262136505069053046737202152515000629854634631225453245996997340762744567896897683212149150732909707719966588817675821630380251456266588599804209831660991462715440400663143017564651072677052296295930367391822676512661642282350234567553218318066651318510488484545671729568971887621684270732981974442582657502555066960418690332945218280990034155505553171409775830458482159957769211244505225186771766058316021949327301666418107251589707938065072144733816368743637495699897181007119363672460040974223449086641663004605507793014252452324150238463715514559124307431648478948480649031081489229583165223570218974125422263886587593014744330199975749832650568652404661542746543584685860761547297457070273167102314576665676644281998277713093924236551494770138725647883566971887853912300960949802636372591951717316415323846182747445131420005722224687602711525724505110953736568981699982016588947035894059736087136235396798804019434387781559696138411966704777989194870090051835909943079457649936020314680876367897457337488804889342331824364904005266943816631681518612047693872607083945336048154993001716858914072302230374294986610531277637599664647525761147514008899238689946802093944865612982597431648203028809043429562401771290925843222821220221381984318518256971016750121270624021542153515130386081256853244444367484914891752438843250797295149886721543902585582757118492217204960123203770309672216674331373413106027454841661967870247822106376003696537006476355273043676224973894002060133928765135363584693312631060562155459381152426642778209514491263275588735458188352331628933634618912177576995916817414488324819680108333628484452298807271017999262374749573133359090629722111402666396222385680310709557844049479865847370371052888681758484468279513921172987571336140289500145715018352119752770038578015899178947425013401300127437407370742417936981273170963163320467169834547418805694334115661511001273029816979267053317038667193981590804355327265260867860873726157032163344286218036071432005984365902814714001416842247082978804741896736848837412890378573551477087717409178642580735155319324450406383712976608159284408639098455870820799415767704938776325884396628915835731667607607674876693843772146431571368017656354497791429116966459729736500392388797909562716170319222413401902381371618956551985034888952901659742837587021634867061366455789329311753455749691773190505572706299786879538420252643307044079865352064653966210127507594254324935828495765311012235296636272309984838669775432212653041602903938998105705129181069398378034294239248157005741413145933230724194485452824322756586010659125780453120126964614658417287652715374354486249173398927473609425537245735292094716943979592506625162438378960273973263516390218577050545975427699003687507525570708568022901614544402476930277238475566946003248907710391616942890829849336924816144389564291511566488715792137675067725986326627168252998165695908997290536056375441335117646735086470667606436796718104471913148399179720785074766291967595739481754621040283023579812383626865697724486631468360794511090205531887559048445052333550806520752512994801182766636066449550649108078059935708233518835834361327772001436878317398738704075590670190618139074095709754054971975012319377255770798554277645225359770447694664699368874781391398491386188608709777023343347461287193536115303428446778569242004392303073344678713308286506077628489437843398368332091427274570662506760764447137936527487531890492412983216469066731388642506958644941098388206305557409150614631256884970462749380733518777522039682974112573278523054552994727418133507992979035619437116042909151690017595509060450915965634902963196073348062035391229522392312913651113335009459651732610011687148295084563428540191594261007882879977059753503759869260778656733773376688013107250979300373354016215659011915785215774997127133855674355454838983973172063557073006954039623988785289860025381049648990332797706940926582593921411678603069219817883465109532114862669265034922379174570668754377357862771208464083727958049191371548295036920303799526893109608096793674385774152288328587681661612406077296080143847359376979427650360122227377875896648470352445896765204202533063942776506560461971377230783256586846360789477067014388536830298683932799418162872172816276079336991286087209470973845920946110808576692624817493739253439144977122259297636051211939604954502893366492087276312331721050382958511938389152038914404937968162253499841050928521336218747663547832765304244259650688942105900454133221680069440999542029914379065649768609625431480681753630819608540753775942733370218531923622059812872586770600357317596339864014252666020786240723133367438161452881153235713932879124427262588537946228411059607558914100011676146351762577490167199104149041521626449995666357413248739672306306677941989863959123103201829993936881107295424330768048656205157790334855081088682

def rngAT2 : Nat := 78045438984142465507497680797997553090269246517303657242800740698049957194828303945175599260400861008140850553518137333377133487321393199153883736660737786092105643938188551227529115269142776005967142702108149787449745449165245915350439062290216947035278893761271395394911528908471619174936667105617921482709515486721634346061698574752250842432071656642968008333663508860481682561174504722341000673418255154082670115326772644643592905735702444785831430626654659028775672500398652577638458841952385833632553001614285973689190061591074831258333245057050261403092121764153464091559708439977664532268137530723624713526947920098685349894911444599448751478617439721472339070439076226068417584105256481074176633931271275220295505521124451341442989856118952099033884664416210781113628859565556620056811929151411987613445820508514922480717964665272567780794632349972168393158083787521880181556461038279604617657099228516388727005076828089049717285154098070463459584641246633121665207582728612104816084721289034487604354370178127448517094492366666310985048466249638376178057499276513740119367550602009300689720909312523288730273032541464887438481329742811200888188571207779949742763108687528965209274085756168886698672438591447556147490417601298485444907817357656728860307666645168153292504329011728405890382551314899445421147419129310842510940364460227494748338388859405490249901599271503828510286805115274059681977005749418065014374189902181466320904800482600410424744424006766144291020566937484478271198444663265610004387883771544619262501633935000789856891932312502366178907187514855635338471860979524726492855271199215436341267848940895247712499437149036993155374286831492941683339145224584914968689807468615310448478935905460845853837130106992339721352084414470153965825259753272377956385003409053077747672341016924226736489912702617071496034445410448872631924101461971262942628720491266265755841060726129208355661291374449916584933966012591247141856876525845673211901099259631450661375125325157523298806546687319058982325680045225736618600264287359920619068524382041043281360263075526792097631750774930308024140310763306520942186331148278250251005427556513264506102417852690911462249010696773809124618631216370449450990091151886079797099929527647144708367658893357347392673301052412063378992344111158683425873205850546914297549904928828764905434231053274604405897105888137855866791540850875666549955267828929601096916998012538365828144203577609966215309272879932636533352672761515822812060011200263890479044087899221211540357000593002892759837970391697449570593496725218865625357367300311890915462117438641673500840346062249674408716947514126588653807080028601781140767979286112048829798633726325128854582086204613873366515992951729082848637073083514989981792052807309657980843125290133469644767338551383249740307479491046253181798681589575047420190187239286043497870955181175937288938192198153937060692830400427205704439206929274027739366470774644504347312995944426316421503469669273016686652867401637608785017679823117480681778356154576533478776633333467900991714371512980189880426886182307620857407481941599504451589807797515706459601412102102998089409857679632349786739307775024757999382042924671812808717429993740158729159027510794592831385509587729954799884383211256709391168396416093197760523716088915199305343672277660721606162975786268307093079930671251892426828850327543569391069196918409068087302592254727910754801324142655399268532831222871739533723542563758601771060369704387637215954593111253060922633322413376844513536132897226012194546164614933998385459364498305173839042993787640306193651742486319820251852051152553513274889470578352756332662529465462537076309975412441758693240596137043064956540832648355653536002658054097919349976703001672183763025919411645875413406281370744028092222450898993606835555926282477708759201974200394779452875934072224267536045150138939667565560029926133024107881807946305130841463804360720358406741195360993442934573011007163601927493106647900089574300667233862912029996222832094940297192740616949505554006702957607186707650487039999551708059243302483249419639763238818128129990192881932246196375978730909748224995640508041479439409738964003301878430829840131210437233630676781787310711273471079490740333232634793495081337712562935595443331801244392702520981744117614335620707028019781625372265670049470674418291672632856784327329629762587014914417061030923361489130911140165215087991806515188085623708817212852443492815476050321374068312470592795590659710497537743741500947440408801515973149055595605860582491652362641643685268215473699941609641003612943569318054288714136369396608972789252491238750203901339785203672638778557521406926864087617850404036060643231504612697789110858502522616657153729211697774206936473797440768295260882743020668975192107220706306806056866849709336836600741519087710635225507403424882189321136774354848038403128368957562157881614452140534686617260838494724392830990336308719846800982516009099487915662802353642707673261177807002342303388680572931053590244849543931538778885985824107018808569385691700859277973978716404769108279593005159865893757337241021578563864800530429011174422230267092903812231566179604835046652877336135452757704683455256639238832442150042288374909151667016276169093562108860395839930500406047211156642394966700979395065868218025829736140380370630732735831423265619523060400446386377990624063500281989807714229788238752487187703836248950045093628477410017683750884753061902999494781117379288465834185368632872283062972376968115688907140728012640824510221622467284525332254455718529854245079071152831102759900385414507845746461740804732120717580948918397239907856127323894462452131737784044921842059183977092915500555694185129998967546193365342093151619107243345553338343316257135736873997659114715370780296278615957595233170437264676105416000809497623411061724919209329390840801354819394228261118109295520893635451158030596463698210863728396727675269974627001378709896823423738629855645970494781251534152252401

def rngAU1 : Nat := 78045438984142465507497680797997553090269246517303657242800740698049957194828303945175599260400861008140850553518137333377133487321393199153883736660737786092105643938188551227529115269142776005967142702108149787449745449165245915350439062290216947035278893761271395394911528908471619174936667105617921482709515486721634346061698574752250842432071656642968008333663508860481682561174504722341000673418255154082670115326772644643592905735702444785831430626654659028775672500398652577638458841952385833632553001614285973689190061591074831258333245057050261403092121764153464091559708439977664532268137530723624713526947920098685349894911444599448751478617439721472339070439076226068417584105256481074176633931271275220295505521124451341442989856118952099033884664416210781113628859565556620056811929151411987613445820508514922480717964665272567780794632349972168393158083787521880181556461038279604617657099228516388727005076828089049717285154098070463459584641246633121665207582728612104816084721289034487604354370178127448517094492366666310985048466249638376178057499276513740119367550602009300689720909312523288730273032541464887438481329742811200888188571207779949742763108687528965209274085756168886698672438591447556147490417601298485444907817357656728860307666645168153292504329011728405890382551314899445421147419129310842510940364460227494748338388859405490249901599271503828510286805115274059681977005749418065014374189902181466320904800482600410424744424006766144291020566937484478271198444663265610004387883771544619262501633935000789856891932312502366178907187514855635338471860979524726492855271199215436341267848940895247712499437149036993155374286831492941683339145224584914968689807468615310448478935905460845853837130106992339721352084414470153965825259753272377956385003409053077747672341016924226736489912702617071496034445410448872631924101461971262942628720491266265755841060726129208355661291374449916584933966012591247141856876525845673211901099259631450661375125325157523298806546687319058982325680045225736618600264287359920619068524382041043281360263075526792097631750774930308024140310763306520942186331148278250251005427556513264506102417852690911462249010696773809124618631216370449450990091151886079797099929527647144708367658893357347392673301052412063378992344111158683425873205850546914297549904928828764905434231053274604405897105888137855866791540850875666549955267828929601096916998012538365828144203577609966215309272879932636533352672761515822812060011200263890479044087899221211540357000593002892759837970391697449570593496725218865625357367300311890915462117438641673500840346062249674408716947514126588653807080028601781140767979286112048829798633726325128854582086204613873366515992951729082848637073083514989981792052807309657980843125290133469644767338551383249740307479491046253181798681589575047420190187239286043497870955181175937288938192198153937060692830400427205704439206929274027739366470774644504347312995944426316421503469669273016684084513317471675611550309096313742634886133936536501523679922490375070380870698138517821239714504576638619487415778100392439836650724843510916165002751259123853755398207832348587103911287369949212950525898157661540712368496306836601394219068568393171032942943971597346404123142631866980111571452443896317986430846922577111518478499476737400782739268063968958951436299808787599860153962986036187616490416453796324099191370353652271609780609514410934705281845347160263039385927700434932048183387524251312011004914828860889134120756462643502441062079418923684404803462057302306569583982906931271056395116567597301653188681146591247258609745751603122008168226452830024120130075227167076181434912196233118844444903266733528646570900293105656136731784050961630938444552174558525799413430217078011342367414945583990740030268319143045620702602382309875008472217136174546536470087150793717444750548702428759644548923570287054644707201325200003249986909449253733717436003838021265011956266295953996831448045396856880379942473607163437408986284404789322408358084373263448601271868986007842519490241310516352355466536223796026435507649707436624597010613573244358562319062269411867176443700356227472302277533739514650887539742368504343149150791012843200220064478976619867103749548442559810768452385892934034803232428396473223163015937383134268703896406730566144122266877128692189022401325355654732849653705913831141669574849115035727616836512756514890978136222411287580545053530279521368706679761421232822227944668248278974843469971283326777593630678452085895705121385897383969180917353811517042292323672180017910314963285582348108854424736453234439014966483106883217077704808573642305782589017144637525164380262071889536183140076908844522899762012143563525422807324753722217023113834020857029897558834830134876401921537912951338997267148530963220136060415841505731266386165305207263038886382663588031948142927447678583075661934057651713904769732748465377022588421237594068194075865119971461968375257617630851502131050708840402247507717159164425890027390714917016112832593291253162031510935357585243919791422664675564042684169396426687115868550834051849429554531169833368878598958765496926491598440950208623826723776751334302657182534927566227214911234312729094573050129907284850238378800969577644316952619991991047489795201471661593336184221864183360555164723989544279589665410366118575417810122836594864549437297009559455746055849385264427758526952407877919541376201411611912952450960098865997980401865559315307107613944900394459528656287026186252526546497128652048237646350679044092385973111072564275644028011712379330483140683173358099066589884075566677785181636396043802826835903060637202904725434311383246079196566962885589002872066963930086957764996766467863873418505454333567921039546801654177801753856804163046495784519215333354996217867668903746510284898270658627553435215383922898926676029903570816478563297125869352218444570087965275859583680598959598838631041882414750254594664804986251942342990058863051212251629081733872625

def rngAU2 : Nat := 59922924022281292351823542970288210297334918175963124647342783627388916308685392566255895477422837170647911732842203738709665679171568399119855979662240676174269489569041138369000689176504984171890595032611050036168458415332125063411629589371664391435738812861410713395823141717611145291184919113363341099219262939521622265980502004088808364809926172946365524173098426391987424693654562899516398651573107390753609046079575916861815688391981327520992544666312626170579017223656260926600197450627206953051856503990765843568284508361077881585758250122956229331147155326217652648318482709929782937437234659926105933414611656251998036041285134063766005238075981893078195056015955156307901889102344335566082101744419040188395523413455642945139116657252807524830876052541578990470626191997412690467519423881453672877633698212325993216078129390758417681339602030841015837925126175955239728349029623292194723645323389728656144453237252476854083311352603970305671062456709647293893032546463785419354342953415635390642094286505235064960452158166420697812498056672802268889379964878002874875387205383450705899766717391535335666929526655863946769337622306611588702087301650311377723040457374082215155490116736137250116632257474541545774875446112193965097690139333970847584020850404175504706443513280269678221468846453912216070946922768106499460784338674143441606298632522914887393232644021895626950648158021115147234275513551419427706155607705823008260901225233863316951920211910105315435459184152234268863232982501016842892918416601547394899233526667082920091055386068584573528728612020024343907941408349652982639737137824519923046435913301851276652850489187515930935958399605548854302953135324047934875901580067575359701197798308965598194586765222903113228330876144265330061831044911686799760590213659720476132600608360615479602696490186260407488964772035103790984645155974140235076291949781898568385866041630357482320971622355929455704282359168925779884436603227552518303627340866735558107451179331321190594778456424137743853457600401432511234099316862057506021079400776763686857831420784948266302736746679014701301867532913164501391575824062316678331343205691543078332015390851661282769057902393481208817963127537214321741119876043969543216751407141281556886295202075079825791056550670251974460262558851864131778996167715731415828411475361192834527562253151654554307621576350658230966576347117684528465639611895797476263187772677534124834948375987739331920968939943943939107617980958011226982138900294645894732770929363070092314514717639534364018573595375197052823285169463384551216702393520824517342095302259584039745007899579091777887377927622305844656020243065298265863796638371973906761081150585262916807314815187231727510577737768273650819389040280791100441939488093773543997374590448364142608266743346180353976169528406249179584024050155869926588519232022171651371607410170783210770344841966342780700130104481762126291272495946234079644947601115753063923516425381025982386529850846308782894469605761635201623456545438386674313448081236442010683897162093357090621981188505729630200842789963541068499524318630559456211031471528712854933935678192576025703281937231534415012575936591902930335659887977573018701823247959756160256198399588190327253826838818351222018648010049589895265932178479710120061147680332151138175733868379961973901530623284904505065852750139864111122456083818733520871767246887229443292491829475565609595260459723356920051045912999384857880714861295896604825150771241481901394498875142068774421217098075671475435253796496952094984775053791309444912138951738112345001229168750058688526080487886432421064705447696251405527612422715123883789228635408374193070992870884632361053201142033455272706807010562445831722326367973696927386041642415762597563524864990354119805401628230518032811898025838944513420155941836916845503385084326418900727714828760809291473224152073528247298189491934415353676290668200834103463287653295331929029508510870239924685693703261885748984687356569883114888870369580040950039835297893299558807289262414790465694702604019623930761508697165915463572493613247406305813088734362883061606371029271272855441388492648509675593951729386433677049276628224629176083108410082771560949697191529035470920734732600289049615570457164972854512437397776773937873427165662545491196233411130133947796017393671152838062419112374535355405239611930451257163503508188640164802957510697693876472755064722496877470304292640634402619373805384047205790835132820364708122689560336125960481351329633332266892806662192819052269364729830891269396121675890303315353077492635268467163003002977375312782441931506605288560652937169089610038345537420870698172569448725634372718597945276439815771752937405604392969755615663802567353220884574381737684776969230522900007062372952498924799430597800512473842691247402070468766944645495905351728392333335146587400794526295015521932879147265933630550077434726525222887947561435236206192808790456098236801883470612315925080974049235872494860195305475850626486058580639210283752052051408501459433927856036237706498798625073488871178456134282217916573037553985722126469410438511435238718940942224452548765322246358831392204319734883108017316577706741937541794672450364197366489156345866210198340749916969136710976270528281190498017840800045613300006593954142488993220168382122659799553095816019484928205488851548855841122480714059847343274793217449921488055477892544779223400620388407344784108526255162574531772712286456701915268518938009279114024601116570186880669445944967662532984835695675411995666491013836332246879008390958935573967603876579606676910861187233333949564938736100849223527468979579375600746321671818674252337467369828164938311506175448672416726577653769660596100656979916725410318117624016393358676747859960732343722384838889395032585323940916650891292511240821188012238799290843003526340433996130020586360991898607724505971588310265683878643495057960150660169891456791358925075677544396829089753123415024179071673567034091372614541162979015277409471

def rngAF : Nat := 59922924022281292351823542970288210297334918175963124647342783627388916308685392566255895477422837170647911732842203738709665679171568399119855979662240676174269489569041138369000689176504984171890595032611050036168458415332125063411629589371664391435738812861410713395823141717611145291184919113363341099219262939521622265980502004088808364809926172946365524173098426391987424693654562899516398651573107390753609046079575916861815688391981327520992544666312626170579017223656260926600197450627206953051856503990765843568284508361077881585758250122956229331147155326217652648318482709929782937437234659926105933414611656251998036041285134063766005238075981893078195056015955156307901889102344335566082101744419040188395523413455642945139116657252807524830876052541578990470626191997412690467519423881453672877633698212325993216078129390758417681339602030841015837925126175955239728349029623292194723645323389728656144453237252476854083311352603970305671062456709647293893032546463785419354342953415635390642094286505235064960452158166420697812498056672802268889379964878002874875387205383450705899766717391535335666929526655863946769337622306611588702087301650311377723040457374082215155490116736137250116632257474541545774875446112193965097690139333970847584020850404175504706443513280269678221468846453912216070946922768106499460784338674143441606298632522914887393232644021895626950648158021115147234275513551419427706155607705823008260901225233863316951920211910105315435459184152234268863232982501016842892918416601547394899233526667082920091055386068584573528728612020024343907941408349652982639737137824519923046435913301851276652850489187515930935958399605548854302953135324047934875901580067575359701197798308965598194586765222903113228330876144265330061831044911686799760590213659720476132600608360615479602696490186260407488964772035103790984645155974140235076291949781898568385866041630357482320971622355929455704282359168925779884436603227552518303627340866735558107451179331321190594778456424137743853457600401432511234099316862057506021079400776763686857831420784948266302736746679014701301867532913164501391575824062316678331343205691543078332015390851661282769057902393481208817963127537214321741119876043969543216751407141281556886295202075079825791056550670251974460262558851864131778996167715731415828411475361192834527562253151654554307621576350658230966576347117684528465639611895797476263187772677534124834948375987739331920968939943943939107617980958011226982138900294645894732770929363070092314514717639534364018573595375197052823285169463384551216702393520824517342095302259584039745007899579091777887377927622305844656020243065298265863796638371973906761081150585262916807314815187231727510577737768273650819389040280791100441939488093773543997374590448364142608266743346180353976169528406249179584024050155869926588519232022171651371607410170783210770344841966342780700130104481762126291272495946234079644947601115753063923516425381025982386529850846308782894469605761635201623456545438386674313448081236442010683897162093357090621981188505729630200842789963541068499524318630559456211031471528712854933935678192576025703281937231534415012575936591902930335659887977573018701823247959756160256198399588190327253826838818351222018648010049589895265932178479710120061147680332151138175733868379961973901530623284904505065852750139864111122456083818733520871767246887229443292491829475565609595260459723356920051045912999384857880714861295896604825150771241481901394498875142068774421217098075671475435253796496952094984775053791309444912138951738112345001229168750058688526080487886432421064705447696251405527612422715123883789228635408374193070992870884632361053201142033455272706807010562445831722326367973696927386041642415762597563524864990354119805401628230518032811898025838944513420155941836916845503385084326418900727714828760809291473224152073528247298189491934415353676290668200834103463287653295331929029508510870239924685693703261885748984687356569883114888870369580040950039835297893299558807289262414790465694702604019623930761508697165915463572493613247406305813088734362883061606371029271272855441388492648509675593951729386433677049276628224629176083108410082771560949697191529035470920734732600289049615570457164972854512437397776773937873427165662545491196233411130133947796017393671152838062419112374535355405239611930451257163503508188640164802957510697693876472755064722496877470304292640634402619373805384047205790835132820364708122689560336125960481351329633332266892806662192819052269364729830891269396121675890303315353077492635268467163003002977375312782441931506605288560652937169089610038345537420870698172569448725634372718597945276439815771752937405604392969755615663802567353220884574381737684776969230522900007062372952498924799430597800512473842691247402070468766944645495905351728392333335146587400794526295015521932879147265933630550077434726525222887947561435236206192808790456098236801883470612315925080974049235872494860195305475850626486058580639210283752052051408501459433927856036237706498798625073488871178456134282217916573037553985722126469410438511435238718940942224452548765322246358831392204319734883108017316577706741937541794672450364197366489156345866210198340749916969136710976270528281190498017840800045613300006593954142488993220168382122659799553095816019484928205488851548855841122480714059847343274793217449921488055477892544779223400620388407344784108526255162574531772712286456701915268518938009279114024601116570186880669445944967662532984835695675411995666491013836332246879008390958935573967603876579606676910861187233333949564938736100849223527468979579375600746321671818674252337467369828164938311506175448672416726577653769660596100656979916725410318117624016393358676747859960732343722384838889395032585323940916650891292511240821188012238799290843003526340433996130020586360991898607724505971588310265683878643495057960150660169891456791358925075677544396829089753123415024179071673567034091372614541162979014647742464

def rngBKey : List Nat := [2232795012, 2500015400]

def rngBT1 : Nat := 62685089405509111925910797243914719854890513935494713084094713797279779630627496305943786046941309007281293105221577504421353501605599255248785149356818580886163074212016138319710181437623915839386196989339984175865611290932895638485827512283879634622589907034847096838980553398268338905605705315464924834076955485269257682765843392777664062904318116756644819538761883164862381873685805923051342196114892111881287659915424456096361326051748180740843339721465950121631833352165428366344241754810081140762710579390137795215443629123183303201044796731629341661542390258966032612552126580439913324626563213547393121217728067632048719897064596438939163041106934301355643192260261867872030533878188557727018817797219012064641958276099544136480610826250078810896212505254064619595899307426216931651016613164877613570296351724055264357110051005104450572173606849938075379012356137114572525910752676385589168436483206759652170097284388598518122222819376116616668668677988651997615236221431416155794821321118852088948452164682783715959922435191327367306488124638818446090532334864386359317233873012285172875896330714873881780586230596002778688422250420590175698633544778262136505069053046737202152515000629854634631225453245996997340762744567896897683212149150732909707719966588817675821630380251456266588599804209831660991462715440400663143017564651072677052296295930367391822676512661642282350234567553218318066651318510488484545671729568971887621684270732981974442582657502555066960418690332945218280990034155505553171409775830458482159957769211244505225186771766058316021949327301666418107251589707938065072144733816368743637495699897181007119363672460040974223449086641663004605507793014252452324150238463715514559124307431648478948480649031081489229583165223570218974125422263886587593014744330199975749832650568652404661542746543584685860761547297457070273167102314576665676644281998277713093924236551494770138725647883566971887853912300960949802636372591951717316415323846182747445131420005722224687602711525724505110953736568981699982016588947035894059736087136235396798804019434387781559696138411966704777989194870090051835909943079457649936020314680876367897457337488804889342331824364904005266943816631681518612047693872607083945336048154993001716858914072302230374294986610531277637599664647525761147514008899238689946802093944865612982597431648203028809043429562401771290925843222821220221381984318518256971016750121270624021542153515130386081256853244444367484914891752438843250797295149886721543902585582757118492217204960123203770309672216674331373413106027454841661967870247822106376003696537006476355273043676224973894002060133928765135363584693312631060562155459381152426642778209514491263275588735458188352331628933634618912177576995916817414488324819680108333628484452298807271017999262374749573133359090629722111402666396222385680310709557844049479865847370371052888681758484468279513921172987571336140289500145715018352119752770038578015899178947425013401300127437407370742417936980749633062612903469575806396330143168459869884188421387554687050800423148376381945549893848431964582488129499472375769415562293940248556827215830224274617928262680273824457177782806069068458422437944537504313614757423991428130405907330037146310355294984997845913614202706945592298371847680469824533803519761281536247448294510577418212984750542563444484223911836033459280347156584512716289586379567029256782652149654739007006197956186015875661432530283387222729922861391765672722361406389143513094445816781057768171837165736008665701471818627395971625558672629969019678606372288373172017482276645950403837053246082284909486618060179049031456777641192975710339833409283686607577340917643578059528178183837746573900599573733677615658392829296131602975795091892338823643388569773680884409639833450789511358326781966643326085226707942491191042598308532032395093285926652342017065911630535909274543943469219978358436209841566011123348944038679656404183044588661544864277812107735293194012052253870408366183386281246487916128320377637773494777581490896925847391455971955163378815915064329764853682129614196391830182168263393119240696183912566765899749126856783075072109839340647400724910739329489431117754307816719731321076934939989331226474614618833549893088586663237606452328493373485061060075818582520993804099806010962378258526529499421398497392970813082555671146355832607282171595598018664464445604114250823902067465586832097048506950498744490503043473631805650072328606693824648411544055334637253228061078079417057818050406348932372616674399405835213736190550526178404433746116217209574546126313200637895907029100437629291000817298724984770387320834019914502345887881178194607674679631837455919359267669944832189690055101124669619695950300521971819383887447891436544642718128137931566889234489101171007617705446518338535344451136961101000587928307455750233480299327235399000688110813723287188381586090183851958543701222359875113510473248951314152885994223634880013966895654779462991752398303431551001776907582604976995861561935496452838623390173062904760640793623059913199368658150212091023813808168783071760531965485729033193933666696974471088816124785566820464025251413586085572843143932481146158781823294793674522273539777679914338676024059555246684196858675127667517253000590333869029353393832772704188181913841536676331008528551951716794840004622916196091674173874351888044806385951388785369376017725740140250228130933447037793325962455883710874080621007141484301663214905419576765207829098677955640807552727029216490136221670720528544490864619738936824630668006650967573710643434421951372209343068103877150922506776406606920394096868908741987991768079032460299226081989486662166199869019152688668497900546788617418684020687826446737697335051132808599225688202714774402127069499500806792534048199849932196551853336872535961772164396702271986953561627935911715063446523593944434914676041842032602760985361254920311574535511391312078664327344877019502539196248334359682128205925849877330979171216896592612443281066

def rngBT2 : Nat := 42018174774383563637268341236253006523553585541980805592212812953268142481576352996633596288818155421873100539679398497359209854914533526030565108013137622594917205365258185751825277811495775601451783988982791316567423147555755596815480998550719843544251372496889777065741806811009073837263164807882233386274007786299676225111838277757073932780925335235128102913143928901549888077257802191005325123140581311031605508609281451411059258833746662889117577827291579502563229077189796121376194130626554395902571544354440996270013934446931384864018844117925123388725011476962954947806082907741973606121014096956123926124941093344756633665406241237803295855121457627928495144721058663590004361139416129369934232295259796327104681569056511968469353989785333551905841979314927792019934915675436210760513162355789192967451232203037229585562208249153024665322460213636597111113568502901663839546544228043412724546169663866461098034225804842697631549403742894100284605007674782803573355273912077344273290294201736789729670962344194666266749529863219571324744876613839305015433078053333231588116170233076459991638609531694045575694641600181899386464205430401186335382660342287698914032537333641660835107113361363647746427104365251309223824483914846255033507515753164288626458965014315714229709006489700800274913079321142578817410737362895835950210668440601070622011948668994965833208272815227142757132080927342967271237233842525368891402616192619554866282778085698805252486113892734214912548265315043152928191002843098317878652908555756414312460523004170006981813991570465378888217805327071011975703313371362024422955934430169892207235992859317153779950370994074705672177022967892482234184857455949659909759791592609620878609962400922207592953737369523228377891069679510079554851155234330959944648925707149939038249332897484341430799470783072500690451030910323799944798955615066099309207974135961581578704073191525257571695125997175467578694762914116085414895735535158308788708840565387470854999805953457614234931377309528573999480062505273859629932713722512575941762732955106362696442138866841961438932260836914279927519182392970141585345811550184138835100146981938567742935175743626722689534140183241886447608066646992899949357730532480002622404106195320625587034648462853084207498308729970199269807793979602258421057662838012208626433415616728148816361220826771700550905084742953545140174238779292274411304304575113707648236037165727235330143717314228126035750610451663163407610243220177768115960978342663836089769399422445649265279228475411338040139009838219167280784951754140738029747017862647296013015766963749694129320078562870200794551857529108326441815241886634131063532283457549748490844791265076403748306831882178762095668852522946209882645124239097832359450914639670069576749385194024175603089772090692053602006019465971666582105606406650799764498739120801143879238686549596229697742204669151744653670390262884668734935764215560403068038649399234909428032344618823836022669256810537843347457639401773447964067371931757020702602616376176374240782464300876223622162798473609642254830496731079498007838127407453945161163078897632195875482123848797076364203511064237486583074592329492148784422775966306988593843887404952610488280817646567928686604433003615145694003854667108916625173736478700543740797880514163727213312864592454217340248710225773608161803180848606675864691405352774683801506468322950631322795581162687345744614915414092735425707118608326239891801875250802923118734364722248092897799607999972034854039531319459464395120274938880079049040550985892854575580366662948373856200534626141495196611737785618507216136211367158973278686554005642352372451673453145990546966627617686782676683065144649214657213144926256746774666568010677422599416697811407328189645812222012129325787881859482127060419392519153307488212440553623223666375240164552276563659515131266000777069489417841281114150763486466876779303754078382516195047549259588557593325370580916726332201645014267439017282814429481868239254570832320269164336266624657229850303667776279843675414280096427619331195919476019330226790553607577174046048986745251762405076738227394024499996414807375819114304127783946973323432249236139460660970223102598695183683716157613173285385642170549282158894131483530537922339395233461422458000034157692150171538631035625607857769716400315679402325889936564152057258926456507129816435994094608350872103946963680797764339143125764245086022341289855106380300550101073519415886171801227196885310090155590695467801135152399782848241343779670024576500979621815775705754910388901828856384864067553849412871059651377761214805331008577728068566245107698076615437815175894127816138572001536987007679926708156768455078529374210575563718922981253676773332444216068176140699906254064410113474444161374515870483502554453414126745869483489792051377129757623651160008069616648036333004736324286667503016928042727095317422160598165077701500998441800175151568773957303428466573533421286314294776921613816624336740714777797734627472601900736557870890119771088820289585594062276024320058700795178133041382616542886050264943131095842679390117614465785092890893650586469781327382488609840000769733568530221054590370055296439111918965382245833469608804884027227368010016954194029865445353824712550126563398605145217137132797027679231559135264147515133057810377014902362087496196154808266182077876511960973471379618680489597259558716182791896813426935222383365122924312760970554943775088499785104022789258419249717238573593921162895449034120930774905329677047204209905348876293301596588542616696329971247840546508419415722858049522482883986203324151120461235937176276498738325334211498732239754338697192931175691369079178188796221228929290415835650407550451457929007332101722759490205701401531491483951127413583334011071010813492010412254941110921607341639971613265321868684059698227603866160204655609310607435906153102189410514791413022081146737801235178123621573707443205990063943098147508459916449941407136574910326285974462884888509033760

def rngBU1 : Nat := 42018174774383563637268341236253006523553585541980805592212812953268142481576352996633596288818155421873100539679398497359209854914533526030565108013137622594917205365258185751825277811495775601451783988982791316567423147555755596815480998550719843544251372496889777065741806811009073837263164807882233386274007786299676225111838277757073932780925335235128102913143928901549888077257802191005325123140581311031605508609281451411059258833746662889117577827291579502563229077189796121376194130626554395902571544354440996270013934446931384864018844117925123388725011476962954947806082907741973606121014096956123926124941093344756633665406241237803295855121457627928495144721058663590004361139416129369934232295259796327104681569056511968469353989785333551905841979314927792019934915675436210760513162355789192967451232203037229585562208249153024665322460213636597111113568502901663839546544228043412724546169663866461098034225804842697631549403742894100284605007674782803573355273912077344273290294201736789729670962344194666266749529863219571324744876613839305015433078053333231588116170233076459991638609531694045575694641600181899386464205430401186335382660342287698914032537333641660835107113361363647746427104365251309223824483914846255033507515753164288626458965014315714229709006489700800274913079321142578817410737362895835950210668440601070622011948668994965833208272815227142757132080927342967271237233842525368891402616192619554866282778085698805252486113892734214912548265315043152928191002843098317878652908555756414312460523004170006981813991570465378888217805327071011975703313371362024422955934430169892207235992859317153779950370994074705672177022967892482234184857455949659909759791592609620878609962400922207592953737369523228377891069679510079554851155234330959944648925707149939038249332897484341430799470783072500690451030910323799944798955615066099309207974135961581578704073191525257571695125997175467578694762914116085414895735535158308788708840565387470854999805953457614234931377309528573999480062505273859629932713722512575941762732955106362696442138866841961438932260836914279927519182392970141585345811550184138835100146981938567742935175743626722689534140183241886447608066646992899949357730532480002622404106195320625587034648462853084207498308729970199269807793979602258421057662838012208626433415616728148816361220826771700550905084742953545140174238779292274411304304575113707648236037165727235330143717314228126035750610451663163407610243220177768115960978342663836089769399422445649265279228475411338040139009838219167280784951754140738029747017862647296013015766963749694129320078562870200794551857529108326441815241886634131063532283457549748490844791265076403748306831882178762095668852522946209882645124239097832359450914639670069576749385194024175603089772090692053602006019465971666582105606406650799764498739120801143879238686549596229697742204669151744653670390262884668734935764215560403068038649399234909428032344618823836022669256810537843347297059495800741313160113166687686768380843736539970110548222612937325285685695158014540806476435856267256796903876328946484050501348623077869825558599635659297528212084100190656754688257410949118997821762120784525822369471433422528643811587798838271927851139598969742718255461550868360545462529641787669437393007161259899154742166774030442816013758452665570478406311817563431023626962584771254721790569668443749269796064391318685837712067678462006696666005055520391309924994589558406365974138513792095500569052103962729214237164347253767713786711466178593380255146383172038375316062866687250326716023789481892804441929558432482317687071936612056238108887978719367803289809046030426852825551549464426020668608233655422217993122972156356653779220038576672024423312021428729598805191851458085118862217406477018083863391652985901967270373407787479129485737749343012672260429917528918133017379533066429529718491803889280433335923265127710132752929305497603601995809175547668518561810699349455031220902289993534026783640123876173864661397078308826756908515489864591644167625519138670963513903857608853362159792897790228207246708135539605983965705158060535024787128912800297873373778887188765644153558017545729172717161977870883168221429634938147917496790183627809807622745212916782799807392977390005702197607088207366726107406595451793807348182871346202167940633542267356118883632861319796170539695683190067903232656197910493198325885197253093346755579947102832740048717045318729710974711845047905266503204074264197050426669814153405572120138638250593138080140136352160757312817255961910724087549637845980398493115038187917106588629831394999574675330052084969147971114156305886788041775399643541696538519838273618848904077302529624208259589057748797860471466779822728586289550628246142022105043888272651185317122091322556664454350372436364434783003623874586996103732882794341160147737335165970671937394431205983283496349877235692089894410427908008375610726198108781150789255038051697363115863764526167326250318124842017707318820547370818833361920640436737195261373484698660814211196215732172531392163387262802912235405561168356667259272946954138392736936171777784298245441881657563815953068837038244353197278850068164408057303104068214878029434550264305942930343194211547896154279096833299944186445711345384994020543583620322559163364108945806007752424422931809488207796372798266588591735519759121457879775256431975641765738631989540003998429602160413550005867591334471556800650352586472720600907595002125637165408436759869932844930746187579593222615541905599583965070850090973045312503735588211227331093469279582626406080971577440874687329000761186613621615018633897391689251035658599439912888079741495612124553484674671786295222073255686180609382587013523116009783028014439931211663318711084241207848172877055559973145461900602559359168726949852510470538933250441832636293905327614278846042372175377671533018204032148832635709477321112850361354856612133294723595007043325005297681088237425459864422626244252524304466578372701472

def rngBU2 : Nat := 77700077234532575119235415683926954961043641963227291503908096071539309907576306048259336032319732135317325807092539067740109333579860188247153449479298405106538974627894987765706908388632953009400607579994582552954913887996366252506896253494127112371495350010023791823218209714658873732840353571465628231050952301141011006714893541003736655169144183444419484988522216082694543880134717014470477732315441212170672907250459500711343138963791602109409405589260332626248574861892253601655432085239382530874080636898664289846471945303450698943980861659488059386787275216029235360438493071050729710866010803680468675133074410468882752735961533896700797557294506741312965192427243486152618933238167648869316346299198030842702150883251784412437295588161430745142637846502825202680461502744668836825174612660602665384467595162688995567167381345155037397025029052252048646471166830677748802018671009392346763626535917664831894091447658583218360491070329297737496643875074471917783035473717423301707706752572347687592192667735624620238194289083974697857526472419994295162615186373718845075688618573894094592787267415219464819184226829379100002250013017148575447892008548351265146997526853666502621904382195446779970065909571409815373852079518324744398383849364283040404611718836004527937677394496907298656095979765177109879532311440396351842317854382538594851479027607160359786421036794928825638315535905360334742477596521254243473661977876724970168212674317147084962031829129470883261327094954863973738231437257950399931158240930154477399978335768847890876874183618358852308790040650879943534801390321658085331892162991316673942077143100681140287923406860110852585340884744576492122287886514188945462821294600255460190894491364725894068959263105445881912563780560159766517644695239661340753075982177215472906008738535545223088828851967615700170854124007626921993132039760665393864922288345277200706683526579904642000036630054928017332707686753349860571350580673586545779566704770528606804962107400492780816755139027050288995987359305383475543665344478645524562372469177385111620256967169280650831989974473061090867435157814752775276698206162525449171326592129362400081903677504426079201955491348326746740685408097353817412879619102485987841899714164928471705544684923281944010059581497837260411586552714486830405677563054011474479014544200065841493993705802243165708453040320075846112371890861302467811160801166170549213273530258644806174848463186974155826462174632656988022487791131598820647264411717853701860891193220901257801897147479753049778655753643698585302747450707812967013010078833456583508340513773516262187794400021591461557445268156603453505565838171880064672193681817309496518391400252990918873344323302418822024700004966421025094039435345119082192626041042326498296500468557793906511455452672381405083412852570345136008411152532486331140492621557979741060196453587598648298652448168307453550524659933929827125755110265205419864041059234206415609188219050777083984718276598465348495299377311375919925044285948017320078197380593035945018453864523468520594337601391750330644198404030284236992396027458590485586670563500283018464461811101586590844728806118703630746275998004205167701663713894551963878474662812271780944289212374140666494829724062544886125941474766752827182504058322015751964872730839630602254538526100903374233960656286493040635333857383706973510916859983877645894509404256263161940732019372649577253200109360645334986204016213262608223664638864617227600915662488965675535490016987462764077347406894940439989179397629866028808100082848544116233360068237401315187313982306664081840542952018013431566922715199871480489910369286209547965235316815133875353114257199483584214987601640115952832868262378251358212413842145702589001189263252671966170519672044530997194388449392918512881917587729440885637082548860356412474672181893466413715798928730209891479290142693071609248893716530821573880938024507011077902699825572342861309717274520739011706320100612246194104039825208989815122700565480103080909691579114912440028732149202608966759431779990308286687127472218918206946025876596877393907302923958369948012201403329170207569672532929129817357776722101334818336833565723854989250640369634500047321839121942121397869088377305260156072739969224677476025807643825319724666150226752365944188343475648780386117616952676456563786031617348727308214515784085431735889589414181234549026772775385685969672460751539968301014877858878108296845047550563433137822367996874800017484913702514218011783572112896142383984798684070070862594102397558493872367623561077872650388192681003047946302836765009038462182501726857249481572207030256976988570958828610808886090033153544095024847364245628307766100755199300315795161303849195070063829975880651161198329731965097245667631353798294231395494433909527665704240754394267285750191740412453637283321248081313669164988409034706876909161499590925232889538485382150644781794951331046459327082413019471416278624851814147146693249260943616925019985390867853428122430988556655496636812283698407587306038830410755234803809778911438402019247200627142130197174730918849217636159785293150332544666363189184543333577194663611648078464692078747073247300965484675105572002954395804071687441597461864989775639806621851333429706520842997337728576153336696117322936689592804311877270774689538012154552528134147276502400685233546485736195278556034201918260206337041135340081742943118898002052615398281152889802802182886361063904950775328366226348756136300819371202389212228002856511981166820016890570096131629284950545410599444328533215194974038351912323335963999573577673495966952893509407180685240937086547462632514798283528628570488361657909267710203421216760278312239811214665099598114952809080109946443840622264669604518548864360505436790119929586457151966066454025807707809388804206525025144737187274144113087037720459927907999607097556535518954597540714300434521896900196706536977278884059596397175414509697379353837818301524836882722304495717499524915699998981730659671805755599

def rngBF : Nat := 77700077234532575119235415683926954961043641963227291503908096071539309907576306048259336032319732135317325807092539067740109333579860188247153449479298405106538974627894987765706908388632953009400607579994582552954913887996366252506896253494127112371495350010023791823218209714658873732840353571465628231050952301141011006714893541003736655169144183444419484988522216082694543880134717014470477732315441212170672907250459500711343138963791602109409405589260332626248574861892253601655432085239382530874080636898664289846471945303450698943980861659488059386787275216029235360438493071050729710866010803680468675133074410468882752735961533896700797557294506741312965192427243486152618933238167648869316346299198030842702150883251784412437295588161430745142637846502825202680461502744668836825174612660602665384467595162688995567167381345155037397025029052252048646471166830677748802018671009392346763626535917664831894091447658583218360491070329297737496643875074471917783035473717423301707706752572347687592192667735624620238194289083974697857526472419994295162615186373718845075688618573894094592787267415219464819184226829379100002250013017148575447892008548351265146997526853666502621904382195446779970065909571409815373852079518324744398383849364283040404611718836004527937677394496907298656095979765177109879532311440396351842317854382538594851479027607160359786421036794928825638315535905360334742477596521254243473661977876724970168212674317147084962031829129470883261327094954863973738231437257950399931158240930154477399978335768847890876874183618358852308790040650879943534801390321658085331892162991316673942077143100681140287923406860110852585340884744576492122287886514188945462821294600255460190894491364725894068959263105445881912563780560159766517644695239661340753075982177215472906008738535545223088828851967615700170854124007626921993132039760665393864922288345277200706683526579904642000036630054928017332707686753349860571350580673586545779566704770528606804962107400492780816755139027050288995987359305383475543665344478645524562372469177385111620256967169280650831989974473061090867435157814752775276698206162525449171326592129362400081903677504426079201955491348326746740685408097353817412879619102485987841899714164928471705544684923281944010059581497837260411586552714486830405677563054011474479014544200065841493993705802243165708453040320075846112371890861302467811160801166170549213273530258644806174848463186974155826462174632656988022487791131598820647264411717853701860891193220901257801897147479753049778655753643698585302747450707812967013010078833456583508340513773516262187794400021591461557445268156603453505565838171880064672193681817309496518391400252990918873344323302418822024700004966421025094039435345119082192626041042326498296500468557793906511455452672381405083412852570345136008411152532486331140492621557979741060196453587598648298652448168307453550524659933929827125755110265205419864041059234206415609188219050777083984718276598465348495299377311375919925044285948017320078197380593035945018453864523468520594337601391750330644198404030284236992396027458590485586670563500283018464461811101586590844728806118703630746275998004205167701663713894551963878474662812271780944289212374140666494829724062544886125941474766752827182504058322015751964872730839630602254538526100903374233960656286493040635333857383706973510916859983877645894509404256263161940732019372649577253200109360645334986204016213262608223664638864617227600915662488965675535490016987462764077347406894940439989179397629866028808100082848544116233360068237401315187313982306664081840542952018013431566922715199871480489910369286209547965235316815133875353114257199483584214987601640115952832868262378251358212413842145702589001189263252671966170519672044530997194388449392918512881917587729440885637082548860356412474672181893466413715798928730209891479290142693071609248893716530821573880938024507011077902699825572342861309717274520739011706320100612246194104039825208989815122700565480103080909691579114912440028732149202608966759431779990308286687127472218918206946025876596877393907302923958369948012201403329170207569672532929129817357776722101334818336833565723854989250640369634500047321839121942121397869088377305260156072739969224677476025807643825319724666150226752365944188343475648780386117616952676456563786031617348727308214515784085431735889589414181234549026772775385685969672460751539968301014877858878108296845047550563433137822367996874800017484913702514218011783572112896142383984798684070070862594102397558493872367623561077872650388192681003047946302836765009038462182501726857249481572207030256976988570958828610808886090033153544095024847364245628307766100755199300315795161303849195070063829975880651161198329731965097245667631353798294231395494433909527665704240754394267285750191740412453637283321248081313669164988409034706876909161499590925232889538485382150644781794951331046459327082413019471416278624851814147146693249260943616925019985390867853428122430988556655496636812283698407587306038830410755234803809778911438402019247200627142130197174730918849217636159785293150332544666363189184543333577194663611648078464692078747073247300965484675105572002954395804071687441597461864989775639806621851333429706520842997337728576153336696117322936689592804311877270774689538012154552528134147276502400685233546485736195278556034201918260206337041135340081742943118898002052615398281152889802802182886361063904950775328366226348756136300819371202389212228002856511981166820016890570096131629284950545410599444328533215194974038351912323335963999573577673495966952893509407180685240937086547462632514798283528628570488361657909267710203421216760278312239811214665099598114952809080109946443840622264669604518548864360505436790119929586457151966066454025807707809388804206525025144737187274144113087037720459927907999607097556535518954597540714300434521896900196706536977278884059596397175414509697379353837818301524836882722304495717499524915699998981730659670352199680

def rngCKey : List Nat := [1451082213, 1112009397]

def rngCT1 : Nat := 62685089405509111925910797243914719854890513935494713084094713797279779630627496305943786046941309007281293105221577504421353501605599255248785149356818580886163074212016138319710181437623915839386196989339984175865611290932895638485827512283879634622589907034847096838980553398268338905605705315464924834076955485269257682765843392777664062904318116756644819538761883164862381873685805923051342196114892111881287659915424456096361326051748180740843339721465950121631833352165428366344241754810081140762710579390137795215443629123183303201044796731629341661542390258966032612552126580439913324626563213547393121217728067632048719897064596438939163041106934301355643192260261867872030533878188557727018817797219012064641958276099544136480610826250078810896212505254064619595899307426216931651016613164877613570296351724055264357110051005104450572173606849938075379012356137114572525910752676385589168436483206759652170097284388598518122222819376116616668668677988651997615236221431416155794821321118852088948452164682783715959922435191327367306488124638818446090532334864386359317233873012285172875896330714873881780586230596002778688422250420590175698633544778262136505069053046737202152515000629854634631225453245996997340762744567896897683212149150732909707719966588817675821630380251456266588599804209831660991462715440400663143017564651072677052296295930367391822676512661642282350234567553218318066651318510488484545671729568971887621684270732981974442582657502555066960418690332945218280990034155505553171409775830458482159957769211244505225186771766058316021949327301666418107251589707938065072144733816368743637495699897181007119363672460040974223449086641663004605507793014252452324150238463715514559124307431648478948480649031081489229583165223570218974125422263886587593014744330199975749832650568652404661542746543584685860761547297457070273167102314576665676644281998277713093924236551494770138725647883566971887853912300960949802636372591951717316415323846182747445131420005722224687602711525724505110953736568981699982016588947035894059736087136235396798804019434387781559696138411966704777989194870090051835909943079457649936020314680876367897457337488804889342331824364904005266943816631681518612047693872607083945336048154993001716858914072302230374294986610531277637599664647525761147514008899238689946802093944865612982597431648203028809043429562401771290925843222821220221381984318518256971016750121270624021542153515130386081256853244444367484914891752438843250797295149886721543902585582757118492217204960123203770309672216674331373413106027454841661967870247822106376003696537006476355273043676224973894002060133928765135363584693312631060562155459381152426642778209514491263275588735458188352331628933634618912177576995916817414488324819680108333628484452298807271017999262374749573133359090629722111402666396222385680310709557844049479865847370371052888681758484468279513921172987571336140289500145715018352119752770038578015899178947425013401300127437407370742417936980745753680697798668688840777590478342939216564959242055388007664499755038312838000441233329513504007363292024624240318364292811662092285905293962155482803455359727547899258902816384422015116663057126059123216252011377343347053056949006989033720353221404458795083123747907983484559342760195881403461500651581617620500183835571788020882187375046716023070553542749982106636408808413288934772940064106498635176667918181852695363242104645172394183701949441012217823995317892802433438515735709277739387772596734723636987247866356151284176534995405857765469563146722401058818750822037404058353466453799251221480927231877983383997133026964239352462694776659270682635406687820364527945824139786287822621265513399885134137971445995507531440342815931733143248674946679653113723368181666606115522551211960241150754933112223352333978779031276981274086559832292362968846773492091490921324064855486551921703840170828721291766886220728422520840333455129042543877042180479748572508689959380101882073051345560137156379989177728614911054107669484696221348523053145728554891953022967314339246565988371761961676080469640275408116043826593095458453848001254511384032922060917558773881208756195929202825660915225725937826976151905142458279056817140526195554063387599505439220778253104383892072227398211195284994974313781840427925313687850132373437917658238511601144262503518801205785885260547339807667257589124793222784699077234041854561557327021237160790573764043273744438298588879528454259121198370316014457486877493637590274040294474645431332625893004297711383129978630902723776021981998870852847326932415358154729991261022736259113432082560389888598654763374442039661511127768708819532981204757243219432605818856804081998927592007338075714616505250794341060862001062178151467293056679684983053105440694385870388868467072577875667812390358466469447224296528694368152640614995450246776264439351404065024670295955534752919380003713874590937020528939394014094229407786932544206411836413732185473700918739447982408096918874704892948653967279265220332211764733166705180583437940895947404745338243170858475224087738436690735737823773505550288017987392368217962899005653850283289474954317138555855882939806904792122949328687431251326801863592162128519052565345523684064887159200066274048263846425624626575138946459872524484679888318842702197176604750501565211396383555142939082223411472733402707729553196212741808561526084680587983294228559311140140446729054439145486016321381936288623939736179067264654928364554722704770186610823629183842011396799390638504529602411174939861881162551129258279770089531523592271155728441477939057523230887220748961087195393726796731922261794433397914911861140713107656757297114113658263655223720752722654919607822947546116165132532216989166722264605735563994010179092229023081378836043724716146113392503071413151937370716748588812139190674888598082438117900825169835624331121663157487945296758665722203923741696473940261573467201533295157452283325882352003800211119055945262170809239870684371175303203049428650

def rngCT2 : Nat := 33495785064734341432773185758453221747578713685894439554400046917435147547153208582758296399739387320014648492329844536651953186768132572464713675436006335195678674265171838965536076176248438534879741790077984738977935630464890071329824853206631914581669053826563494691510067710436337178416742010370879961308718504601076492390449423815555358001800001661681769201441465113724871978233350711382763902112332057339455864529650595597765529828772290768791590244905738602930018885429751409436396614896643762319872918871275672114963479659159879106336371230035674205451392711576774308994306038581244829585162637133259397628647215059286166040850778304013044075573510182891638989833022681060510687134047304628194224647882903008918350383263468770677219476871470877215679547735602784574888270919493940852313680486389288823427284627100672997404123199587388626677706221945765311094225398788000150247910701611889163555967061563741428183523695233941430413777798745121320358463731655040748295288219397688744067694408728413333508024429482089466174696272457284298014170043790493494539853372777621638602800039345750520348486181887904835096639069885631944640330592733254666620589012443814991044305753654605009141723665092453338260679474451638008336606222452961610137822394254908932378282819807454673703485363636321358731627140658689536180538151403737236601931718723263467824807749547873163035988222933394395068297603097142602068423193104534670833819362537420130304065333747251976205039567084366945946005241448370641754914995478277774610300669991385110972507792050438724933286666158692447411854858813579205475042911858794215344365143278158658229267244874213593890858137181489986843377665438183785817641786610760044223372292267293860194331935658484211657268295500685288298244478855921163394701333288597807959100068466778908762810537170083109487319017303497666249806379380028053041419744067500963902933990846029513641937731309621706453302589774473666069956489497494270878093849241644812468050719420288785753760358481003762300923070080608758557509573099875411020307615656444636444381871437299374901312424646816140730185353504923840885429510221327443790040796489638656168639120294146222388344711214828442331831443034409154520591368494213090791596313611408250451385924777632423646377382675304114573249748005041463776356504439929355002042105063801125750292311036204815659924687770778571165267851285617108013269375006149324874271743371859095175902679378334358357182640870469176319417653223050495658275552818583629421686605526425168108641417607115315561827329134526104306198920980125431690200351717174557124024090013170834226893437456644131387046413781899181263690441528988097811331534849845698663814918479915197379936446942380075977747502588619861558220057946387243370157193341872122336709317127373920108844465459700218692495870869058604619901297202508493753863647051027059711024898301735884819955999000534639764813835161203416670482734107137446650805473018537436681139801767043511930222119303767431587014720120186091075031281833409644526289419953235404612011482673389429497971393081497516979759808605135730983398055118815031911387617335251392814124736016911690244415302376050408229693233277894837451141882702502293230521677822547323268052209231719886310706011560989323914812808017313115157793803341017195192244401354372047211463557750749499792572212623683230655939509020447610112617278744254755479342019636560576241525616281092282265986388515195866129544081627620056850968876033704085428093321388050295000851311566491961539130365810379588434234559521338226949894515862388763363845271794241723206436446755501209845347209375417063121911863199243179458199970453244156477717903596991807140937702268845851497825631600994812187600590919874708602875889620581031255684121023075932834021487748419411818384490262714628652104346556678105876854022249838991862560073800909924426991731834956666787075368687009768400126286805119175643020351780399777002559290858523265620360304170012868608355045190224804435354843103784028612980571597886109125670153561992338685067135893237923681933015815458630774099270412605229056974451974658180117369806846248470329816852942675319587034796166286211509587203480373558406300960194999686433419174881100943731979923915193829530429106529745196041649256403779545255703935399172401445408885128605429492440241506529077551325054404427985950383506363039408560964610230813127056129180118236984684987608080220503803710236558951342047371401434247217363140664423023807293053954082319167120412693420812997845026374998452050614686430784937009961705354714015831810118776079397672447659547416213930145730036881647463052987387881392211245252274693162117216272284620428222001655292448368829869098578151758124903273919573840046935864267795482399766264125041513193811894286963930037423876707689451034264979860130625170002967954290997533175125714281855941011616711768000038783213354319439624385894961305942169604769199154296771470978490513772621143387768805436106484242965354311045874603011092629024000309277274644154982818905340033371166804355291835106272551904437290042901452345708623514979114921489215237837245823834179263143197163990906925630176419454275988022113452900305668935928501986133323255950995125952608268144396662836346275725480286453454761844248866884364861150799252904025735977294322332556099191972621434040348906024477092680876531635484863899185910341609513696902767439456295162432666247571366503850188959407233405136513052757282838276043369010889463712526705280614494890215955247582403660454357754434876628580599386208049034756764132283548769417911715421478020290256560299599144841507062096909452336645529749526660075288658964502082122222438327847033983950482399546754099324703057596301674889002652006627442498695141170213476426090640474669495287320706994176984068020598420636095466203294418821832150699909329186461117409317644832801128311928372013656900890094856823546508864154458057085145817959526690187007746333373070420772121954707065907312092501502739463859712087643147575899442610102643602552449091790003888433777826902

def rngCU1 : Nat := 33495785064734341432773185758453221747578713685894439554400046917435147547153208582758296399739387320014648492329844536651953186768132572464713675436006335195678674265171838965536076176248438534879741790077984738977935630464890071329824853206631914581669053826563494691510067710436337178416742010370879961308718504601076492390449423815555358001800001661681769201441465113724871978233350711382763902112332057339455864529650595597765529828772290768791590244905738602930018885429751409436396614896643762319872918871275672114963479659159879106336371230035674205451392711576774308994306038581244829585162637133259397628647215059286166040850778304013044075573510182891638989833022681060510687134047304628194224647882903008918350383263468770677219476871470877215679547735602784574888270919493940852313680486389288823427284627100672997404123199587388626677706221945765311094225398788000150247910701611889163555967061563741428183523695233941430413777798745121320358463731655040748295288219397688744067694408728413333508024429482089466174696272457284298014170043790493494539853372777621638602800039345750520348486181887904835096639069885631944640330592733254666620589012443814991044305753654605009141723665092453338260679474451638008336606222452961610137822394254908932378282819807454673703485363636321358731627140658689536180538151403737236601931718723263467824807749547873163035988222933394395068297603097142602068423193104534670833819362537420130304065333747251976205039567084366945946005241448370641754914995478277774610300669991385110972507792050438724933286666158692447411854858813579205475042911858794215344365143278158658229267244874213593890858137181489986843377665438183785817641786610760044223372292267293860194331935658484211657268295500685288298244478855921163394701333288597807959100068466778908762810537170083109487319017303497666249806379380028053041419744067500963902933990846029513641937731309621706453302589774473666069956489497494270878093849241644812468050719420288785753760358481003762300923070080608758557509573099875411020307615656444636444381871437299374901312424646816140730185353504923840885429510221327443790040796489638656168639120294146222388344711214828442331831443034409154520591368494213090791596313611408250451385924777632423646377382675304114573249748005041463776356504439929355002042105063801125750292311036204815659924687770778571165267851285617108013269375006149324874271743371859095175902679378334358357182640870469176319417653223050495658275552818583629421686605526425168108641417607115315561827329134526104306198920980125431690200351717174557124024090013170834226893437456644131387046413781899181263690441528988097811331534849845698663814918479915197379936446942380075977747502588619861558220057946387243370157193341872122336709317127373920108844465459700218692495870869058604619901297202508493753863647051027059711024898301735884819955999000534639764813835161203416670482734107137446650805473018537436681139801767043511930222119303767431587014720120186088448851875994617311339561487396099676555210835587309519783675487967171330464179812953980936944381433926204211355126696162684157973139439553044840433522279341096075995010156871554915898698680925884140586113733118284964325256406188574623433433771659628134932642098431262289539354883504780634652795204884331102350952131800707307386935252091432650394748429595148815460750553300455318407108496972856180455696486953686025465185864843500401432436912123238615444209915310270573394287823306368568783566410958005283137314993372196709950706521795527484736036245787350389079367638887393241305381852036244935661686963670530900162780825819815027477352902487468413629730595236602588951102211150267985082659198979635143928400634893674223980984358346057015740991086480320525790874361814598150628704781392678571847810780017507087187748335719914580064319217961742225582502481288924538726279333416373072391059790467800746472715985967258690334301325444285731275490932987454811422932544216580765923596246220577837212003354573039735994073683251132145115168072640074469972705258716955765411054582116760545316607389140603899252622601455509671415129739894896400125843992833346557373398767401942929266289656283916344910501262262115265808410049863410052777071260456805195960512261194954398100597467917905075324730826448176099434761659133914119012626826031020358047316384539666890829698122647758723519302208233696868000629154920755863320610684503369862608594480453473214989093398501406553497575717667191278777073297922399603495598509327280758451309661845652193237703474486070902930880939343636171889735561655711609879960029335997190693861009587859768718899332247490189947863973934208666851787771659799080418977265114066292265928201145618876530330253304489361804294833546614629751097953018762312946354890509295632830147532687416892325239930882450519896957395350076170172294876937419939319186826178507179929651480357655283350069415634708238063832240770290577363401994715328214985388628625331418300855466836432140248421710429965850812602189895316880891530521215876138349126762964639312310343600450896700894386784662460284474621305495625517506476639795598390798290848015272439037647569658145647501442796068075082848970645425142270483474085956582175303817524391285416727975194341450587565319249366046167913506829779036722000481117060680759315073917159689630885547208636218334562882915642943486272051109404367463410749882388652468096396378180191227271119228685811432876963845693376312043180106103537956263785130457122675511396274968432398094453562223059816834763687860285417026898829824181317094497112682127697715795341141160178571974023270972214370963997586337841222296783427965271958309759227051702617595299020928639273132750048647337425677036517613564308052383299559267958185851996445941336457413222305374113062020060307987908647506365119039827555662630159355578298814762976334459635426879960832549921348012632426004083603099768273646101150257661132141089796281227597021901255248058813310936769684167655902862790821323506163788510603927157779468433758837846

def rngCU2 : Nat := 24138915099667409854367785571006339294141211459802082984339323941518117968239597994438854704040608329934191222628012386065712969772991075941053928198853093770637679766747808425854486242496225622947700560238140929038678375258349645934264856268280666024360164580805033642563745617398579782556307995128142467225449826171993915997527105115258108219107675194577815233788933208913938298595864601759176601086542553751229360671587579084260966054339496011000936585868653471321336673567938132330398468616047251427661453146702001343123999427651194161849219562329862866649968380856690037628729945565634563524656065899685143569547900111182135604470189805697638961412484508336055174848317610757104695488620441994203944185481890575409193040234480974045334743684813562205986211150314401031505047455474154687648412562177494455431557251340411470119309737226453731348691866525637371961419821430660107989998987036478976196109929739682738920988787551736361085368165861979121988270333587248832984277741147520366991628486531295519178237406400931004944130476820285490634538076942104806724790718126239037169171440374033702863948813569185531598293381050324407084669200050246795244517931909236409084344181863928864504656555610264148269020630802415469945178933712199480134873363119961457822748189173086787094863046862671774750261784448909723052670086055032695851315364936180882597641146528493789951162539992230499080159513994119744056608509626067904289807356053824348275969096217804856333518224547651389313050076897154170163258653712655381303039298005068949450627025927374270596569412253827096660658754062860790196150592689124816252133181455447616422710531329158435270574678394507068035857451548962010192482975154802271311168975307386713747599009514569094327406052656416244117381670746714019331908367123424419936364224524794062089629661858262502713187086843002027012365890086045984433671840757851250440984418333718732263471817099769646540066665599240427406652933950736931112002755320541979364736299612869099271281082803167953599961076588048342734412758492941388255267408409376249901017609721633245500934592447203197598368288839515911674906443208971373181434882807188866444620748889218192407956171236492219647430385283662353035230224969637184962947151762628504074046014632127449069272479042744699201251826315342678115339799227702025480548783345770623250929609876031643514708988829634276427358605916012459483485978184627032953969404023311232310963422889316212345840828422686383728727753149154406087173354170576433118975770227017746422297360571459236559940075839035968206812813002938472228622994411798685778435388218654837846813391612350488593958116344655744277961277082223008197400716863383217166321278404128068788741105208499518341688513861550052692780291077857422602619770833926277535104864238024755918132196825404959613581168724619646373094911081924219580029140600422279865481517884110404052647163673070394072271987210463340352156118424262091338511274422616170377250962562064008474969154740661681679967585152668739257227115746012900555149444588938352452234067902965115744635519762053616424979550994553081151144531358257510160611225025628322482717145470021110087544744934596817794858394553849554542986717335694789639693137638519186175665533459612676181306679840947240273228212270017654175052308557126520278036793820842712411009917532812431243396460661311286874775140916472297164647820045180444751759175953530474253534176850654269819613398352383192745001922702942019655764813979934008638961485040690322218669570062629720845041270218478635994174610341013694004039721068613279940641416855616872190523587280669751737728209331655699979080754714490927064788192855438540833426240212820850837103084577257560565829120380229965321983052207267218556656203017024164323683213192281342455969325528683208480756166735375734139921577748627779115457064468689023167964501370206320551684183750818695184721791277239399050418512552565198694758725252843873493657680088887131203475013985344948566194346127918288566333429022112695978889796637889769169771503253006900592905657343112543324434537949317615018309779288784833668575160171844796807406661507232925252149606368765656431286350311988202128042973679405831571924408470727024811413520811149700490189106399123001597986902181808614126598884809411141104842023581551976600622765102986691376110164059961193666930890496504652718346641193991046990901307395263470531797612813515925731841458592355272589727493059655177136344414182225570934782395502319733368694106449890274222237271030550796459652251105094708010307765550536736943468208182684226648128986821278612379108658781736662410286070806146841051288897110581576146121426309767080557348264797456108446093911621829270334130277493056297397335081233110318214932769751599630727743476243326360151265888700495465088780035384066362295968811729346530335402574898534593381040526127858785145360925600602576272150874560736853239217507878666320057001037671514190090495002885251743150618973163046861229955953075407623403919554384877094557472628095915119440320150483582699424231623923774970715219196094788618939875388949799795330839923320938091109902492822883999432407783624624500173698154332802919590465765206842877088073961812367051324956990047593948584620282912562755559626746417912976661419940145779672975525479376144336477071684110492460014107657537699898054196089763077557943834843023960228803690850654938023408070546333085681037002172634543667816459605368127007971049098896916711104512804531157481852261364445603666874210096728890506488481362681176263424053490501788714399284401724088678684482692195577068482449838375914863929918612964267168634014723446639113667109913146289974284394495329727528189617038487348919356377752306690626103225720565791779201350089423028743354525333454545756559576059312746100996395942330071989558676511569263957717209460202655823173594502288631814744997590555604367976289603477643902107858812941188175701507672294599810348093379405354070745545183039551565138720728901104178807183287782612646459843812090965950238313616390785413283009155264572429

def rngCF : Nat := 24138915099667409854367785571006339294141211459802082984339323941518117968239597994438854704040608329934191222628012386065712969772991075941053928198853093770637679766747808425854486242496225622947700560238140929038678375258349645934264856268280666024360164580805033642563745617398579782556307995128142467225449826171993915997527105115258108219107675194577815233788933208913938298595864601759176601086542553751229360671587579084260966054339496011000936585868653471321336673567938132330398468616047251427661453146702001343123999427651194161849219562329862866649968380856690037628729945565634563524656065899685143569547900111182135604470189805697638961412484508336055174848317610757104695488620441994203944185481890575409193040234480974045334743684813562205986211150314401031505047455474154687648412562177494455431557251340411470119309737226453731348691866525637371961419821430660107989998987036478976196109929739682738920988787551736361085368165861979121988270333587248832984277741147520366991628486531295519178237406400931004944130476820285490634538076942104806724790718126239037169171440374033702863948813569185531598293381050324407084669200050246795244517931909236409084344181863928864504656555610264148269020630802415469945178933712199480134873363119961457822748189173086787094863046862671774750261784448909723052670086055032695851315364936180882597641146528493789951162539992230499080159513994119744056608509626067904289807356053824348275969096217804856333518224547651389313050076897154170163258653712655381303039298005068949450627025927374270596569412253827096660658754062860790196150592689124816252133181455447616422710531329158435270574678394507068035857451548962010192482975154802271311168975307386713747599009514569094327406052656416244117381670746714019331908367123424419936364224524794062089629661858262502713187086843002027012365890086045984433671840757851250440984418333718732263471817099769646540066665599240427406652933950736931112002755320541979364736299612869099271281082803167953599961076588048342734412758492941388255267408409376249901017609721633245500934592447203197598368288839515911674906443208971373181434882807188866444620748889218192407956171236492219647430385283662353035230224969637184962947151762628504074046014632127449069272479042744699201251826315342678115339799227702025480548783345770623250929609876031643514708988829634276427358605916012459483485978184627032953969404023311232310963422889316212345840828422686383728727753149154406087173354170576433118975770227017746422297360571459236559940075839035968206812813002938472228622994411798685778435388218654837846813391612350488593958116344655744277961277082223008197400716863383217166321278404128068788741105208499518341688513861550052692780291077857422602619770833926277535104864238024755918132196825404959613581168724619646373094911081924219580029140600422279865481517884110404052647163673070394072271987210463340352156118424262091338511274422616170377250962562064008474969154740661681679967585152668739257227115746012900555149444588938352452234067902965115744635519762053616424979550994553081151144531358257510160611225025628322482717145470021110087544744934596817794858394553849554542986717335694789639693137638519186175665533459612676181306679840947240273228212270017654175052308557126520278036793820842712411009917532812431243396460661311286874775140916472297164647820045180444751759175953530474253534176850654269819613398352383192745001922702942019655764813979934008638961485040690322218669570062629720845041270218478635994174610341013694004039721068613279940641416855616872190523587280669751737728209331655699979080754714490927064788192855438540833426240212820850837103084577257560565829120380229965321983052207267218556656203017024164323683213192281342455969325528683208480756166735375734139921577748627779115457064468689023167964501370206320551684183750818695184721791277239399050418512552565198694758725252843873493657680088887131203475013985344948566194346127918288566333429022112695978889796637889769169771503253006900592905657343112543324434537949317615018309779288784833668575160171844796807406661507232925252149606368765656431286350311988202128042973679405831571924408470727024811413520811149700490189106399123001597986902181808614126598884809411141104842023581551976600622765102986691376110164059961193666930890496504652718346641193991046990901307395263470531797612813515925731841458592355272589727493059655177136344414182225570934782395502319733368694106449890274222237271030550796459652251105094708010307765550536736943468208182684226648128986821278612379108658781736662410286070806146841051288897110581576146121426309767080557348264797456108446093911621829270334130277493056297397335081233110318214932769751599630727743476243326360151265888700495465088780035384066362295968811729346530335402574898534593381040526127858785145360925600602576272150874560736853239217507878666320057001037671514190090495002885251743150618973163046861229955953075407623403919554384877094557472628095915119440320150483582699424231623923774970715219196094788618939875388949799795330839923320938091109902492822883999432407783624624500173698154332802919590465765206842877088073961812367051324956990047593948584620282912562755559626746417912976661419940145779672975525479376144336477071684110492460014107657537699898054196089763077557943834843023960228803690850654938023408070546333085681037002172634543667816459605368127007971049098896916711104512804531157481852261364445603666874210096728890506488481362681176263424053490501788714399284401724088678684482692195577068482449838375914863929918612964267168634014723446639113667109913146289974284394495329727528189617038487348919356377752306690626103225720565791779201350089423028743354525333454545756559576059312746100996395942330071989558676511569263957717209460202655823173594502288631814744997590555604367976289603477643902107858812941188175701507672294599810348093379405354070745545183039551565138720728901104178807183287782612646459843812090965950238313616390785413283009156293328896

/-! # Theorems -/

set_option maxRecDepth 10000

/-! ## Evaluated Mersenne-Twister seeding states

Seeding a `random.Random` forces about 1900 sequential state updates,
too deep a reduction chain for a single definitional evaluation, so the
three seedings used by the concrete runs below are checkpointed: each
lemma evaluates one bounded slice of the seeding loops and the slices
are glued by the iteration-splitting lemmas. -/



theorem igIter_split (a b i mt : Nat) :
    igIter (a + b) i mt = igIter b (i + a) (igIter a i mt) := by
  induction a generalizing i mt with
  | zero => simp [igIter]
  | succ n ih =>
    have h1 : n + 1 + b = (n + b) + 1 := by omega
    rw [h1]
    show igIter (n + b) (i + 1) (igStep mt i) = _
    rw [ih]
    have h2 : i + 1 + n = i + (n + 1) := by omega
    rw [h2]
    rfl

theorem ibaIter1_split (key : List Nat) (kl a b : Nat) (st : Nat × Nat × Nat) :
    ibaIter1 key kl (a + b) st = ibaIter1 key kl b (ibaIter1 key kl a st) := by
  induction a generalizing st with
  | zero => simp [ibaIter1]
  | succ n ih =>
    have h1 : n + 1 + b = (n + b) + 1 := by omega
    rw [h1]
    show ibaIter1 key kl (n + b) (ibaStep1 key kl st) = _
    rw [ih]
    rfl

theorem ibaIter2_split (a b : Nat) (st : Nat × Nat) :
    ibaIter2 (a + b) st = ibaIter2 b (ibaIter2 a st) := by
  induction a generalizing st with
  | zero => simp [ibaIter2]
  | succ n ih =>
    have h1 : n + 1 + b = (n + b) + 1 := by omega
    rw [h1]
    show ibaIter2 (n + b) (ibaStep2 st) = _
    rw [ih]
    rfl

theorem igChunk1 : igIter 312 1 (mask32 19650218) = igL1 := by decide

theorem igChunk2 : igIter 311 313 igL1 = igL2 := by decide

theorem igFull : initGenrand 19650218 = igL2 := by
  show igIter 623 1 (mask32 19650218) = igL2
  have h : (623 : Nat) = 312 + 311 := by norm_num
  rw [h, igIter_split, igChunk1]
  show igIter 311 313 igL1 = igL2
  exact igChunk2

theorem rngAC1 : ibaIter1 rngAKey 2 312 (igL2, 1, 0) = (rngAT1, 313, 0) := by decide

theorem rngAC2 : ibaIter1 rngAKey 2 312 (rngAT1, 313, 0) = (rngAT2, 2, 0) := by decide

theorem rngAC3 : ibaIter2 312 (rngAT2, 2) = (rngAU1, 314) := by decide

theorem rngAC4 : ibaIter2 311 (rngAU1, 314) = (rngAU2, 2) := by decide

theorem rngASeedKey : seedKey (sha256Seed "no_session|INTELLIGENCE_EXTRACTION|PHISHING|1") = rngAKey := by decide

theorem rngAInit : initByArray rngAKey = rngAF := by
  show (fun key =>
    let mt0 := initGenrand 19650218
    let kl := max key.length 1
    let s1 := ibaIter1 key kl (max 624 kl) (mt0, 1, 0)
    let s2 := ibaIter2 623 (s1.1, s1.2.1)
    mtSet s2.1 0 0x80000000) rngAKey = rngAF
  simp only [igFull]
  have hkl : max (rngAKey).length 1 = 2 := by decide
  have hn : max 624 2 = 624 := by norm_num
  have h624 : (624 : Nat) = 312 + 312 := by norm_num
  have h623 : (623 : Nat) = 312 + 311 := by norm_num
  simp only [hkl, hn, h624, h623, ibaIter1_split, ibaIter2_split, rngAC1, rngAC2]
  simp only [rngAC3, rngAC4]
  decide

theorem rngBC1 : ibaIter1 rngBKey 2 312 (igL2, 1, 0) = (rngBT1, 313, 0) := by decide

theorem rngBC2 : ibaIter1 rngBKey 2 312 (rngBT1, 313, 0) = (rngBT2, 2, 0) := by decide

theorem rngBC3 : ibaIter2 312 (rngBT2, 2) = (rngBU1, 314) := by decide

theorem rngBC4 : ibaIter2 311 (rngBU1, 314) = (rngBU2, 2) := by decide

theorem rngBSeedKey : seedKey (sha256Seed "no_session|BENIGN_HELP|BENIGN|5") = rngBKey := by decide

theorem rngBInit : initByArray rngBKey = rngBF := by
  show (fun key =>
    let mt0 := initGenrand 19650218
    let kl := max key.length 1
    let s1 := ibaIter1 key kl (max 624 kl) (mt0, 1, 0)
    let s2 := ibaIter2 623 (s1.1, s1.2.1)
    mtSet s2.1 0 0x80000000) rngBKey = rngBF
  simp only [igFull]
  have hkl : max (rngBKey).length 1 = 2 := by decide
  have hn : max 624 2 = 624 := by norm_num
  have h624 : (624 : Nat) = 312 + 312 := by norm_num
  have h623 : (623 : Nat) = 312 + 311 := by norm_num
  simp only [hkl, hn, h624, h623, ibaIter1_split, ibaIter2_split, rngBC1, rngBC2]
  simp only [rngBC3, rngBC4]
  decide

theorem rngCC1 : ibaIter1 rngCKey 2 312 (igL2, 1, 0) = (rngCT1, 313, 0) := by decide

theorem rngCC2 : ibaIter1 rngCKey 2 312 (rngCT1, 313, 0) = (rngCT2, 2, 0) := by decide

theorem rngCC3 : ibaIter2 312 (rngCT2, 2) = (rngCU1, 314) := by decide

theorem rngCC4 : ibaIter2 311 (rngCU1, 314) = (rngCU2, 2) := by decide

theorem rngCSeedKey : seedKey (sha256Seed "no_session|BENIGN_HELP|BENIGN|6") = rngCKey := by decide

theorem rngCInit : initByArray rngCKey = rngCF := by
  show (fun key =>
    let mt0 := initGenrand 19650218
    let kl := max key.length 1
    let s1 := ibaIter1 key kl (max 624 kl) (mt0, 1, 0)
    let s2 := ibaIter2 623 (s1.1, s1.2.1)
    mtSet s2.1 0 0x80000000) rngCKey = rngCF
  simp only [igFull]
  have hkl : max (rngCKey).length 1 = 2 := by decide
  have hn : max 624 2 = 624 := by norm_num
  have h624 : (624 : Nat) = 312 + 312 := by norm_num
  have h623 : (623 : Nat) = 312 + 311 := by norm_num
  simp only [hkl, hn, h624, h623, ibaIter1_split, ibaIter2_split, rngCC1, rngCC2]
  simp only [rngCC3, rngCC4]
  decide


/-! ## The seeded rngs applied: `_make_rng`, `_pick` and `generate_reply`
on the concrete turns exercised by the claim instances -/

theorem mkA : makeRng none "INTELLIGENCE_EXTRACTION" "PHISHING" 1 = ⟨rngAF, 624⟩ := by
  unfold makeRng randomNew
  have hkey : (((none : Option String).getD "no_session") ++ "|" ++ "INTELLIGENCE_EXTRACTION" ++ "|" ++ "PHISHING" ++ "|" ++ toString 1)
      = "no_session|INTELLIGENCE_EXTRACTION|PHISHING|1" := by decide
  simp only [hkey, rngASeedKey, rngAInit]

theorem mkB : makeRng none "BENIGN_HELP" "BENIGN" 5 = ⟨rngBF, 624⟩ := by
  unfold makeRng randomNew
  have hkey : (((none : Option String).getD "no_session") ++ "|" ++ "BENIGN_HELP" ++ "|" ++ "BENIGN" ++ "|" ++ toString 5)
      = "no_session|BENIGN_HELP|BENIGN|5" := by decide
  simp only [hkey, rngBSeedKey, rngBInit]

theorem mkC : makeRng none "BENIGN_HELP" "BENIGN" 6 = ⟨rngCF, 624⟩ := by
  unfold makeRng randomNew
  have hkey : (((none : Option String).getD "no_session") ++ "|" ++ "BENIGN_HELP" ++ "|" ++ "BENIGN" ++ "|" ++ toString 6)
      = "no_session|BENIGN_HELP|BENIGN|6" := by decide
  simp only [hkey, rngCSeedKey, rngCInit]

theorem pickB : (pick benignHelpDecision ⟨rngBF, 624⟩).1
    = "Aapka issue exactly kya hai—payment fail, PIN issue, ya account warning?" := by decide

theorem pickC : (pick benignHelpDecision ⟨rngCF, 624⟩).1
    = "Aapka issue exactly kya hai—payment fail, PIN issue, ya account warning?" := by decide

theorem genC8 : generateReply "INTELLIGENCE_EXTRACTION" (some "PHISHING") (some "PHISHING")
    (aggregateEvidenceFromHistory [] msgC8) none 1
    = (some "It’s asking for netbanking/login—verification me login kyu chahiye?",
       "Keep phishing engagement realistic and gather next-step instructions.") := by
  have hup : upperStr ((some "PHISHING").getD "UNKNOWN") = "PHISHING" := by decide
  unfold generateReply
  simp only [hup, mkA]
  decide

theorem agentReplyC8 :
    (agentDecision (detectScam msgC8 []) [] (aggregateEvidenceFromHistory [] msgC8) none).agentReply
    = some "It’s asking for netbanking/login—verification me login kyu chahiye?" := by
  have hdet : detectScam msgC8 [] =
      ⟨true, 1, "PHISHING", some "PHISHING",
       ⟨["kyc", "verify", "account", "suspended"], [], [], [], ["http://bit.ly/kyc-verify"]⟩⟩ := by decide
  rw [hdet]
  have h08 : (0.8 : ℚ) ≤ (1 : ℚ) := by norm_num
  unfold agentDecision
  simp only [h08, List.length_nil, Nat.zero_add, Nat.max_self, Bool.not_true, genC8]
  decide

/-! ## Detector branch characterization -/

theorem detectScam_eq (t : String) (h : List Msg) :
    detectScam t h =
      if (0.5 : ℚ) ≤ detectScamScore t h then
        { scamDetected := true, confidenceScore := round2 (detectScamScore t h),
          scamStage := dsStage t h, scamType := some (dsScamType t h),
          indicators := dsIndicators t }
      else
        { scamDetected := false, confidenceScore := round2 (detectScamScore t h),
          scamStage := "BENIGN", scamType := none, indicators := dsIndicators t } := by
  unfold detectScam
  by_cases hs : (0.5 : ℚ) ≤ detectScamScore t h
  · simp [hs]
  · simp [hs]

theorem detectScam_detected_iff (t : String) (h : List Msg) :
    (detectScam t h).scamDetected = true ↔ (0.5 : ℚ) ≤ detectScamScore t h := by
  rw [detectScam_eq]
  by_cases hs : (0.5 : ℚ) ≤ detectScamScore t h
  · simp [hs]
  · simp [hs]

theorem detectScam_conf (t : String) (h : List Msg) :
    (detectScam t h).confidenceScore = round2 (detectScamScore t h) := by
  rw [detectScam_eq]
  by_cases hs : (0.5 : ℚ) ≤ detectScamScore t h
  · rw [if_pos hs]
  · rw [if_neg hs]

theorem detectScam_stage_detected (t : String) (h : List Msg)
    (hd : (detectScam t h).scamDetected = true) :
    (detectScam t h).scamStage = dsStage t h := by
  rw [detectScam_eq] at hd ⊢
  by_cases hs : (0.5 : ℚ) ≤ detectScamScore t h
  · rw [if_pos hs]
  · rw [if_neg hs] at hd
    exact absurd hd (by simp)

theorem detectStage_url (t : String) (u b o : Bool) : detectStage t u true b o = "PHISHING" := rfl

theorem round2_ge_half (q : ℚ) (hq : (0.5 : ℚ) ≤ q) : (0.5 : ℚ) ≤ round2 q := by
  unfold round2
  have h50 : (50 : ℤ) ≤ ⌊q * 100 + 1/2⌋ := by
    apply Int.le_floor.mpr
    push_cast
    nlinarith
  have h50' : ((50 : ℤ) : ℚ) ≤ (⌊q * 100 + 1/2⌋ : ℚ) := by exact_mod_cast h50
  push_cast at h50'
  nlinarith

/-! ## `dedupe` and filter membership (extractor allow-list) -/

theorem dedupe_go_subset (v : String) :
    ∀ (items acc : List String),
      v ∈ items.foldl (fun acc v => if acc.contains v then acc else acc ++ [v]) acc →
      v ∈ acc ∨ v ∈ items
  | [], _, h => Or.inl h
  | x :: xs, acc, h => by
    rcases dedupe_go_subset v xs (if acc.contains x then acc else acc ++ [x]) h with h1 | h1
    · split at h1
      · exact Or.inl h1
      · rcases List.mem_append.mp h1 with h2 | h2
        · exact Or.inl h2
        · simp only [List.mem_singleton] at h2
          subst h2
          exact Or.inr (List.mem_cons_self v xs)
    · exact Or.inr (List.mem_cons_of_mem x h1)

theorem dedupe_subset (v : String) (items : List String) (h : v ∈ dedupe items) : v ∈ items := by
  rcases dedupe_go_subset v items [] h with h1 | h1
  · exact absurd h1 (List.not_mem_nil v)
  · exact h1

/-! ## `agent_decision` branch lemmas -/

theorem agentDecision_benign (analysis : Detection) (h2 : List Msg) (intel : EvidenceSet)
    (sid : Option String) (hd : analysis.scamDetected = false) :
    agentDecision analysis h2 intel sid =
      { activated := false, riskLevel := "LOW", action := "ALLOW", agentMode := "PASSIVE",
        message := "No scam indicators detected",
        agentReply := some (pick benignHelpDecision
          (makeRng sid "BENIGN_HELP" "BENIGN" (max 1 (h2.length + 1)))).1,
        agentGoal := "Help user safely (benign).",
        persona := some personaStyle } := by
  simp only [agentDecision, hd, Bool.not_false, if_true]

theorem generateReply_soft_isSome (stage scamType : Option String) (extracted : EvidenceSet)
    (sid : Option String) (ti : Nat) :
    (generateReply "SOFT_ENGAGEMENT" stage scamType extracted sid ti).1.isSome = true := rfl

theorem generateReply_intel_isSome (stage scamType : Option String) (extracted : EvidenceSet)
    (sid : Option String) (ti : Nat) :
    (generateReply "INTELLIGENCE_EXTRACTION" stage scamType extracted sid ti).1.isSome = true := by
  have h1 : (("INTELLIGENCE_EXTRACTION" : String) == "SOFT_ENGAGEMENT") = false := rfl
  have h2 : (("INTELLIGENCE_EXTRACTION" : String) == "INTELLIGENCE_EXTRACTION") = true := rfl
  simp only [generateReply, h1, h2, Bool.false_eq_true, if_false, if_true]
  repeat' split
  all_goals rfl

theorem ne_of_head (a b : String) (c₁ c₂ : Char) (h1 : a.data.head? = some c₁)
    (h2 : b.data.head? = some c₂) (hne : c₁ ≠ c₂) : a ≠ b := by
  intro he
  rw [he, h2] at h1
  exact hne (Option.some.inj h1).symm

theorem agentDecision_detected_reply (analysis : Detection) (h2 : List Msg)
    (intel : EvidenceSet) (sid : Option String)
    (hd : analysis.scamDetected = true) (hc : (0.5 : ℚ) ≤ analysis.confidenceScore) :
    (agentDecision analysis h2 intel sid).agentReply.isSome = true ∧
    (agentDecision analysis h2 intel sid).message ≠ "Suspicious but not confirmed" := by
  simp only [agentDecision, hd, Bool.not_true, Bool.false_eq_true, if_false]
  by_cases h08 : (0.8 : ℚ) ≤ analysis.confidenceScore
  · rw [if_pos h08]
    exact ⟨generateReply_intel_isSome (some analysis.scamStage) analysis.scamType intel sid
      (max 1 (h2.length + 1)), ne_of_head _ _ 'H' 'S' rfl rfl (by decide)⟩
  · rw [if_neg h08]
    have hdec : decide ((0.5 : ℚ) ≤ analysis.confidenceScore) = true := decide_eq_true hc
    simp only [hdec, Bool.true_and]
    cases hl : ((intelGaps intel).hasAnyStrong || intel.hasPaymentIntent || intel.hasQRIntent) with
    | true =>
      rw [if_pos rfl]
      exact ⟨generateReply_intel_isSome (some analysis.scamStage) analysis.scamType intel sid
        (max 1 (h2.length + 1)), ne_of_head _ _ 'E' 'S' rfl rfl (by decide)⟩
    | false =>
      rw [if_neg (by simp [hl])]
      rw [if_pos hc]
      exact ⟨generateReply_soft_isSome (some analysis.scamStage) analysis.scamType intel sid
        (max 1 (h2.length + 1)), ne_of_head _ _ 'P' 'S' rfl rfl (by decide)⟩

/-! ## `receive_message` response shape -/

theorem receiveMessage_response (stored : Option SessionRec) (req : Request) (now : ℚ) :
    (receiveMessage stored req now).2 =
      ⟨"success",
        match (agentDecision
            (detectScam req.text (match stored with | none => [] | some s => s.history))
            (match stored with | none => [] | some s => s.history)
            (aggregateEvidenceFromHistory
              (match stored with | none => [] | some s => s.history) req.text)
            none).agentReply with
        | some r => if r == "" then defaultReply else r
        | none => defaultReply⟩ := by
  cases stored <;> rfl

theorem replyText_ne (o : Option String) :
    (match o with
     | some r => if r == "" then defaultReply else r
     | none => defaultReply) ≠ "" := by
  match o with
  | none => decide
  | some r =>
    show (if (r == "") = true then defaultReply else r) ≠ ""
    by_cases h : (r == "") = true
    · rw [if_pos h]
      decide
    · rw [if_neg h]
      intro he
      exact h (by simp [he])

theorem receiveMessage_reply_ne (stored : Option SessionRec) (req : Request) (now : ℚ) :
    (receiveMessage stored req now).2.reply ≠ "" := by
  rw [receiveMessage_response]
  exact replyText_ne _

theorem receiveMessage_status (stored : Option SessionRec) (req : Request) (now : ℚ) :
    (receiveMessage stored req now).2.status = "success" := by
  cases stored <;> rfl

/-! ## Cluster-id pinning step -/

theorem receiveMessage_cluster_pinned (s : SessionRec) (req : Request) (now : ℚ) (c : String)
    (hc : s.threatClusterId = some c) :
    (receiveMessage (some s) req now).1.threatClusterId = some c := by
  obtain ⟨sa, sl, st, sh, stc⟩ := s
  have hc' : stc = some c := hc
  subst hc'
  rfl

/-! ## Benign replies at turns 5 and 6 (all-greeting session) -/

theorem benignReply5 (a : Detection) (i : EvidenceSet) (hd : a.scamDetected = false) :
    (agentDecision a hist4 i none).agentReply =
      some "Aapka issue exactly kya hai—payment fail, PIN issue, ya account warning?" := by
  rw [agentDecision_benign a hist4 i none hd]
  show some (pick benignHelpDecision
    (makeRng none "BENIGN_HELP" "BENIGN" (max 1 (hist4.length + 1)))).1 = _
  have h5 : max 1 (hist4.length + 1) = 5 := by decide
  rw [h5, mkB, pickB]

theorem benignReply6 (a : Detection) (i : EvidenceSet) (hd : a.scamDetected = false) :
    (agentDecision a hist5 i none).agentReply =
      some "Aapka issue exactly kya hai—payment fail, PIN issue, ya account warning?" := by
  rw [agentDecision_benign a hist5 i none hd]
  show some (pick benignHelpDecision
    (makeRng none "BENIGN_HELP" "BENIGN" (max 1 (hist5.length + 1)))).1 = _
  have h6 : max 1 (hist5.length + 1) = 6 := by decide
  rw [h6, mkC, pickC]


theorem maxIfEq (a c : ℚ) : (if a < c then c else a) = max a c := by
  rcases lt_or_le a c with h | h
  · rw [if_pos h, max_eq_right h.le]
  · rw [if_neg (not_lt.mpr h), max_eq_left h]

theorem minIfEq (s t : Nat) : (if t < s then t else s) = min s t := by
  rcases lt_or_le t s with h | h
  · rw [if_pos h, min_eq_right h.le]
  · rw [if_neg (not_lt.mpr h), min_eq_left h]

theorem findConsPos (p : EvidenceRecord → Bool) (a : EvidenceRecord)
    (l : List EvidenceRecord) (h : p a = true) : (a :: l).find? p = some a := by
  simp [List.find?, h]

theorem findConsNeg (p : EvidenceRecord → Bool) (a : EvidenceRecord)
    (l : List EvidenceRecord) (h : p a = false) : (a :: l).find? p = l.find? p := by
  simp [List.find?, h]

theorem findMapValuePreserving (f : EvidenceRecord → EvidenceRecord)
    (hf : ∀ r, (f r).value = r.value) (k : String) :
    ∀ l : List EvidenceRecord,
      (l.map f).find? (fun r => r.value == k) = (l.find? (fun r => r.value == k)).map f
  | [] => rfl
  | r :: t => by
    simp only [List.map_cons]
    cases hp : ((fun r : EvidenceRecord => r.value == k) r) with
    | true =>
      have hfp : (fun r : EvidenceRecord => r.value == k) (f r) = true := by
        simp only []
        rw [hf]
        exact hp
      rw [findConsPos _ _ _ hfp, findConsPos _ _ _ hp]
      rfl
    | false =>
      have hfp : (fun r : EvidenceRecord => r.value == k) (f r) = false := by
        simp only []
        rw [hf]
        exact hp
      rw [findConsNeg _ _ _ hfp, findConsNeg _ _ _ hp]
      exact findMapValuePreserving f hf k t

theorem findAppendNone {p : EvidenceRecord → Bool} {l₁ : List EvidenceRecord}
    (h : l₁.find? p = none) (l₂ : List EvidenceRecord) :
    (l₁ ++ l₂).find? p = l₂.find? p := by
  induction l₁ with
  | nil => simp
  | cons r t ih =>
    cases hp : p r with
    | true => rw [findConsPos _ _ _ hp] at h; exact absurd h (by simp)
    | false =>
      rw [findConsNeg _ _ _ hp] at h
      rw [List.cons_append, findConsNeg _ _ _ hp]
      exact ih h

theorem findAppendSome {p : EvidenceRecord → Bool} {l₁ : List EvidenceRecord}
    {a : EvidenceRecord} (h : l₁.find? p = some a) (l₂ : List EvidenceRecord) :
    (l₁ ++ l₂).find? p = some a := by
  induction l₁ with
  | nil => simp at h
  | cons r t ih =>
    cases hp : p r with
    | true =>
      rw [findConsPos _ _ _ hp] at h
      rw [List.cons_append, findConsPos _ _ _ hp]
      exact h
    | false =>
      rw [findConsNeg _ _ _ hp] at h
      rw [List.cons_append, findConsNeg _ _ _ hp]
      exact ih h

theorem lookupAddOne (conf : ℚ) (turn : Nat) (recs : List EvidenceRecord) (v k : String) :
    lookupRec k (addOneEvidence conf turn recs v) =
      if pyStrip v = "" then lookupRec k recs
      else if k = pyStrip v then
        match lookupRec k recs with
        | none => some ⟨pyStrip v, conf, turn⟩
        | some r => some ⟨r.value, max r.confidence conf, min r.sourceTurn turn⟩
      else lookupRec k recs := by
  simp only [lookupRec]
  by_cases h0 : pyStrip v = ""
  · rw [if_pos h0]
    simp [addOneEvidence, h0]
  · rw [if_neg h0]
    by_cases hmem : ((recs.find? (fun r => r.value == pyStrip v)).isSome : Prop)
    · have hstep : addOneEvidence conf turn recs v =
          recs.map (fun r =>
            if r.value == pyStrip v then
              { r with
                confidence := if r.confidence < conf then conf else r.confidence
                sourceTurn := if turn < r.sourceTurn then turn else r.sourceTurn }
            else r) := by
        unfold addOneEvidence
        rw [if_neg h0, if_pos hmem]
      rw [hstep]
      rw [findMapValuePreserving _
        (fun r => by by_cases h : (r.value == pyStrip v) = true <;> simp [h]) k]
      by_cases hk : k = pyStrip v
      · subst hk
        obtain ⟨r, hr⟩ := Option.isSome_iff_exists.mp hmem
        rw [if_pos rfl, hr]
        have hrv := List.find?_some hr
        simp only [Option.map]
        rw [if_pos hrv, maxIfEq, minIfEq]
      · rw [if_neg hk]
        cases hfind : recs.find? (fun r => r.value == k) with
        | none => rfl
        | some r =>
          have hrv := List.find?_some hfind
          have hrv' : (r.value == pyStrip v) = false := by
            have heq : r.value = k := beq_iff_eq.mp hrv
            simp only [beq_eq_false_iff_ne, ne_eq, heq]
            exact hk
          simp only [Option.map]
          rw [if_neg (by simp [hrv'])]
    · have hnone : recs.find? (fun r => r.value == pyStrip v) = none := by
        cases hf : recs.find? (fun r => r.value == pyStrip v) with
        | none => rfl
        | some r => rw [hf] at hmem; simp at hmem
      have hstep : addOneEvidence conf turn recs v =
          recs ++ [⟨pyStrip v, conf, turn⟩] := by
        unfold addOneEvidence
        rw [if_neg h0, if_neg hmem]
      rw [hstep]
      by_cases hk : k = pyStrip v
      · subst hk
        rw [if_pos rfl, findAppendNone hnone, hnone]
        simp [List.find?]
      · rw [if_neg hk]
        cases hfind : recs.find? (fun r => r.value == k) with
        | none =>
          rw [findAppendNone hfind]
          have hne : (pyStrip v == k) = false := by
            simp only [beq_eq_false_iff_ne, ne_eq]
            exact fun h => hk h.symm
          simp [List.find?, hne]
        | some r => rw [findAppendSome hfind]


theorem cleanValuesCons (v : String) (vs : List String) :
    cleanValues (v :: vs) =
      if pyStrip v = "" then cleanValues vs else pyStrip v :: cleanValues vs := by
  by_cases h : pyStrip v = ""
  · simp [cleanValues, h]
  · simp [cleanValues, h]

theorem lookupAddEvidenceCore (conf : ℚ) (turn : Nat) (values : List String) :
    ∀ (recs : List EvidenceRecord) (k : String),
    lookupRec k (addEvidenceCore conf turn values recs) =
      if (cleanValues values).contains k then
        match lookupRec k recs with
        | none => some ⟨k, conf, turn⟩
        | some r => some ⟨r.value, max r.confidence conf, min r.sourceTurn turn⟩
      else lookupRec k recs := by
  induction values with
  | nil =>
    intro recs k
    simp [addEvidenceCore, cleanValues]
  | cons v vs ih =>
    intro recs k
    have hstep : addEvidenceCore conf turn (v :: vs) recs =
        addEvidenceCore conf turn vs (addOneEvidence conf turn recs v) := rfl
    rw [hstep, ih, lookupAddOne, cleanValuesCons]
    by_cases h0 : pyStrip v = ""
    · rw [if_pos h0, if_pos h0]
    · rw [if_neg h0, if_neg h0]
      by_cases hk : k = pyStrip v
      · subst hk
        have hrefl : pyStrip v = pyStrip v := rfl
        rw [if_pos hrefl]
        have hcons : ((pyStrip v :: cleanValues vs).contains (pyStrip v)) = true := by
          simp [List.contains_cons]
        rw [if_pos hcons]
        by_cases hvs : ((cleanValues vs).contains (pyStrip v) : Prop)
        · rw [if_pos hvs]
          cases hfind : lookupRec (pyStrip v) recs with
          | none => simp
          | some r => simp [max_assoc, min_assoc, max_self, min_self]
        · rw [if_neg hvs]
      · rw [if_neg hk]
        have hne : (k == pyStrip v) = false := beq_eq_false_iff_ne.mpr hk
        have hc : ((pyStrip v :: cleanValues vs).contains k) =
            ((cleanValues vs).contains k) := by
          simp only [List.contains_cons, hne, Bool.false_or]
        rw [hc]

theorem nodupAddOne (conf : ℚ) (turn : Nat) (recs : List EvidenceRecord) (v : String)
    (h : (recs.map (fun r => r.value)).Nodup) :
    ((addOneEvidence conf turn recs v).map (fun r => r.value)).Nodup := by
  unfold addOneEvidence
  by_cases h0 : pyStrip v = ""
  · rw [if_pos h0]; exact h
  · rw [if_neg h0]
    by_cases hmem : ((recs.find? (fun r => r.value == pyStrip v)).isSome : Prop)
    · rw [if_pos hmem]
      rw [List.map_map]
      have : (recs.map ((fun r => r.value) ∘ (fun r =>
          if r.value == pyStrip v then
            { r with
              confidence := if r.confidence < conf then conf else r.confidence
              sourceTurn := if turn < r.sourceTurn then turn else r.sourceTurn }
          else r))) = recs.map (fun r => r.value) := by
        apply List.map_congr_left
        intro r _
        simp only [Function.comp]
        split <;> rfl
      rw [this]
      exact h
    · rw [if_neg hmem]
      have hnone : recs.find? (fun r => r.value == pyStrip v) = none := by
        cases hf : recs.find? (fun r => r.value == pyStrip v) with
        | none => rfl
        | some r => rw [hf] at hmem; simp at hmem
      have hnotin : pyStrip v ∉ recs.map (fun r => r.value) := by
        intro hin
        obtain ⟨r, hr, hv⟩ := List.mem_map.mp hin
        have := List.find?_eq_none.mp hnone r hr
        simp [hv] at this
      simp only [List.map_append, List.map_cons, List.map_nil]
      rw [List.nodup_append]
      refine ⟨h, List.nodup_singleton _, ?_⟩
      intro a ha hb
      simp at hb
      subst hb
      exact hnotin ha

theorem nodupAddEvidenceCore (conf : ℚ) (turn : Nat) (values : List String) :
    ∀ recs : List EvidenceRecord, (recs.map (fun r => r.value)).Nodup →
      ((addEvidenceCore conf turn values recs).map (fun r => r.value)).Nodup := by
  induction values with
  | nil => intro recs h; exact h
  | cons v vs ih =>
    intro recs h
    exact ih (addOneEvidence conf turn recs v) (nodupAddOne conf turn recs v h)

theorem nodupRunBatchesFrom :
    ∀ (bs : List (ℚ × Nat × List String)) (recs : List EvidenceRecord),
      (recs.map (fun r => r.value)).Nodup →
      ((runBatchesFrom recs bs).map (fun r => r.value)).Nodup := by
  intro bs
  induction bs with
  | nil => intro recs h; exact h
  | cons b bs ih =>
    intro recs h
    exact ih _ (nodupAddEvidenceCore b.1 b.2.1 b.2.2 recs h)

theorem filterConsPos (p : (ℚ × Nat × List String) → Bool) (a : ℚ × Nat × List String)
    (l : List (ℚ × Nat × List String)) (h : p a = true) :
    (a :: l).filter p = a :: l.filter p := by
  simp [List.filter, h]

theorem filterConsNeg (p : (ℚ × Nat × List String) → Bool) (a : ℚ × Nat × List String)
    (l : List (ℚ × Nat × List String)) (h : p a = false) :
    (a :: l).filter p = l.filter p := by
  simp [List.filter, h]

theorem sightingsCons (b : ℚ × Nat × List String) (bs : List (ℚ × Nat × List String))
    (k : String) :
    sightings (b :: bs) k =
      if (cleanValues b.2.2).contains k then (b.1, b.2.1) :: sightings bs k
      else sightings bs k := by
  unfold sightings
  cases hp : (cleanValues b.2.2).contains k with
  | true =>
    rw [filterConsPos _ _ _ hp]
    simp
  | false =>
    rw [filterConsNeg _ _ _ hp]
    simp

theorem lookupRunBatchesFrom (k : String) :
    ∀ (bs : List (ℚ × Nat × List String)) (recs : List EvidenceRecord),
      lookupRec k (runBatchesFrom recs bs) =
        (sightings bs k).foldl (sightStep k) (lookupRec k recs) := by
  intro bs
  induction bs with
  | nil => intro recs; rfl
  | cons b bs ih =>
    intro recs
    have hstep : runBatchesFrom recs (b :: bs) =
        runBatchesFrom (addEvidenceCore b.1 b.2.1 b.2.2 recs) bs := rfl
    rw [hstep, ih, lookupAddEvidenceCore, sightingsCons]
    by_cases h : (((cleanValues b.2.2).contains k : Bool) : Prop)
    · rw [if_pos h, if_pos h]
      have : sightStep k (lookupRec k recs) (b.1, b.2.1) =
          match lookupRec k recs with
          | none => some ⟨k, b.1, b.2.1⟩
          | some r => some ⟨r.value, max r.confidence b.1, min r.sourceTurn b.2.1⟩ := by
        cases lookupRec k recs <;> rfl
      rw [List.foldl_cons, this]
    · rw [if_neg h, if_neg h]

theorem foldSightSome (k : String) :
    ∀ (ss : List (ℚ × Nat)) (r0 : EvidenceRecord),
      ∃ r, ss.foldl (sightStep k) (some r0) = some r ∧
        r.value = r0.value ∧
        (r.confidence = r0.confidence ∨ ∃ s ∈ ss, r.confidence = s.1) ∧
        r0.confidence ≤ r.confidence ∧ (∀ s ∈ ss, s.1 ≤ r.confidence) ∧
        (r.sourceTurn = r0.sourceTurn ∨ ∃ s ∈ ss, r.sourceTurn = s.2) ∧
        r.sourceTurn ≤ r0.sourceTurn ∧ (∀ s ∈ ss, r.sourceTurn ≤ s.2) := by
  intro ss
  induction ss with
  | nil =>
    intro r0
    exact ⟨r0, rfl, rfl, Or.inl rfl, le_refl _, by simp, Or.inl rfl, le_refl _, by simp⟩
  | cons s ss ih =>
    intro r0
    have hstep : (s :: ss).foldl (sightStep k) (some r0) =
        ss.foldl (sightStep k) (some ⟨r0.value, max r0.confidence s.1, min r0.sourceTurn s.2⟩) := rfl
    obtain ⟨r, hfold, hval, hcatt, hcmon, hcbound, htatt, htmon, htbound⟩ :=
      ih ⟨r0.value, max r0.confidence s.1, min r0.sourceTurn s.2⟩
    refine ⟨r, by rw [hstep]; exact hfold, hval, ?_, ?_, ?_, ?_, ?_, ?_⟩
    · rcases hcatt with h | ⟨s', hs', he⟩
      · rcases max_choice r0.confidence s.1 with hm | hm
        · exact Or.inl (h.trans hm)
        · exact Or.inr ⟨s, List.mem_cons_self s ss, h.trans hm⟩
      · exact Or.inr ⟨s', List.mem_cons_of_mem s hs', he⟩
    · exact le_trans (le_max_left _ _) hcmon
    · intro s' hs'
      rcases List.mem_cons.mp hs' with h | h
      · subst h
        exact le_trans (le_max_right _ _) hcmon
      · exact hcbound s' h
    · rcases htatt with h | ⟨s', hs', he⟩
      · rcases min_choice r0.sourceTurn s.2 with hm | hm
        · exact Or.inl (h.trans hm)
        · exact Or.inr ⟨s, List.mem_cons_self s ss, h.trans hm⟩
      · exact Or.inr ⟨s', List.mem_cons_of_mem s hs', he⟩
    · exact le_trans htmon (min_le_left _ _)
    · intro s' hs'
      rcases List.mem_cons.mp hs' with h | h
      · subst h
        exact le_trans htmon (min_le_right _ _)
      · exact htbound s' h

theorem foldSightNone (k : String) (ss : List (ℚ × Nat)) :
    (ss = [] ∧ ss.foldl (sightStep k) none = none) ∨
      ∃ r, ss.foldl (sightStep k) none = some r ∧
        r.value = k ∧
        (∃ s ∈ ss, r.confidence = s.1) ∧ (∀ s ∈ ss, s.1 ≤ r.confidence) ∧
        (∃ s ∈ ss, r.sourceTurn = s.2) ∧ (∀ s ∈ ss, r.sourceTurn ≤ s.2) := by
  cases ss with
  | nil => exact Or.inl ⟨rfl, rfl⟩
  | cons s ss =>
    right
    have hstep : (s :: ss).foldl (sightStep k) none =
        ss.foldl (sightStep k) (some ⟨k, s.1, s.2⟩) := rfl
    obtain ⟨r, hfold, hval, hcatt, hcmon, hcbound, htatt, htmon, htbound⟩ :=
      foldSightSome k ss ⟨k, s.1, s.2⟩
    refine ⟨r, by rw [hstep]; exact hfold, hval, ?_, ?_, ?_, ?_⟩
    · rcases hcatt with h | ⟨s', hs', he⟩
      · exact ⟨s, List.mem_cons_self s ss, h⟩
      · exact ⟨s', List.mem_cons_of_mem s hs', he⟩
    · intro s' hs'
      rcases List.mem_cons.mp hs' with h | h
      · subst h; exact hcmon
      · exact hcbound s' h
    · rcases htatt with h | ⟨s', hs', he⟩
      · exact ⟨s, List.mem_cons_self s ss, h⟩
      · exact ⟨s', List.mem_cons_of_mem s hs', he⟩
    · intro s' hs'
      rcases List.mem_cons.mp hs' with h | h
      · subst h; exact htmon
      · exact htbound s' h

theorem runBatchesAppend (recs : List EvidenceRecord) (a : List (ℚ × Nat × List String))
    (b : ℚ × Nat × List String) :
    runBatchesFrom recs (a ++ [b]) = addEvidenceCore b.1 b.2.1 b.2.2 (runBatchesFrom recs a) := by
  unfold runBatchesFrom
  rw [List.foldl_append]
  rfl

theorem catIMaggTurn (cat : Category) (m : IntelMap) (turn : Nat) (text : String) :
    catIM cat (aggTurn m turn text) =
      addEvidenceCore (baseConfidence (catField cat)) turn
        (catProj cat (extractFeatures text)) (catIM cat m) := by
  cases cat <;> rfl

theorem bridgeHist (cat : Category) :
    ∀ (history : List Msg) (n : Nat) (m : IntelMap),
      catIM cat ((List.enumFrom n history).foldl
        (fun acc p => aggTurn acc (p.1 + 1) p.2.text) m) =
      runBatchesFrom (catIM cat m)
        ((List.enumFrom n history).map
          (fun p => (baseConfidence (catField cat), p.1 + 1,
            catProj cat (extractFeatures p.2.text)))) := by
  intro history
  induction history with
  | nil => intro n m; rfl
  | cons msg rest ih =>
    intro n m
    show catIM cat ((List.enumFrom (n + 1) rest).foldl
        (fun acc p => aggTurn acc (p.1 + 1) p.2.text) (aggTurn m (n + 1) msg.text)) = _
    rw [ih (n + 1) (aggTurn m (n + 1) msg.text), catIMaggTurn]
    rfl

theorem catAggregate (cat : Category) (history : List Msg) (current : String) :
    catRecords cat (aggregateEvidenceFromHistory history current) =
      runBatchesFrom [] (catBatches cat history current) := by
  unfold catBatches
  rw [runBatchesAppend]
  have hb := bridgeHist cat history 0 emptyIntelMap
  cases cat with
  | upi =>
    show addEvidenceCore ((none : Option ℚ).getD (baseConfidence "upiIds"))
        (history.length + 1) (extractFeatures current).upiIds
        (catIM .upi (List.enum history |>.foldl
          (fun acc p => aggTurn acc (p.1 + 1) p.2.text) emptyIntelMap)) = _
    rw [show List.enum history = List.enumFrom 0 history from rfl, hb]
    rfl
  | bank =>
    show addEvidenceCore ((none : Option ℚ).getD (baseConfidence "bankAccounts"))
        (history.length + 1) (extractFeatures current).bankAccounts
        (catIM .bank (List.enum history |>.foldl
          (fun acc p => aggTurn acc (p.1 + 1) p.2.text) emptyIntelMap)) = _
    rw [show List.enum history = List.enumFrom 0 history from rfl, hb]
    rfl
  | ifsc =>
    show addEvidenceCore ((none : Option ℚ).getD (baseConfidence "ifscCodes"))
        (history.length + 1) (extractFeatures current).ifscCodes
        (catIM .ifsc (List.enum history |>.foldl
          (fun acc p => aggTurn acc (p.1 + 1) p.2.text) emptyIntelMap)) = _
    rw [show List.enum history = List.enumFrom 0 history from rfl, hb]
    rfl
  | link =>
    show addEvidenceCore
        ((if (extractFeatures current).phishingLinks.any
            (fun l => strStarts (lowerStr l) "upi://pay") then some (0.92 : ℚ)
          else none).getD (baseConfidence "phishingLinks"))
        (history.length + 1) (extractFeatures current).phishingLinks
        (catIM .link (List.enum history |>.foldl
          (fun acc p => aggTurn acc (p.1 + 1) p.2.text) emptyIntelMap)) = _
    rw [show List.enum history = List.enumFrom 0 history from rfl, hb]
    unfold catCurrentConf
    by_cases hp : (((extractFeatures current).phishingLinks.any
        (fun l => strStarts (lowerStr l) "upi://pay") : Bool) : Prop)
    · rw [if_pos hp, if_pos hp]
      rfl
    · rw [if_neg hp, if_neg hp]
      rfl
  | phone =>
    show addEvidenceCore ((none : Option ℚ).getD (baseConfidence "phoneNumbers"))
        (history.length + 1) (extractFeatures current).phoneNumbers
        (catIM .phone (List.enum history |>.foldl
          (fun acc p => aggTurn acc (p.1 + 1) p.2.text) emptyIntelMap)) = _
    rw [show List.enum history = List.enumFrom 0 history from rfl, hb]
    rfl
  | email =>
    show addEvidenceCore ((none : Option ℚ).getD (baseConfidence "emailIds"))
        (history.length + 1) (extractFeatures current).emailIds
        (catIM .email (List.enum history |>.foldl
          (fun acc p => aggTurn acc (p.1 + 1) p.2.text) emptyIntelMap)) = _
    rw [show List.enum history = List.enumFrom 0 history from rfl, hb]
    rfl

theorem addEvidenceCoreMono (conf : ℚ) (turn : Nat) (values : List String)
    (recs : List EvidenceRecord) (k : String) (r : EvidenceRecord)
    (h : lookupRec k recs = some r) :
    ∃ r', lookupRec k (addEvidenceCore conf turn values recs) = some r' ∧
      r'.value = r.value ∧ r.confidence ≤ r'.confidence ∧ r'.sourceTurn ≤ r.sourceTurn := by
  rw [lookupAddEvidenceCore]
  by_cases hc : (((cleanValues values).contains k : Bool) : Prop)
  · rw [if_pos hc, h]
    exact ⟨⟨r.value, max r.confidence conf, min r.sourceTurn turn⟩, rfl, rfl,
      le_max_left _ _, min_le_left _ _⟩
  · rw [if_neg hc, h]
    exact ⟨r, rfl, rfl, le_refl _, le_refl _⟩

/-- C2: after every evidence-aggregation step, each (category, value) pair
has at most one record (the per-category keys are pairwise distinct); a
record's confidence is the maximum confidence over all its observations in
the step and its sourceTurn is the earliest observing turn; a value with no
observation has no record; and re-adding values to an existing store never
lowers a record's confidence and never raises its sourceTurn. -/
theorem C2_evidence_aggregation_invariant (cat : Category) (history : List Msg)
    (current : String) (k : String) :
    (((catRecords cat (aggregateEvidenceFromHistory history current)).map
        (fun r => r.value)).Nodup) ∧
    (lookupRec k (catRecords cat (aggregateEvidenceFromHistory history current)) = none →
      sightings (catBatches cat history current) k = []) ∧
    (∀ r, lookupRec k (catRecords cat (aggregateEvidenceFromHistory history current)) = some r →
      r.value = k ∧
      (∃ s ∈ sightings (catBatches cat history current) k, r.confidence = s.1) ∧
      (∀ s ∈ sightings (catBatches cat history current) k, s.1 ≤ r.confidence) ∧
      (∃ s ∈ sightings (catBatches cat history current) k, r.sourceTurn = s.2) ∧
      (∀ s ∈ sightings (catBatches cat history current) k, r.sourceTurn ≤ s.2)) ∧
    (∀ (conf : ℚ) (turn : Nat) (values : List String) (recs : List EvidenceRecord)
        (r : EvidenceRecord), lookupRec k recs = some r →
      ∃ r', lookupRec k (addEvidenceCore conf turn values recs) = some r' ∧
        r'.value = r.value ∧ r.confidence ≤ r'.confidence ∧ r'.sourceTurn ≤ r.sourceTurn) := by
  rw [catAggregate]
  have hfold := lookupRunBatchesFrom k (catBatches cat history current) []
  have hempty : lookupRec k ([] : List EvidenceRecord) = none := rfl
  rw [hempty] at hfold
  refine ⟨nodupRunBatchesFrom _ [] (by simp), ?_, ?_, ?_⟩
  · intro hnone
    rw [hfold] at hnone
    rcases foldSightNone k (sightings (catBatches cat history current) k) with
      ⟨hss, _⟩ | ⟨r, hr, _⟩
    · exact hss
    · rw [hr] at hnone
      exact absurd hnone (by simp)
  · intro r hsome
    rw [hfold] at hsome
    rcases foldSightNone k (sightings (catBatches cat history current) k) with
      ⟨_, hnone⟩ | ⟨r', hr', hval, hcatt, hcbound, htatt, htbound⟩
    · rw [hnone] at hsome
      exact absurd hsome (by simp)
    · rw [hr'] at hsome
      obtain rfl : r' = r := by injection hsome
      exact ⟨hval, hcatt, hcbound, htatt, htbound⟩
  · intro conf turn values recs r h
    exact addEvidenceCoreMono conf turn values recs k r h


/-- C1: the handler's return value is a two-field object `{status, reply}`;
on the concrete phishing request it is exactly
`{"success", the selected phishing follow-up}` — none of the detection or
evidence fields of the claim are part of the returned decision object. -/
theorem C1_counterexample :
    (receiveMessage none reqC1 0).2 =
      ⟨"success", "It’s asking for netbanking/login—verification me login kyu chahiye?"⟩ := by
  rw [receiveMessage_response]
  show (⟨"success",
    match (agentDecision (detectScam reqC1.text []) []
        (aggregateEvidenceFromHistory [] reqC1.text) none).agentReply with
    | some r => if r == "" then defaultReply else r
    | none => defaultReply⟩ : Response) = _
  have ht : reqC1.text = msgC8 := rfl
  rw [ht, agentReplyC8]
  rfl

/-- C1 (amended): every call of the handler returns exactly a
`{status := "success", reply := r}` object with a non-empty reply string;
the detection, evidence and cluster data stay in the server-side store and
the side channel, not in the response. -/
theorem C1_response_status_reply (stored : Option SessionRec) (req : Request) (now : ℚ) :
    ∃ r : String, (receiveMessage stored req now).2 = ⟨"success", r⟩ ∧ r ≠ "" := by
  refine ⟨(receiveMessage stored req now).2.reply, ?_, receiveMessage_reply_ne stored req now⟩
  calc (receiveMessage stored req now).2
      = ⟨(receiveMessage stored req now).2.status, (receiveMessage stored req now).2.reply⟩ := rfl
    _ = ⟨"success", (receiveMessage stored req now).2.reply⟩ := by
        rw [receiveMessage_status]

/-- C3: once a session's stored threatClusterId is non-null it is pinned:
any further sequence of handled requests leaves it unchanged. -/
theorem C3_cluster_pinned (reqs : List Request) (s : SessionRec) (c : String)
    (hc : s.threatClusterId = some c) :
    (processTurns s reqs).threatClusterId = some c := by
  induction reqs generalizing s with
  | nil => exact hc
  | cons r rs ih =>
    show (processTurns ((receiveMessage (some s) r 0).1) rs).threatClusterId = some c
    exact ih _ (receiveMessage_cluster_pinned s r 0 c hc)

theorem C3_cluster_pinned_witness :
    (processTurns ⟨0, 0, 1, [], some "cluster_x"⟩ [reqC1]).threatClusterId = some "cluster_x" :=
  C3_cluster_pinned [reqC1] ⟨0, 0, 1, [], some "cluster_x"⟩ "cluster_x" rfl

/-- C4: a current message with no link, OTP cue, payment-handle or bank
signal of its own is assigned stage PHISHING when an earlier history
message contained a link: the stage latches cumulative strong-signal flags. -/
theorem C4_counterexample :
    (detectScam msgC4 [linkMsg]).scamStage = "PHISHING" ∧
    (detectScam msgC4 [linkMsg]).scamDetected = true ∧
    urlFindall msgC4 = [] ∧ upiFindall msgC4 = [] ∧ bankFindall msgC4 = [] ∧
    ifscFindall msgC4 = [] ∧ dsHasOtpCurrent msgC4 = false ∧
    (detectScam msgC4 []).scamStage = "BENIGN" := by decide

/-- C4 (amended): the stage of a detected message is `detect_stage` applied
to the *cumulative* strong-signal flags (current message or any history
message); in particular any link anywhere in the session forces stage
PHISHING for a detected current message. -/
theorem C4_stage_cumulative (t : String) (h : List Msg)
    (hd : (detectScam t h).scamDetected = true) :
    (detectScam t h).scamStage = dsStage t h ∧
    (dsHasUrlAny t h = true → (detectScam t h).scamStage = "PHISHING") := by
  have hs := detectScam_stage_detected t h hd
  refine ⟨hs, fun hu => ?_⟩
  rw [hs]
  unfold dsStage
  rw [hu]
  exact detectStage_url (lowerStr t) (dsHasUpiAny t h) (dsHasBankAny t h) (dsHasOtpAny t h)

theorem C4_stage_witness :
    (detectScam msgC4 [linkMsg]).scamStage = dsStage msgC4 [linkMsg] ∧
    (detectScam msgC4 [linkMsg]).scamStage = "PHISHING" := by
  have h := C4_stage_cumulative msgC4 [linkMsg] (by decide)
  exact ⟨h.1, h.2 (by decide)⟩

/-- C5: a detected turn with confidence 0.6 ∈ [0.5, 0.8) and *no* strong
evidence aggregated (no payment handle, bank account, routing code or link
record) still gets INTELLIGENCE_EXTRACTION / ENGAGE, because the current
message's payment *intent* alone activates the evidence lock. -/
theorem C5_counterexample :
    (detectScam msgC5 []).scamDetected = true ∧
    (detectScam msgC5 []).confidenceScore = 0.6 ∧
    (intelGaps (aggregateEvidenceFromHistory [] msgC5)).hasAnyStrong = false ∧
    (aggregateEvidenceFromHistory [] msgC5).hasPaymentIntent = true ∧
    (agentDecision (detectScam msgC5 []) [] (aggregateEvidenceFromHistory [] msgC5) none).agentMode
      = "INTELLIGENCE_EXTRACTION" ∧
    (agentDecision (detectScam msgC5 []) [] (aggregateEvidenceFromHistory [] msgC5) none).action
      = "ENGAGE" := by decide

/-- C5 (amended): for a detected analysis, confidence ≥ 0.80 yields
INTELLIGENCE_EXTRACTION / ENGAGE; confidence in [0.50, 0.80) yields
INTELLIGENCE_EXTRACTION / ENGAGE exactly when the evidence lock
(any strong evidence record, or the cumulative payment or QR intent flag)
holds and SOFT_ENGAGEMENT / MONITOR otherwise; confidence < 0.50 yields
PASSIVE / MONITOR with no reply. -/
theorem C5_mode_evidence_lock (analysis : Detection) (h2 : List Msg) (intel : EvidenceSet)
    (sid : Option String) (hd : analysis.scamDetected = true) :
    ((0.8 : ℚ) ≤ analysis.confidenceScore →
      (agentDecision analysis h2 intel sid).agentMode = "INTELLIGENCE_EXTRACTION" ∧
      (agentDecision analysis h2 intel sid).action = "ENGAGE") ∧
    ((0.5 : ℚ) ≤ analysis.confidenceScore → analysis.confidenceScore < 0.8 →
      (agentDecision analysis h2 intel sid).agentMode =
        (if (intelGaps intel).hasAnyStrong || intel.hasPaymentIntent || intel.hasQRIntent
          then "INTELLIGENCE_EXTRACTION" else "SOFT_ENGAGEMENT") ∧
      (agentDecision analysis h2 intel sid).action =
        (if (intelGaps intel).hasAnyStrong || intel.hasPaymentIntent || intel.hasQRIntent
          then "ENGAGE" else "MONITOR")) ∧
    (analysis.confidenceScore < 0.5 →
      (agentDecision analysis h2 intel sid).agentMode = "PASSIVE" ∧
      (agentDecision analysis h2 intel sid).action = "MONITOR" ∧
      (agentDecision analysis h2 intel sid).agentReply = none) := by
  simp only [agentDecision, hd, Bool.not_true, Bool.false_eq_true, if_false]
  refine ⟨fun h08 => ?_, fun h05 h8 => ?_, fun hlt => ?_⟩
  · rw [if_pos h08]
    exact ⟨rfl, rfl⟩
  · have h08' : ¬ (0.8 : ℚ) ≤ analysis.confidenceScore := not_le.mpr h8
    rw [if_neg h08']
    have hdec : decide ((0.5 : ℚ) ≤ analysis.confidenceScore) = true := decide_eq_true h05
    simp only [hdec, Bool.true_and]
    cases hl : ((intelGaps intel).hasAnyStrong || intel.hasPaymentIntent || intel.hasQRIntent) with
    | true =>
      exact ⟨rfl, rfl⟩
    | false =>
      rw [if_pos h05]
      exact ⟨rfl, rfl⟩
  · have h08' : ¬ (0.8 : ℚ) ≤ analysis.confidenceScore :=
      not_le.mpr (lt_trans hlt (by norm_num))
    have h05' : ¬ (0.5 : ℚ) ≤ analysis.confidenceScore := not_le.mpr hlt
    rw [if_neg h08']
    have hdec : decide ((0.5 : ℚ) ≤ analysis.confidenceScore) = false := decide_eq_false h05'
    simp only [hdec, Bool.false_and, Bool.false_eq_true, if_false]
    rw [if_neg h05']
    exact ⟨rfl, rfl, rfl⟩

theorem C5_mode_witness :
    (agentDecision (detectScam msgC5 []) [] (aggregateEvidenceFromHistory [] msgC5) none).agentMode
      = "INTELLIGENCE_EXTRACTION" ∧
    (agentDecision (detectScam msgC5 []) [] (aggregateEvidenceFromHistory [] msgC5) none).action
      = "ENGAGE" := by
  have h := (C5_mode_evidence_lock (detectScam msgC5 []) [] (aggregateEvidenceFromHistory [] msgC5)
    none (by decide)).2.1 (by decide) (by decide)
  have hl : ((intelGaps (aggregateEvidenceFromHistory [] msgC5)).hasAnyStrong
      || (aggregateEvidenceFromHistory [] msgC5).hasPaymentIntent
      || (aggregateEvidenceFromHistory [] msgC5).hasQRIntent) = true := by decide
  rw [hl] at h
  exact h

/-- C6: the benign-vocabulary deduction is −0.20 (not −0.30) and its
keyword-hit threshold is ≤ 2 (a 3-hit benign message gets no deduction);
moreover the guard's strong-signal test covers the current message only:
with a link in history (a cumulative strong signal) the deduction still
applies. -/
theorem C6_counterexample :
    benignGuard (lowerStr msgC6) (keywordHitsOf (lowerStr msgC6)) false ≠ -(0.30 : ℚ) ∧
    benignGuard (lowerStr "please verify your kyc account balance")
      ["kyc", "verify", "account"] false = 0 ∧
    dsHasUrlAny msgC6 [linkMsg] = true ∧
    detectScamScore msgC6 [linkMsg] = 0.18 ∧
    (detectScam msgC6 [linkMsg]).confidenceScore = 0.18 := by decide

/-- C6 (amended): with a strong signal in the current message the guard
returns 0; otherwise a benign-banking-vocabulary message with at most 2
keyword hits gets −0.20, a greeting message (not in the benign branch) with
at most 1 hit gets −0.25, and the guard always lies in [−0.25, 0]. -/
theorem C6_benign_guard_characterization (text : String) (hits : List String) (strong : Bool) :
    benignGuard text hits true = 0 ∧
    (containsAny text BENIGN_CONTEXT = true → hits.length ≤ 2 →
      benignGuard text hits false = -(0.20 : ℚ)) ∧
    ((containsAny text BENIGN_CONTEXT && decide (hits.length ≤ 2)) = false →
      containsAny text RECON_KW = true → hits.length ≤ 1 →
      benignGuard text hits false = -(0.25 : ℚ)) ∧
    -(0.25 : ℚ) ≤ benignGuard text hits strong ∧ benignGuard text hits strong ≤ 0 := by
  refine ⟨rfl, fun hb h2 => ?_, fun hnb hr h1 => ?_, ?_, ?_⟩
  · show (if (containsAny text BENIGN_CONTEXT && decide (hits.length ≤ 2)) = true
        then (-0.20 : ℚ)
        else if (containsAny text RECON_KW && decide (hits.length ≤ 1)) = true
        then (-0.25 : ℚ) else 0) = -(0.20 : ℚ)
    rw [if_pos (by rw [hb, decide_eq_true h2]; rfl)]
  · show (if (containsAny text BENIGN_CONTEXT && decide (hits.length ≤ 2)) = true
        then (-0.20 : ℚ)
        else if (containsAny text RECON_KW && decide (hits.length ≤ 1)) = true
        then (-0.25 : ℚ) else 0) = -(0.25 : ℚ)
    rw [hnb]
    rw [if_neg (by simp), if_pos (by rw [hr, decide_eq_true h1]; rfl)]
  · unfold benignGuard
    repeat' split
    all_goals norm_num
  · unfold benignGuard
    repeat' split
    all_goals norm_num

theorem C6_guard_witness :
    benignGuard (lowerStr msgC6) (keywordHitsOf (lowerStr msgC6)) false = -(0.20 : ℚ) :=
  (C6_benign_guard_characterization (lowerStr msgC6) (keywordHitsOf (lowerStr msgC6)) false).2.1
    (by decide) (by decide)

/-- C7: the broad UPI regex finds `support@helpdesk`, the allow-list
validator rejects it and the extractor drops it, yet the detector's +0.38
term fires anyway (it only checks the raw regex hits), lifting the score of
the generic-email message to 0.58. -/
theorem C7_counterexample :
    isValidUpiHandle "support@helpdesk" = false ∧
    upiFindall msgC7 = ["support@helpdesk"] ∧
    upiTerm msgC7 = 0.38 ∧
    (extractFeatures msgC7).upiIds = [] ∧
    (detectScam msgC7 []).scamDetected = true ∧
    (detectScam msgC7 []).confidenceScore = 0.58 := by decide

/-- C7 (amended): the +0.38 term fires exactly when the broad UPI regex
finds any candidate in the raw current message (no allow-list validation);
the suffix allow-list is applied only in the extractor, whose `upiIds`
output therefore contains valid payment handles only. -/
theorem C7_payment_handle_term (m : String) :
    upiTerm m = (if (upiFindall m).isEmpty then 0 else (0.38 : ℚ)) ∧
    (∀ v ∈ (extractFeatures m).upiIds, isValidUpiHandle v = true) := by
  constructor
  · unfold upiTerm
    cases he : (upiFindall m).isEmpty with
    | true => simp [he]
    | false => simp [he]
  · intro v hv
    have hfe : (extractFeatures m).upiIds
        = dedupe ((dedupe (upiFindall m)).filter isValidUpiHandle) := rfl
    rw [hfe] at hv
    exact (List.mem_filter.mp (dedupe_subset v _ hv)).2

theorem C7_handle_witness : isValidUpiHandle "merchant@ybl" = true :=
  (C7_payment_handle_term "pay merchant@ybl").2 "merchant@ybl" (by decide)

/-- C8: on the example message the selected reply is the phishing
*follow-up* `It’s asking for netbanking/login—verification me login kyu
chahiye?`, not a request to resend the link: the ask-link pool is skipped
because the link is already captured (`needLink` is false). -/
theorem C8_counterexample :
    (agentDecision (detectScam msgC8 []) [] (aggregateEvidenceFromHistory [] msgC8) none).agentReply
      = some "It’s asking for netbanking/login—verification me login kyu chahiye?" ∧
    askLink.contains "It’s asking for netbanking/login—verification me login kyu chahiye?"
      = false ∧
    (intelGaps (aggregateEvidenceFromHistory [] msgC8)).needLink = false :=
  ⟨agentReplyC8, by decide, by decide⟩

/-- C8 (amended): the example message yields detected = true, stage
PHISHING, confidence ≥ 0.50, and the reply is a phishing follow-up asking
why login credentials are needed (drawn from the phishing-follow-up pool,
since the link is already captured from the message itself). -/
theorem C8_phishing_example :
    (detectScam msgC8 []).scamDetected = true ∧
    (detectScam msgC8 []).scamStage = "PHISHING" ∧
    (0.5 : ℚ) ≤ (detectScam msgC8 []).confidenceScore ∧
    (agentDecision (detectScam msgC8 []) [] (aggregateEvidenceFromHistory [] msgC8) none).agentReply
      = some "It’s asking for netbanking/login—verification me login kyu chahiye?" ∧
    phishingFollowup.contains
      "It’s asking for netbanking/login—verification me login kyu chahiye?" = true :=
  ⟨by decide, by decide, by decide, agentReplyC8, by decide⟩

/-- C9: two consecutive turns of the same session (turns 5 and 6 of an
all-greeting conversation) produce the identical reply: there is no
lastReplyText-based next-line selection anywhere in reply selection. -/
theorem C9_counterexample :
    (receiveMessage (some sess4) reqHi 0).2.reply =
      "Aapka issue exactly kya hai—payment fail, PIN issue, ya account warning?" ∧
    (receiveMessage (some ((receiveMessage (some sess4) reqHi 0).1)) reqHi 0).2.reply =
      "Aapka issue exactly kya hai—payment fail, PIN issue, ya account warning?" := by
  have hrep5 : (agentDecision (detectScam reqHi.text sess4.history) sess4.history
      (aggregateEvidenceFromHistory sess4.history reqHi.text) none).agentReply
      = some "Aapka issue exactly kya hai—payment fail, PIN issue, ya account warning?" :=
    benignReply5 _ _ (by decide)
  have hp5 : (receiveMessage (some sess4) reqHi 0).1 = (⟨0, 0, 5, hist5, none⟩ : SessionRec) := by
    decide
  have hrep6 : (agentDecision
      (detectScam reqHi.text (⟨0, 0, 5, hist5, none⟩ : SessionRec).history)
      (⟨0, 0, 5, hist5, none⟩ : SessionRec).history
      (aggregateEvidenceFromHistory (⟨0, 0, 5, hist5, none⟩ : SessionRec).history reqHi.text)
      none).agentReply
      = some "Aapka issue exactly kya hai—payment fail, PIN issue, ya account warning?" :=
    benignReply6 _ _ (by decide)
  constructor
  · conv_lhs => rw [receiveMessage_response]
    rw [hrep5]
    rfl
  · rw [hp5]
    conv_lhs => rw [receiveMessage_response]
    rw [hrep6]
    rfl

/-- C9 (amended): reply selection is a pure function of (sessionId, mode,
stage, turnIndex) with no dependence on the previous reply text: on the
benign path any two analyses/histories/evidence sets with equal history
lengths give the identical reply, so consecutive equal-length turns can
repeat verbatim. -/
theorem C9_benign_reply_turn_only (a1 a2 : Detection) (g1 g2 : List Msg)
    (i1 i2 : EvidenceSet) (sid : Option String)
    (hd1 : a1.scamDetected = false) (hd2 : a2.scamDetected = false)
    (hlen : g1.length = g2.length) :
    (agentDecision a1 g1 i1 sid).agentReply = (agentDecision a2 g2 i2 sid).agentReply := by
  rw [agentDecision_benign a1 g1 i1 sid hd1, agentDecision_benign a2 g2 i2 sid hd2]
  show some (pick benignHelpDecision
      (makeRng sid "BENIGN_HELP" "BENIGN" (max 1 (g1.length + 1)))).1 =
    some (pick benignHelpDecision
      (makeRng sid "BENIGN_HELP" "BENIGN" (max 1 (g2.length + 1)))).1
  rw [hlen]

theorem C9_reply_witness :
    (agentDecision (detectScam "hi" hist4) hist4
      (aggregateEvidenceFromHistory hist4 "hi") none).agentReply =
    (agentDecision (detectScam "hello" histAlt) histAlt
      (aggregateEvidenceFromHistory histAlt "hello") none).agentReply :=
  C9_benign_reply_turn_only _ _ _ _ _ _ none (by decide) (by decide) (by decide)

/-- C10: a detected analysis always carries a rounded confidence ≥ 0.5, so
the agentReply = none fallback branch of `agent_decision` (message
`Suspicious but not confirmed`) is unreachable on detector output, and the
handler's reply string is never empty. -/
theorem C10_fallback_unreachable (t : String) (h h2 : List Msg) (intel : EvidenceSet)
    (sid : Option String) (stored : Option SessionRec) (req : Request) (now : ℚ)
    (hd : (detectScam t h).scamDetected = true) :
    (0.5 : ℚ) ≤ (detectScam t h).confidenceScore ∧
    (agentDecision (detectScam t h) h2 intel sid).agentReply.isSome = true ∧
    (agentDecision (detectScam t h) h2 intel sid).message ≠ "Suspicious but not confirmed" ∧
    (receiveMessage stored req now).2.reply ≠ "" := by
  have hsc : (0.5 : ℚ) ≤ detectScamScore t h := (detectScam_detected_iff t h).mp hd
  have hconf : (0.5 : ℚ) ≤ (detectScam t h).confidenceScore := by
    rw [detectScam_conf]
    exact round2_ge_half _ hsc
  obtain ⟨h1, h2'⟩ := agentDecision_detected_reply (detectScam t h) h2 intel sid hd hconf
  exact ⟨hconf, h1, h2', receiveMessage_reply_ne stored req now⟩

theorem C10_fallback_witness :
    (0.5 : ℚ) ≤ (detectScam msgC8 []).confidenceScore ∧
    (agentDecision (detectScam msgC8 []) [] (aggregateEvidenceFromHistory [] msgC8)
      none).agentReply.isSome = true ∧
    (agentDecision (detectScam msgC8 []) [] (aggregateEvidenceFromHistory [] msgC8)
      none).message ≠ "Suspicious but not confirmed" ∧
    (receiveMessage none reqC1 0).2.reply ≠ "" :=
  C10_fallback_unreachable msgC8 [] [] (aggregateEvidenceFromHistory [] msgC8) none none reqC1 0
    (by decide)

/-- C2 (witness instance): a bank-account value seen in history turn 1 and
again in the current turn keeps one record with the base confidence and the
earliest turn; the invariant theorem applied at this input. -/
theorem C2_aggregation_witness :
    (⟨"123456789012", (0.86 : ℚ), 1⟩ : EvidenceRecord).value = "123456789012" ∧
    (∃ s ∈ sightings (catBatches Category.bank [⟨"scammer", "pay 123456789012", "0"⟩]
        "send to 123456789012 again") "123456789012",
      (⟨"123456789012", (0.86 : ℚ), 1⟩ : EvidenceRecord).confidence = s.1) ∧
    (∀ s ∈ sightings (catBatches Category.bank [⟨"scammer", "pay 123456789012", "0"⟩]
        "send to 123456789012 again") "123456789012",
      s.1 ≤ (⟨"123456789012", (0.86 : ℚ), 1⟩ : EvidenceRecord).confidence) ∧
    (∃ s ∈ sightings (catBatches Category.bank [⟨"scammer", "pay 123456789012", "0"⟩]
        "send to 123456789012 again") "123456789012",
      (⟨"123456789012", (0.86 : ℚ), 1⟩ : EvidenceRecord).sourceTurn = s.2) ∧
    (∀ s ∈ sightings (catBatches Category.bank [⟨"scammer", "pay 123456789012", "0"⟩]
        "send to 123456789012 again") "123456789012",
      (⟨"123456789012", (0.86 : ℚ), 1⟩ : EvidenceRecord).sourceTurn ≤ s.2) :=
  (C2_evidence_aggregation_invariant Category.bank [⟨"scammer", "pay 123456789012", "0"⟩]
    "send to 123456789012 again" "123456789012").2.2.1 ⟨"123456789012", 0.86, 1⟩ (by decide)

end Honeypot
